import Mathlib

/-!
The network-payments-cli transaction construction and confirmation pipeline.

A shallow embedding of the Go sources under `cmd/` and the properties of the
numeric utilities, the allocation identity generator, the receipt poller, the
submitting calls, and the commands built on them (open-allocation,
close-allocation, send-payment, paygrt).

Conventions of the embedding:
* `uint64` values are natural numbers read modulo `2^64`, `int64` values are
  integers, `*big.Int` values are unbounded integers;
* `[]byte` is a list of naturals, `time.Duration` is an integer number of
  nanoseconds;
* a Go result pair `(v, err)` is an `Except String _`;
* the collaborators outside the repository (RPC endpoint, cryptography,
  ABI codec, base-58 decoding, clock) are parameters of the definitions;
* a call is a function from the events so far to its outcome and the events
  after it, so that the answers of the endpoint may depend on what happened
  before; a loop that may not end takes fuel;
* `eth.NewMethodDef` is applied to constant signatures only and is taken to
  succeed; the flag getters of a command are taken to succeed on its own flags;
* the Go parameters `to` and `from` are written `toStr` and `sender`.
-/

namespace NetworkPayments

/-! ## Definitions -/

/-- Byte strings (`[]byte`). -/
abbrev Bytes := List Nat

deriving instance DecidableEq for Except

/-! ### Numeric utilities (`cmd/utils/utils.go`) -/

/-- The Go conversion `int64(x)` of a `uint64` value `x`: the same 64 bits read
in two's complement. -/
def int64OfUint64 (x : Nat) : Int :=
  if x % 2 ^ 64 < 2 ^ 63 then ((x % 2 ^ 64 : Nat) : Int)
  else ((x % 2 ^ 64 : Nat) : Int) - 2 ^ 64

/-- Go `utils.ConvertToWei`: `big.NewInt(int64(amount))` multiplied by
`Exp(10, 18)`. -/
def ConvertToWei (amount : Nat) : Int :=
  let tokenAmount : Int := int64OfUint64 amount
  let multiplier : Int := (10 : Int) ^ 18
  tokenAmount * multiplier

/-! ### Receipt poller (`cmd/utils/utils.go`) -/

/-- Go `time.Millisecond` in nanoseconds. -/
def millisecond : Int := 1000000

/-- Go `time.Second` in nanoseconds. -/
def second : Int := 1000000000

/-- Go `time.Minute` in nanoseconds. -/
def minute : Int := 60000000000

/-- Go `maxWaitTime := 5 * time.Minute`. -/
def maxWaitTime : Int := 5 * minute

/-- A log entry of a receipt (its raw data). -/
abbrev LogEntry := Bytes

/-- The part of `rpc.TransactionReceipt` the program reads. -/
structure TransactionReceipt where
  logs : List LogEntry
deriving DecidableEq, Repr

/-- One answer of `rpcClient.TransactionReceipt`: an error, a nil receipt
(`.ok none`, not mined yet) or a receipt. -/
abbrev PollResponse := Except String (Option TransactionReceipt)

/-- What a run of the polling loop did: its return value (`none` while the loop
is still running when the fuel is spent), the sleeps it made in order, and the
number of polls it made. -/
structure PollRun where
  result : Option (Except String (Option TransactionReceipt))
  sleeps : List Int
  polls : Nat

/-- The `for` loop of `FetchReceiptWithProgress`. `poll i` is the answer to the
`i`-th receipt request, `since i` the value of `time.Since(startTime)` read
after it; the loop state is the poll index, the current backoff and the sleeps
made so far. -/
def fetchLoop (poll : Nat → PollResponse) (since : Nat → Int) :
    Nat → Nat → Int → List Int → PollRun
  | 0, i, _, sleeps => { result := none, sleeps := sleeps, polls := i }
  | fuel + 1, i, backoff, sleeps =>
    match poll i with
    | .error e => { result := some (.error e), sleeps := sleeps, polls := i + 1 }
    | .ok none =>
      if since i > maxWaitTime then
        { result := some (.ok none), sleeps := sleeps, polls := i + 1 }
      else
        fetchLoop poll since fuel (i + 1)
          (if backoff < 12 * second then backoff * 2 else backoff)
          (sleeps ++ [backoff])
    | .ok (some receipt) =>
      { result := some (.ok (some receipt)), sleeps := sleeps, polls := i + 1 }

/-- Go `utils.FetchReceiptWithProgress`: the loop started with a backoff of
500 ms. -/
def FetchReceiptWithProgress (poll : Nat → PollResponse) (since : Nat → Int)
    (fuel : Nat) : PollRun :=
  fetchLoop poll since fuel 0 (500 * millisecond) []

/-- The backoff update of the loop body. -/
def nextBackoff (backoff : Int) : Int :=
  if backoff < 12 * second then backoff * 2 else backoff

/-- The first `n` backoffs of a loop entered with backoff `b`. -/
def backoffsFrom : Int → Nat → List Int
  | _, 0 => []
  | b, n + 1 => b :: backoffsFrom (nextBackoff b) n

/-- A poller that never finds the receipt. -/
def neverFound : Nat → PollResponse := fun _ => .ok none

/-- The clock of a run whose polls all miss: it does not run backward, and the
sleep made after the poll number `i` lasts at least the backoff of that round,
so the reading after the next poll is at least that much later. -/
def SleepAdvancesClock (since : Nat → Int) : Prop :=
  0 ≤ since 0 ∧ ∀ i, since i + min (500 * millisecond * 2 ^ i) (16 * second) ≤ since (i + 1)

/-- A clock that advances by exactly 16 s per round. -/
def steadyClock : Nat → Int := fun i => (i : Int) * (16 * second)

/-- A clock that stays at zero for the first three reads and then shows 400 s. -/
def clockPastCeilingAtThree : Nat → Int := fun i => if i < 3 then 0 else 400 * second

/-- A poller whose third request (index 2) fails with an RPC error. -/
def failsAtThird : Nat → PollResponse := fun i => if i < 2 then .ok none else .error "rpc down"

/-! ### Content identifiers (`cmd/utils/utils.go`) -/

/-- Go `utils.ConvertIPFSHashToByteString`, over the decoder
`multihash.FromB58String` of the multihash library. -/
def ConvertIPFSHashToByteString (fromB58String : String → Except String Bytes)
    (hash : String) : Except String Bytes :=
  match fromB58String hash with
  | .error err => .error ("decoding base58 string: " ++ err)
  | .ok decoded =>
    let decoded := if decoded.length = 34 then decoded.drop 2 else decoded
    .ok decoded

/-- The base-58 alphabet of content identifiers. -/
def b58Alphabet : List Char :=
  "123456789ABCDEFGHJKLMNPQRSTUVWXYZabcdefghijkmnopqrstuvwxyz".data

/-- The value of a base-58 digit. -/
def b58Digit (c : Char) : Option Nat :=
  if c ∈ b58Alphabet then some (b58Alphabet.indexOf c) else none

/-- The number written by a list of base-58 digits, most significant first. -/
def b58Value : List Char → Nat → Option Nat
  | [], acc => some acc
  | c :: cs, acc =>
    match b58Digit c with
    | none => none
    | some d => b58Value cs (acc * 58 + d)

/-- The big-endian bytes of a number, without leading zeros. -/
def bytesBE : Nat → Nat → Bytes → Bytes
  | 0, _, acc => acc
  | fuel + 1, n, acc => if n = 0 then acc else bytesBE fuel (n / 256) (n % 256 :: acc)

/-- Base-58 decoding: each leading `1` is a zero byte, the rest is the
big-endian form of the number. -/
def b58Decode (s : String) : Except String Bytes :=
  if s.data = [] then .error "zero length string"
  else
    match b58Value s.data 0 with
    | none => .error "invalid base58 digit"
    | some n =>
      .ok (List.replicate (s.data.takeWhile (fun c => c == '1')).length 0 ++
        bytesBE s.data.length n [])

/-- An unsigned varint at the head of a byte string: seven bits per byte, least
significant group first, the high bit marking continuation, at most nine bytes,
no trailing zero group. -/
def uvarint : Nat → Bytes → Nat → Nat → Option (Nat × Bytes)
  | 0, _, _, _ => none
  | _ + 1, [], _, _ => none
  | fuel + 1, b :: rest, shift, acc =>
    if b < 128 then
      if b = 0 ∧ shift ≠ 0 then none else some (acc + b * 2 ^ shift, rest)
    else uvarint fuel rest (shift + 7) (acc + (b - 128) * 2 ^ shift)

/-- The validation made by `multihash.Cast`: a varint code, a varint length and
a digest of exactly that length. -/
def multihashCast (buf : Bytes) : Except String Bytes :=
  if buf.length < 2 then .error "multihash too short. must be >= 2 bytes"
  else
    match uvarint 9 buf 0 0 with
    | none => .error "varint not terminated"
    | some (_, rest) =>
      match uvarint 9 rest 0 0 with
      | none => .error "varint not terminated"
      | some (length, digest) =>
        if digest.length = length then .ok buf
        else .error "multihash length inconsistent"

/-- Modelled from the spec: `multihash.FromB58String` of the external multihash
library (base-58 decoding of the content identifier into its raw multihash
bytes, followed by the validation of the multihash layout). -/
def FromB58String (s : String) : Except String Bytes :=
  match b58Decode s with
  | .error _ => .error "input isn't valid multihash"
  | .ok b => multihashCast b

/-- A version-0 content identifier (sha2-256 multihash, 34 bytes decoded). -/
def sampleCidV0 : String := "QmYwAPJzv5CZsnA625s3Xf2nemtYgPpHdWEz79ojWnPbdG"

/-- The digest of `sampleCidV0`. -/
def sampleCidV0Digest : Bytes :=
  [157, 108, 43, 229, 15, 112, 105, 83, 71, 154, 185, 223, 44, 227, 237, 202, 144, 182, 128, 83,
   192, 11, 48, 4, 183, 240, 172, 203, 225, 232, 238, 223]

/-- The base-58 form of the sha1 multihash `11140beec7...8a33` (22 bytes). -/
def sampleSha1Multihash : String := "5dqx43zNtUUbPj97vJhpHyUUPyrmXG"

/-! ### Allocation identity (`cmd/utils/allocation.go`,
`cmd/receivepayment/receivepayment_openallocation.go`) -/

/-- One hexadecimal digit, lower case. -/
def hexDigit (n : Nat) : Char :=
  "0123456789abcdef".data.getD n '0'

/-- Go `hex.EncodeToString`. -/
def hexEncode (b : Bytes) : String :=
  String.mk (b.foldr (fun x acc => hexDigit (x / 16 % 16) :: hexDigit (x % 16) :: acc) [])

/-- The cryptographic collaborators of the identity generator, with the outcome
of each in one run:
* `hexToAddress`: the bytes of `common.HexToAddress(address)`;
* `generateKey`: the outcome of `crypto.GenerateKey()`, the key as the bytes of
  `crypto.FromECDSA(key)`;
* `pubkeyToAddress`: the bytes of `crypto.PubkeyToAddress(key.PublicKey)`;
* `newPrivateKey`: `eth.NewPrivateKey` on the hexadecimal key;
* `keccak256`: `crypto.Keccak256Hash`;
* `signPersonal`: `pk.SignPersonal(hash)`, the 65 signature bytes;
* `toInverted`: `signature.ToInverted()`;
* `recoverPersonal`: the bytes of the address of
  `signature.RecoverPersonal(hash)`. -/
structure Crypto where
  hexToAddress : String → Bytes
  generateKey : Except String Bytes
  pubkeyToAddress : Bytes → Bytes
  newPrivateKey : String → Except String Bytes
  keccak256 : Bytes → Bytes
  signPersonal : Bytes → Bytes → Except String Bytes
  toInverted : Bytes → Bytes
  recoverPersonal : Bytes → Bytes → Except String Bytes

/-- Go `utils.GenerateAllocationIDAndProof`: returns the allocation id and the
proof, or an error. -/
def GenerateAllocationIDAndProof (c : Crypto) (address : String) :
    Except String (Bytes × Bytes) :=
  let indexerAddress := c.hexToAddress address
  match c.generateKey with
  | .error err => .error ("error generating key: " ++ err)
  | .ok key =>
    let allocationIDAddress := c.pubkeyToAddress key
    match c.newPrivateKey (hexEncode key) with
    | .error err => .error ("error creating private key: " ++ err)
    | .ok pk =>
      let messageHash := c.keccak256 (indexerAddress ++ allocationIDAddress)
      match c.signPersonal pk messageHash with
      | .error err => .error ("error signing message: " ++ err)
      | .ok signature =>
        let invertedSignature := c.toInverted signature
        match c.recoverPersonal invertedSignature messageHash with
        | .error err => .error ("error recovering address: " ++ err)
        | .ok recoveredAddress =>
          if ¬ (recoveredAddress = allocationIDAddress) then
            .error "recovered address does not match allocation ID"
          else
            .ok (allocationIDAddress, invertedSignature)

/-- The copy `generateAllocationIDAndProof` of the receivepayment command. -/
def generateAllocationIDAndProof (c : Crypto) (address : String) :
    Except String (Bytes × Bytes) :=
  let indexerAddress := c.hexToAddress address
  match c.generateKey with
  | .error err => .error ("error generating key: " ++ err)
  | .ok key =>
    let allocationIDAddress := c.pubkeyToAddress key
    match c.newPrivateKey (hexEncode key) with
    | .error err => .error ("error creating private key: " ++ err)
    | .ok pk =>
      let messageHash := c.keccak256 (indexerAddress ++ allocationIDAddress)
      match c.signPersonal pk messageHash with
      | .error err => .error ("error signing message: " ++ err)
      | .ok signature =>
        let invertedSignature := c.toInverted signature
        match c.recoverPersonal invertedSignature messageHash with
        | .error err => .error ("error recovering address: " ++ err)
        | .ok recoveredAddress =>
          if ¬ (recoveredAddress = allocationIDAddress) then
            .error "recovered address does not match allocation ID"
          else
            .ok (allocationIDAddress, invertedSignature)

/-- The allocation address of the stand-in cryptography (20 bytes). -/
def toyAddress : Bytes :=
  [171, 205, 171, 205, 171, 205, 171, 205, 171, 205, 171, 205, 171, 205, 171, 205, 171, 205,
   171, 205]

/-- A small stand-in for the cryptography: the address of a key is its first
twenty bytes, a signature is the signing key followed by a recovery byte `0`,
inversion sets that byte to `27`, and recovery reads the address back from an
inverted signature (or gives `recoveredAs` when that is not empty). -/
def toyCrypto (recoveredAs : Bytes) : Crypto where
  hexToAddress := fun s => s.data.map Char.toNat
  generateKey := .ok (toyAddress ++ [1, 2])
  pubkeyToAddress := fun key => key.take 20
  newPrivateKey := fun s => if s = "" then .error "empty key" else .ok (toyAddress ++ [1, 2])
  keccak256 := fun b => [b.length, b.sum % 256]
  signPersonal := fun pk _ => .ok (pk ++ [0])
  toInverted := fun sig => sig.dropLast ++ [27]
  recoverPersonal := fun sig _ =>
    if sig.getLast? = some 27 ∧ recoveredAs = [] then .ok (sig.take 20) else .ok recoveredAs

/-! ### Submitting calls: events, outcomes and collaborators -/

/-- The envelope handed to `signer.SignTransaction`. -/
structure Transaction where
  nonce : Nat
  toAddr : Bytes
  value : Int
  gasLimit : Nat
  gasPrice : Int
  data : Bytes
deriving DecidableEq, Repr

/-- What a run does that is visible outside the process, in order. -/
inductive Event where
  | ethCall (toAddr : Bytes) (data : Bytes)
  | chainID
  | gasPrice
  | nonce (account : Bytes)
  | sign (tx : Transaction)
  | sendRaw (raw : Bytes)
  | receiptPoll (hash : Bytes)
  | sleep (d : Int)
  | upload
  | print (line : String)
deriving DecidableEq, Repr

/-- How a Go call ends: it returns a value with a nil error, returns a non-nil
error, panics, or is still in the polling loop when the fuel is spent. -/
inductive Outcome (α : Type) where
  | ok (a : α)
  | error (e : String)
  | panic (e : String)
  | running
deriving DecidableEq, Repr

/-- A computation takes the events so far and gives its outcome and the events
after it. -/
def Run (α : Type) : Type := List Event → Outcome α × List Event

/-- Sequencing: the rest runs only after a normal return. -/
def Run.bind {α β : Type} (m : Run α) (f : α → Run β) : Run β := fun h =>
  match m h with
  | (.ok a, h1) => f a h1
  | (.error e, h1) => (.error e, h1)
  | (.panic e, h1) => (.panic e, h1)
  | (.running, h1) => (.running, h1)

instance : Monad Run where
  pure := fun a h => (.ok a, h)
  bind := Run.bind

/-- Record one event. -/
def emit (ev : Event) : Run Unit := fun h => (.ok (), h ++ [ev])

/-- A statement `return ..., err` with the given message. -/
def fail {α : Type} (e : String) : Run α := fun h => (.error e, h)

/-- A guard `if cond { return ..., err }` with the given message. -/
def failIf (cond : Bool) (e : String) : Run Unit := fun h =>
  if cond then (.error e, h) else (.ok (), h)

/-- A statement `panic(err)`. -/
def goPanic {α : Type} (e : String) : Run α := fun h => (.panic e, h)

/-- The result pair of a pure collaborator. -/
def ofExcept {α : Type} (x : Except String α) : Run α := fun h =>
  match x with
  | .ok a => (.ok a, h)
  | .error e => (.error e, h)

/-- The pattern `if err != nil { return fmt.Errorf("<pre>%w", err) }`. -/
def wrapErr {α : Type} (pre : String) (m : Run α) : Run α := fun h =>
  match m h with
  | (.error e, h1) => (.error (pre ++ e), h1)
  | r => r

/-- The pattern `if err != nil { panic(err) }` of the `Must` helpers. -/
def must {α : Type} (m : Run α) : Run α := fun h =>
  match m h with
  | (.error e, h1) => (.panic e, h1)
  | r => r

/-- A request to a collaborator whose answer may depend on what happened
before: the event is recorded and the answer returned. -/
def request {α : Type} (ev : Event) (answer : List Event → Except String α) : Run α := fun h =>
  match answer h with
  | .ok a => (.ok a, h ++ [ev])
  | .error e => (.error e, h ++ [ev])

/-- An argument of a contract call. -/
inductive AbiArg where
  | address (a : Bytes)
  | bytes (b : Bytes)
  | uint (n : Int)
deriving DecidableEq, Repr

/-- The collaborators of a submitting call. The answers of the RPC endpoint and
the clock may depend on the events so far.
* `fromB58String`: `multihash.FromB58String`;
* `newAddress`, `newHash`: `eth.NewAddress`, `eth.NewHash`;
* `encode`: `methodCall.Encode()` for a method signature and its arguments;
* `newSigner`: `native.NewPrivateKeySigner` for a chain id and a key;
* `signTransaction`: `signer.SignTransaction`;
* `chainID`, `gasPrice`, `nonce`, `call`, `sendRaw`, `transactionReceipt`: the
  RPC requests; `transactionReceipt h hash i` answers the `i`-th poll of a
  polling loop entered after the events `h`;
* `since h i`: the reading of `time.Since(startTime)` after that poll. -/
structure World where
  fromB58String : String → Except String Bytes
  newAddress : String → Except String Bytes
  newHash : String → Except String Bytes
  encode : String → List AbiArg → Except String Bytes
  newSigner : Int → Bytes → Except String Unit
  signTransaction : Int → Bytes → Transaction → Except String Bytes
  chainID : List Event → Except String Int
  gasPrice : List Event → Except String Int
  nonce : List Event → Bytes → Except String Nat
  call : List Event → Bytes → Bytes → Except String String
  sendRaw : List Event → Bytes → Except String String
  transactionReceipt : List Event → Bytes → Nat → PollResponse
  since : List Event → Nat → Int

/-- The values carried by the `context.Context` of a command. -/
structure Context where
  privateKey : Option Bytes

/-- Go `utils.GRTTokenContractAddress`. -/
def GRTTokenContractAddress : String := "0x9623063377ad1b27544c965ccd7342f7ea7e88c7"

/-- Go `utils.StakingContractAddress`. -/
def StakingContractAddress : String := "0x00669a4cf01450b64e8a2a20e9b1fcb71e61ef03"

/-- Go `utils.L2CurationContractAddress`. -/
def L2CurationContractAddress : String := "0x22d78fb4bc72e191C765807f8891B5e1785C8014"

/-- Go `eth.MustNewAddress`: panics when the address does not parse. -/
def MustNewAddress (w : World) (s : String) : Run Bytes :=
  must (ofExcept (w.newAddress s))

/-- Go `eth.MustNewHash`: panics when the hash does not parse. -/
def MustNewHash (w : World) (s : String) : Run Bytes :=
  must (ofExcept (w.newHash s))

/-- Go `utils.getAccountNonce`. -/
def getAccountNonce (w : World) (fromAddr : Bytes) : Run Nat :=
  wrapErr ("unable to retrieve nonce for account " ++ String.singleton '"' ++
      hexEncode fromAddr ++ String.singleton '"' ++ ": ")
    (request (.nonce fromAddr) (fun h => w.nonce h fromAddr))

/-- Go `utils.MustGetAccountNonce`. -/
def MustGetAccountNonce (w : World) (fromAddr : Bytes) : Run Nat :=
  must (getAccountNonce w fromAddr)

/-- Go `utils.getGasPrice`. -/
def getGasPrice (w : World) : Run Int :=
  wrapErr "unable to retrieve gas price: " (request .gasPrice w.gasPrice)

/-- Go `utils.MustGetGasPrice`. -/
def MustGetGasPrice (w : World) : Run Int :=
  must (getGasPrice w)

/-- Go `utils.getChainID`. -/
def getChainID (w : World) : Run Int :=
  wrapErr "unable to retrieve chain id: " (request .chainID w.chainID)

/-- Go `utils.MustGetChainID`. -/
def MustGetChainID (w : World) : Run Int :=
  must (getChainID w)

/-- Go `utils.GetPrivateKey`. -/
def GetPrivateKey (ctx : Context) : Run Bytes :=
  match ctx.privateKey with
  | some key => pure key
  | none => fail "private key not found in context"

/-- Go `utils.MustGetPrivateKey`. -/
def MustGetPrivateKey (ctx : Context) : Run Bytes :=
  must (GetPrivateKey ctx)

/-- The events of a run of the polling loop on `hash`: each poll, followed by
the sleep made after it if there is one. -/
def pollEvents (hash : Bytes) (run : PollRun) : List Event :=
  (List.range run.polls).foldr
    (fun i acc =>
      match run.sleeps[i]? with
      | some d => Event.receiptPoll hash :: Event.sleep d :: acc
      | none => Event.receiptPoll hash :: acc)
    []

/-- Go `utils.FetchReceiptWithProgress` inside a call: the polling loop run against
the receipt answers and the clock of the world. -/
def fetchReceipt (w : World) (fuel : Nat) (hash : Bytes) : Run (Option TransactionReceipt) :=
  fun h =>
    let run := FetchReceiptWithProgress (w.transactionReceipt h hash) (w.since h) fuel
    match run.result with
    | none => (.running, h ++ pollEvents hash run)
    | some (.error e) => (.error e, h ++ pollEvents hash run)
    | some (.ok none) =>
      (.ok none, h ++ pollEvents hash run ++
        [.print "Unable to find transaction receipt after 5m0s, stopping here\n"])
    | some (.ok (some receipt)) => (.ok (some receipt), h ++ pollEvents hash run)

/-- Go `utils.IsCuratedCall`. The method definition is parsed from a constant
signature. -/
def IsCuratedCall (w : World) (deploymentId : String) : Run Bool := do
  let deployment ← ofExcept (ConvertIPFSHashToByteString w.fromB58String deploymentId)
  let data ← ofExcept (w.encode "isCurated(bytes32)" [.bytes deployment])
  let toAddr ← MustNewAddress w L2CurationContractAddress
  let resp ← request (.ethCall toAddr data) (fun h => w.call h toAddr data)
  pure (decide (resp.data.getLast? = some '1'))

/-- Go `approveCall` of the sendpayment command. -/
def approveCall (w : World) (ctx : Context) (fuel : Nat) (toStr sender addr : String)
    (amt : Nat) (gasPrice : Int) : Run String := do
  let address ← MustNewAddress w addr
  let amount := ConvertToWei amt
  let data ← ofExcept (w.encode "approve(address,uint256)" [.address address, .uint amount])
  let chainID ← MustGetChainID w
  let key ← MustGetPrivateKey ctx
  wrapErr "unable to create signer: " (ofExcept (w.newSigner chainID key))
  let gasPriceBigInt ← (if gasPrice = 0 then MustGetGasPrice w else pure gasPrice)
  let senderAddress ← MustNewAddress w sender
  let nonce ← MustGetAccountNonce w senderAddress
  let toAddress ← MustNewAddress w toStr
  let tx : Transaction :=
    { nonce := nonce, toAddr := toAddress, value := 0, gasLimit := 7000000,
      gasPrice := gasPriceBigInt, data := data }
  let signedTx ← request (.sign tx) (fun _ => w.signTransaction chainID key tx)
  let resp ← request (.sendRaw signedTx) (fun h => w.sendRaw h signedTx)
  let hash ← MustNewHash w resp
  let receipt ← fetchReceipt w fuel hash
  match receipt with
  | none => fail "failed to approve. receipt is nil"
  | some _ => pure resp

/-- Go `collectCall` of the sendpayment command. -/
def collectCall (w : World) (ctx : Context) (fuel : Nat) (toStr sender allocation : String)
    (amt : Nat) : Run String := do
  let allocationID ← MustNewAddress w allocation
  let amount := ConvertToWei amt
  let data ← ofExcept (w.encode "collect(uint256,address)" [.uint amount, .address allocationID])
  let chainID ← MustGetChainID w
  let key ← MustGetPrivateKey ctx
  wrapErr "unable to create signer: " (ofExcept (w.newSigner chainID key))
  let senderAddress ← MustNewAddress w sender
  let nonce ← MustGetAccountNonce w senderAddress
  let toAddress ← MustNewAddress w toStr
  let gasPriceBigInt ← MustGetGasPrice w
  let tx : Transaction :=
    { nonce := nonce, toAddr := toAddress, value := 0, gasLimit := 5000000,
      gasPrice := gasPriceBigInt, data := data }
  let signedTx ← request (.sign tx) (fun _ => w.signTransaction chainID key tx)
  let resp ← request (.sendRaw signedTx) (fun h => w.sendRaw h signedTx)
  let hash ← MustNewHash w resp
  let receipt ← fetchReceipt w fuel hash
  match receipt with
  | none => fail "failed to approve. receipt is nil"
  | some _ => pure resp

/-- Go `utils.ApproveCall`, the exported copy of `approveCall`. -/
def ApproveCall (w : World) (ctx : Context) (fuel : Nat) (toStr sender addr : String)
    (amt : Nat) (gasPrice : Int) : Run String := do
  let address ← MustNewAddress w addr
  let amount := ConvertToWei amt
  let data ← ofExcept (w.encode "approve(address,uint256)" [.address address, .uint amount])
  let chainID ← MustGetChainID w
  let key ← MustGetPrivateKey ctx
  wrapErr "unable to create signer: " (ofExcept (w.newSigner chainID key))
  let gasPriceBigInt ← (if gasPrice = 0 then MustGetGasPrice w else pure gasPrice)
  let senderAddress ← MustNewAddress w sender
  let nonce ← MustGetAccountNonce w senderAddress
  let toAddress ← MustNewAddress w toStr
  let tx : Transaction :=
    { nonce := nonce, toAddr := toAddress, value := 0, gasLimit := 7000000,
      gasPrice := gasPriceBigInt, data := data }
  let signedTx ← request (.sign tx) (fun _ => w.signTransaction chainID key tx)
  let resp ← request (.sendRaw signedTx) (fun h => w.sendRaw h signedTx)
  let hash ← MustNewHash w resp
  let receipt ← fetchReceipt w fuel hash
  match receipt with
  | none => fail "failed to approve. receipt is nil"
  | some _ => pure resp

/-- Go `allocateCall` of the receivepayment command: returns the transaction hash
and the allocation id. -/
def allocateCall (w : World) (c : Crypto) (ctx : Context) (fuel : Nat)
    (toStr sender indexerAddress deploymentID : String) (amt : Nat) (gasPrice : Int) :
    Run (String × String) := do
  let isCurated ← wrapErr "failed to check if curated: " (IsCuratedCall w deploymentID)
  failIf isCurated ("deployment has curation and cannot be paid to. " ++
    "please use a different deployment and open a new allocation")
  let amount := ConvertToWei amt
  let (allocationIDBytes, proofBytes) ←
    wrapErr "generating proof: " (ofExcept (generateAllocationIDAndProof c indexerAddress))
  let qm ← wrapErr "converting IPFS hash to byte string: "
    (ofExcept (ConvertIPFSHashToByteString w.fromB58String deploymentID))
  let allocationID := hexEncode allocationIDBytes
  let allocationIDAddress ← MustNewAddress w allocationID
  let indexer ← MustNewAddress w indexerAddress
  let data ← wrapErr "encoding method call: "
    (ofExcept (w.encode "allocateFrom(address,bytes32,uint256,address,bytes32,bytes)"
      [.address indexer, .bytes qm, .uint amount, .address allocationIDAddress,
        .bytes (List.replicate 32 0), .bytes proofBytes]))
  let chainID ← MustGetChainID w
  let key ← MustGetPrivateKey ctx
  wrapErr "unable to create signer: " (ofExcept (w.newSigner chainID key))
  let gasPriceBigInt ← (if gasPrice = 0 then MustGetGasPrice w else pure gasPrice)
  let senderAddress ← MustNewAddress w sender
  let nonce ← MustGetAccountNonce w senderAddress
  let toAddress ← MustNewAddress w toStr
  let tx : Transaction :=
    { nonce := nonce, toAddr := toAddress, value := 0, gasLimit := 7000000,
      gasPrice := gasPriceBigInt, data := data }
  let signedTx ← request (.sign tx) (fun _ => w.signTransaction chainID key tx)
  let resp ← request (.sendRaw signedTx) (fun h => w.sendRaw h signedTx)
  let hash ← MustNewHash w resp
  let receipt ← fetchReceipt w fuel hash
  match receipt with
  | none => fail ("failed to allocate. no receipt found for transaction " ++ resp)
  | some receipt =>
    if receipt.logs.length = 0 then
      fail ("failed to allocate. no logs found for transaction " ++ resp)
    else
      pure (resp, allocationID)

/-- Go `closeAllocationCall` of the receivepayment command. -/
def closeAllocationCall (w : World) (ctx : Context) (fuel : Nat)
    (toStr sender allocationID : String) (gasPrice : Int) : Run String := do
  let allocationIDAddress ← MustNewAddress w allocationID
  let data ← wrapErr "encoding method call: "
    (ofExcept (w.encode "closeAllocation(address,bytes32)"
      [.address allocationIDAddress, .bytes (List.replicate 32 0)]))
  let chainID ← MustGetChainID w
  let key ← MustGetPrivateKey ctx
  wrapErr "unable to create signer: " (ofExcept (w.newSigner chainID key))
  let gasPriceBigInt ← (if gasPrice = 0 then MustGetGasPrice w else pure gasPrice)
  let senderAddress ← MustNewAddress w sender
  let nonce ← MustGetAccountNonce w senderAddress
  let toAddress ← MustNewAddress w toStr
  let tx : Transaction :=
    { nonce := nonce, toAddr := toAddress, value := 0, gasLimit := 7000000,
      gasPrice := gasPriceBigInt, data := data }
  let signedTx ← request (.sign tx) (fun _ => w.signTransaction chainID key tx)
  let resp ← request (.sendRaw signedTx) (fun h => w.sendRaw h signedTx)
  let hash ← MustNewHash w resp
  let receipt ← fetchReceipt w fuel hash
  match receipt with
  | none => fail ("failed to close allocation. no receipt found for transaction " ++ resp)
  | some receipt =>
    if receipt.logs.length = 0 then
      fail ("failed to close allocation. no logs found for transaction " ++ resp)
    else
      pure resp

/-! ### The send-payment workflow (`cmd/sendpayment/sendpayment.go`) -/

/-- The parsed flags of the `sendpayment` command. -/
structure SendPaymentFlags where
  allocationID : String
  deploymentID : String
  amount : Nat
  gasPrice : Int
  privateKeyFile : String

/-- The process environment of a command:
* `envPrivateKey`: the value of `NETWORK_PAYMENT_PRIVATE_KEY`;
* `readFile`: `os.ReadFile`;
* `trimSpace`: `strings.TrimSpace`;
* `newPrivateKey`: `eth.NewPrivateKey`;
* `keyAddress`: `privateKey.PublicKey().Address().String()`. -/
structure Os where
  envPrivateKey : String
  readFile : String → Except String String
  trimSpace : String → String
  newPrivateKey : String → Except String Bytes
  keyAddress : Bytes → String

/-- The private key import shared by the commands: from the environment when no
key file is given, from the file otherwise. -/
def importPrivateKey (os : Os) (privateKeyFile : String) : Run Bytes :=
  if privateKeyFile = "" then
    wrapErr "import private key: " (ofExcept (os.newPrivateKey os.envPrivateKey))
  else do
    let pkBytes ← wrapErr "read private key file: " (ofExcept (os.readFile privateKeyFile))
    let pkHex := os.trimSpace pkBytes
    wrapErr "import private key: " (ofExcept (os.newPrivateKey pkHex))

/-- Go `sendPaymentE`, from the parsed flags on. -/
def sendPaymentE (w : World) (os : Os) (fuel : Nat) (flags : SendPaymentFlags) : Run Unit := do
  let allocation := flags.allocationID
  let deploymentID := flags.deploymentID
  failIf (decide (deploymentID = "")) "deployment ID is required"
  let amount := flags.amount
  let gasPrice := flags.gasPrice
  let privateKey ← importPrivateKey os flags.privateKeyFile
  let ctx : Context := { privateKey := some privateKey }
  let senderAddress := os.keyAddress privateKey
  let approvedTrx ← wrapErr "failed to approve: "
    (approveCall w ctx fuel GRTTokenContractAddress senderAddress StakingContractAddress
      amount gasPrice)
  failIf (decide (approvedTrx = "")) "failed to approve. trx is empty"
  let isCurated ← wrapErr "failed to check if curated: " (IsCuratedCall w deploymentID)
  failIf isCurated ("deployment has curation and cannot be paid to. " ++
    "please use a different deployment and open a new allocation")
  let collectedTrx ← wrapErr "failed to collect: "
    (collectCall w ctx fuel StakingContractAddress senderAddress allocation amount)
  failIf (decide (collectedTrx = "")) "failed to collect. trx is empty"
  emit (.print "Payment sent\n")
  emit (.print (toString amount ++ " sent to allocation " ++ allocation ++ "\n"))
  emit (.print ("See transaction on arbiscan: https://arbiscan.io/tx/" ++ collectedTrx ++ "\n"))

/-- The transactions handed to the signer in a list of events, in order. -/
def signedTransactions : List Event → List Transaction
  | [] => []
  | .sign tx :: rest => tx :: signedTransactions rest
  | _ :: rest => signedTransactions rest

/-! ### A sample world -/

/-- The value of a hexadecimal digit. -/
def hexVal (c : Char) : Option Nat :=
  if 48 ≤ c.toNat ∧ c.toNat ≤ 57 then some (c.toNat - 48)
  else if 97 ≤ c.toNat ∧ c.toNat ≤ 102 then some (c.toNat - 87)
  else if 65 ≤ c.toNat ∧ c.toNat ≤ 70 then some (c.toNat - 55)
  else none

/-- Hexadecimal decoding of a list of digits. -/
def hexDecodeChars : List Char → Option Bytes
  | [] => some []
  | [_] => none
  | a :: b :: rest =>
    match hexVal a, hexVal b, hexDecodeChars rest with
    | some x, some y, some tail => some ((x * 16 + y) :: tail)
    | _, _, _ => none

/-- Hexadecimal decoding of a string with an optional `0x` prefix to exactly
`n` bytes. -/
def hexDecodeExact (n : Nat) (s : String) : Except String Bytes :=
  let digits := match s.data with
    | '0' :: 'x' :: rest => rest
    | other => other
  match hexDecodeChars digits with
  | some b => if b.length = n then .ok b else .error "invalid length"
  | none => .error "invalid hex"

/-- The hash the sample endpoint returns for a broadcast. -/
def sampleTrxHash : String :=
  "0x1111111111111111111111111111111111111111111111111111111111111111"

/-- A sample world: chain 42161, a network gas price of 7, an account nonce
equal to the number of transactions broadcast so far, a deployment that is not
curated, and a receipt with the given logs found at the second poll. -/
def sampleWorld (logs : List LogEntry) : World where
  fromB58String := FromB58String
  newAddress := hexDecodeExact 20
  newHash := hexDecodeExact 32
  encode := fun signature args =>
    .ok (signature.length :: args.foldr
      (fun a acc =>
        match a with
        | .address b => b ++ acc
        | .bytes b => b ++ acc
        | .uint n => n.toNat :: acc)
      [])
  newSigner := fun _ _ => .ok ()
  signTransaction := fun _ key tx => .ok (key ++ [tx.nonce, tx.gasLimit, tx.gasPrice.toNat])
  chainID := fun _ => .ok 42161
  gasPrice := fun _ => .ok 7
  nonce := fun h _ => .ok (h.filter (fun ev => match ev with | .sendRaw _ => true | _ => false)).length
  call := fun _ _ _ =>
    .ok "0x0000000000000000000000000000000000000000000000000000000000000000"
  sendRaw := fun _ _ => .ok sampleTrxHash
  transactionReceipt := fun _ _ i => if i < 1 then .ok none else .ok (some { logs := logs })
  since := fun _ i => (i : Int) * second

/-- A sample process environment: the key comes from the environment
variable. -/
def sampleOs : Os where
  envPrivateKey := "0101"
  readFile := fun _ => .error "no such file"
  trimSpace := fun s => s
  newPrivateKey := fun s =>
    match hexDecodeChars s.data with
    | some b => if b = [] then .error "empty key" else .ok b
    | none => .error "invalid hex"
  keyAddress := fun _ => "0x35917c0eb91d2e21bef40940d028940484230c06"

/-- A context carrying the sample key. -/
def sampleContext : Context := { privateKey := some [1, 1] }

/-- The sender address of the sample runs. -/
def sampleSender : String := "0x35917c0eb91d2e21bef40940d028940484230c06"

/-- The allocation address of the sample runs. -/
def sampleAllocation : String := "0xabcdabcdabcdabcdabcdabcdabcdabcdabcdabcd"

/-! ### Batch document (`cmd/paygrt/main.go`) -/

/-- The constant `jsonTemplate`, with nine `%s` verbs. -/
def jsonTemplate : String :=
  "\x7b\"version\":\"1.0\",\"chainId\":\"42161\",\"createdAt\":1754409348371,\"meta\":\x7b\"name\":\"Transactions Batch\",\"description\":\"\",\"txBuilderVersion\":\"1.18.0\",\"createdFromSafeAddress\":\"\",\"createdFromOwnerAddress\":\"\",\"checksum\":\"0x6079306dfaa34e44e083b9218d570236d5d94bed1a6601ab765398db8fe87b8a\"\x7d,\"transactions\":[\x7b\"to\":\"0x00669A4CF01450B64E8A2A20E9b1FCB71E61eF03\",\"value\":\"0\",\"data\":null,\"contractMethod\":\x7b\"inputs\":[\x7b\"internalType\":\"address\",\"name\":\"_indexer\",\"type\":\"address\"\x7d,\x7b\"internalType\":\"bytes32\",\"name\":\"_subgraphDeploymentID\",\"type\":\"bytes32\"\x7d,\x7b\"internalType\":\"uint256\",\"name\":\"_tokens\",\"type\":\"uint256\"\x7d,\x7b\"internalType\":\"address\",\"name\":\"_allocationID\",\"type\":\"address\"\x7d,\x7b\"internalType\":\"bytes32\",\"name\":\"_metadata\",\"type\":\"bytes32\"\x7d,\x7b\"internalType\":\"bytes\",\"name\":\"_proof\",\"type\":\"bytes\"\x7d],\"name\":\"allocateFrom\",\"payable\":false\x7d,\"contractInputsValues\":\x7b\"_indexer\":\"%s\",\"_subgraphDeploymentID\":\"%s\",\"_tokens\":\"%s\",\"_allocationID\":\"%s\",\"_metadata\":\"0x0000000000000000000000000000000000000000000000000000000000000000\",\"_proof\":\"%s\"\x7d\x7d,\x7b\"to\":\"0x9623063377AD1B27544C965cCd7342f7EA7e88C7\",\"value\":\"0\",\"data\":null,\"contractMethod\":\x7b\"inputs\":[\x7b\"internalType\":\"address\",\"name\":\"spender\",\"type\":\"address\"\x7d,\x7b\"internalType\":\"uint256\",\"name\":\"amount\",\"type\":\"uint256\"\x7d],\"name\":\"approve\",\"payable\":false\x7d,\"contractInputsValues\":\x7b\"spender\":\"0x00669A4CF01450B64E8A2A20E9b1FCB71E61eF03\",\"amount\":\"%s\"\x7d\x7d,\x7b\"to\":\"0x00669A4CF01450B64E8A2A20E9b1FCB71E61eF03\",\"value\":\"0\",\"data\":null,\"contractMethod\":\x7b\"inputs\":[\x7b\"internalType\":\"uint256\",\"name\":\"_tokens\",\"type\":\"uint256\"\x7d,\x7b\"internalType\":\"address\",\"name\":\"_allocationID\",\"type\":\"address\"\x7d],\"name\":\"collect\",\"payable\":false\x7d,\"contractInputsValues\":\x7b\"_tokens\":\"%s\",\"_allocationID\":\"%s\"\x7d\x7d,\x7b\"to\":\"0x00669A4CF01450B64E8A2A20E9b1FCB71E61eF03\",\"value\":\"0\",\"data\":null,\"contractMethod\":\x7b\"inputs\":[\x7b\"internalType\":\"address\",\"name\":\"_allocationID\",\"type\":\"address\"\x7d,\x7b\"internalType\":\"bytes32\",\"name\":\"_poi\",\"type\":\"bytes32\"\x7d],\"name\":\"closeAllocation\",\"payable\":false\x7d,\"contractInputsValues\":\x7b\"_allocationID\":\"%s\",\"_poi\":\"0x0\"\x7d\x7d]\x7d"

/-- The report `fmt.Sprintf` appends for string arguments that no verb used. -/
def extraArgs (args : List String) : List Char :=
  ("%!(EXTRA " ++ ", ".intercalate (args.map (fun a => "string=" ++ a)) ++ ")").data

/-- Go `fmt.Sprintf` on the characters of a format with string arguments, for
formats whose verbs are `%s` and `%%`: each `%s` is replaced by the next
argument (`%!s(MISSING)` when none is left), `%%` is a percent sign, and
arguments left over are reported at the end. Other verbs are not interpreted. -/
def sprintfChars : List Char → List String → List Char
  | [], [] => []
  | [], a :: args => extraArgs (a :: args)
  | '%' :: 's' :: rest, a :: args => a.data ++ sprintfChars rest args
  | '%' :: 's' :: rest, [] => "%!s(MISSING)".data ++ sprintfChars rest []
  | '%' :: '%' :: rest, args => '%' :: sprintfChars rest args
  | c :: rest, args => c :: sprintfChars rest args

/-- Go `fmt.Sprintf(format, args...)` on strings. -/
def Sprintf (format : String) (args : List String) : String :=
  String.mk (sprintfChars format.data args)

/-- Go `(*big.Int).String()`: the decimal form. -/
def bigIntString (x : Int) : String := toString x

/-- Go `generateJSON` of the paygrt command. The sum of the two `uint64` amounts
wraps modulo `2^64`. -/
def generateJSON (indexerAddress deploymentID allocationID proof : String)
    (allocAmountGRT payAmountGRT : Nat) : String :=
  let allocAmount := bigIntString (ConvertToWei allocAmountGRT)
  let payAmount := bigIntString (ConvertToWei payAmountGRT)
  Sprintf jsonTemplate
    [indexerAddress,
     deploymentID,
     allocAmount,
     allocationID,
     proof,
     bigIntString (ConvertToWei ((allocAmountGRT + payAmountGRT) % 2 ^ 64)),
     payAmount,
     allocationID,
     allocationID]

/-- The template up to the `_indexer` value of the `allocateFrom` transaction. -/
def segIndexer : String :=
  "\x7b\"version\":\"1.0\",\"chainId\":\"42161\",\"createdAt\":1754409348371,\"meta\":\x7b\"name\":\"Transactions Batch\",\"description\":\"\",\"txBuilderVersion\":\"1.18.0\",\"createdFromSafeAddress\":\"\",\"createdFromOwnerAddress\":\"\",\"checksum\":\"0x6079306dfaa34e44e083b9218d570236d5d94bed1a6601ab765398db8fe87b8a\"\x7d,\"transactions\":[\x7b\"to\":\"0x00669A4CF01450B64E8A2A20E9b1FCB71E61eF03\",\"value\":\"0\",\"data\":null,\"contractMethod\":\x7b\"inputs\":[\x7b\"internalType\":\"address\",\"name\":\"_indexer\",\"type\":\"address\"\x7d,\x7b\"internalType\":\"bytes32\",\"name\":\"_subgraphDeploymentID\",\"type\":\"bytes32\"\x7d,\x7b\"internalType\":\"uint256\",\"name\":\"_tokens\",\"type\":\"uint256\"\x7d,\x7b\"internalType\":\"address\",\"name\":\"_allocationID\",\"type\":\"address\"\x7d,\x7b\"internalType\":\"bytes32\",\"name\":\"_metadata\",\"type\":\"bytes32\"\x7d,\x7b\"internalType\":\"bytes\",\"name\":\"_proof\",\"type\":\"bytes\"\x7d],\"name\":\"allocateFrom\",\"payable\":false\x7d,\"contractInputsValues\":\x7b\"_indexer\":\""

/-- The template between the `_indexer` value and the `_subgraphDeploymentID` value of `allocateFrom`. -/
def segDeployment : String :=
  "\",\"_subgraphDeploymentID\":\""

/-- The template between the `_subgraphDeploymentID` value and the `_tokens` value of `allocateFrom`. -/
def segAllocateTokens : String :=
  "\",\"_tokens\":\""

/-- The template between the `_tokens` value and the `_allocationID` value of `allocateFrom`. -/
def segAllocateAllocationID : String :=
  "\",\"_allocationID\":\""

/-- The template between the `_allocationID` value and the `_proof` value of `allocateFrom`. -/
def segProof : String :=
  "\",\"_metadata\":\"0x0000000000000000000000000000000000000000000000000000000000000000\",\"_proof\":\""

/-- The template between the `_proof` value of `allocateFrom` and the `amount` value of the `approve` transaction. -/
def segApproveAmount : String :=
  "\"\x7d\x7d,\x7b\"to\":\"0x9623063377AD1B27544C965cCd7342f7EA7e88C7\",\"value\":\"0\",\"data\":null,\"contractMethod\":\x7b\"inputs\":[\x7b\"internalType\":\"address\",\"name\":\"spender\",\"type\":\"address\"\x7d,\x7b\"internalType\":\"uint256\",\"name\":\"amount\",\"type\":\"uint256\"\x7d],\"name\":\"approve\",\"payable\":false\x7d,\"contractInputsValues\":\x7b\"spender\":\"0x00669A4CF01450B64E8A2A20E9b1FCB71E61eF03\",\"amount\":\""

/-- The template between the `amount` value of `approve` and the `_tokens` value of the `collect` transaction. -/
def segCollectTokens : String :=
  "\"\x7d\x7d,\x7b\"to\":\"0x00669A4CF01450B64E8A2A20E9b1FCB71E61eF03\",\"value\":\"0\",\"data\":null,\"contractMethod\":\x7b\"inputs\":[\x7b\"internalType\":\"uint256\",\"name\":\"_tokens\",\"type\":\"uint256\"\x7d,\x7b\"internalType\":\"address\",\"name\":\"_allocationID\",\"type\":\"address\"\x7d],\"name\":\"collect\",\"payable\":false\x7d,\"contractInputsValues\":\x7b\"_tokens\":\""

/-- The template between the `_tokens` value and the `_allocationID` value of `collect`. -/
def segCollectAllocationID : String :=
  "\",\"_allocationID\":\""

/-- The template between the `_allocationID` value of `collect` and the `_allocationID` value of the `closeAllocation` transaction. -/
def segCloseAllocationID : String :=
  "\"\x7d\x7d,\x7b\"to\":\"0x00669A4CF01450B64E8A2A20E9b1FCB71E61eF03\",\"value\":\"0\",\"data\":null,\"contractMethod\":\x7b\"inputs\":[\x7b\"internalType\":\"address\",\"name\":\"_allocationID\",\"type\":\"address\"\x7d,\x7b\"internalType\":\"bytes32\",\"name\":\"_poi\",\"type\":\"bytes32\"\x7d],\"name\":\"closeAllocation\",\"payable\":false\x7d,\"contractInputsValues\":\x7b\"_allocationID\":\""

/-- The template after the `_allocationID` value of `closeAllocation`. -/
def segTail : String :=
  "\",\"_poi\":\"0x0\"\x7d\x7d]\x7d"

/-- The characters of a document after the first place where `pat` occurs in
it, if it occurs. -/
def afterFirst (pat : List Char) : List Char → Option (List Char)
  | [] => if pat = [] then some [] else none
  | c :: rest =>
    if pat.isPrefixOf (c :: rest) then some ((c :: rest).drop pat.length)
    else afterFirst pat rest

/-- The characters after the occurrence number `n` (from zero) of `pat`. -/
def afterNth (pat : List Char) : Nat → List Char → Option (List Char)
  | 0, doc => afterFirst pat doc
  | n + 1, doc =>
    match afterFirst pat doc with
    | none => none
    | some rest => afterNth pat n rest

/-- The string value written after the occurrence number `n` of the key `key`
in a document, that is the text between `"key":"` and the next quote. -/
def fieldValue (key : String) (n : Nat) (doc : String) : Option String :=
  match afterNth (('"' :: key.data) ++ ['"', ':', '"']) n doc.data with
  | none => none
  | some rest => some (String.mk (rest.takeWhile (fun c => c != '"')))

/-- The document of the example run `paygrt 20 2 <indexer>`. -/
def sampleBatch : String :=
  generateJSON "0x35917C0eB91d2E21BEF40940D028940484230c06"
    "0x9d6c2be50f706953479ab9df2ce3edca90b68053c00b3004b7f0accbe1e8eedf"
    "0xabcdabcdabcdabcdabcdabcdabcdabcdabcdabcd" "0x01021b" 20 2

/-- The document of the run `paygrt 9223372036854775807 1 <indexer>`. -/
def overflowBatch : String :=
  generateJSON "0x35917C0eB91d2E21BEF40940D028940484230c06"
    "0x9d6c2be50f706953479ab9df2ce3edca90b68053c00b3004b7f0accbe1e8eedf"
    "0xabcdabcdabcdabcdabcdabcdabcdabcdabcdabcd" "0x01021b" 9223372036854775807 1

/-! ### Events added by a computation -/

/-- Every event a computation adds to the events so far satisfies `P` (and it
removes none). -/
def Emits {α : Type} (P : Event → Prop) (m : Run α) : Prop :=
  ∀ h, ∃ added, (m h).2 = h ++ added ∧ ∀ ev ∈ added, P ev

/-- The line printed by the polling loop when it gives up. -/
def timeoutLine : String := "Unable to find transaction receipt after 5m0s, stopping here\n"

/-- The events of a submitting call whose transactions have zero value and the
gas limit `gasLimit`: requests to the endpoint, such transactions handed to the
signer, sleeps, and the line of the polling loop. -/
def CallEvent (gasLimit : Nat) : Event → Prop
  | .ethCall _ _ => True
  | .chainID => True
  | .gasPrice => True
  | .nonce _ => True
  | .sign tx => tx.value = 0 ∧ tx.gasLimit = gasLimit
  | .sendRaw _ => True
  | .receiptPoll _ => True
  | .sleep _ => True
  | .upload => False
  | .print line => line = timeoutLine

/-- Every transaction a computation hands to the signer has zero value and the
gas limit `gasLimit`. -/
def SignsOnly {α : Type} (gasLimit : Nat) (m : Run α) : Prop :=
  ∀ h, ∃ added, (m h).2 = h ++ added ∧
    ∀ tx, Event.sign tx ∈ added → tx.value = 0 ∧ tx.gasLimit = gasLimit

/-! ### Failures of the requests of a submitting call -/

/-- The message prefix of `getAccountNonce` for an account. -/
def nonceErrorPrefix (fromAddr : Bytes) : String :=
  "unable to retrieve nonce for account " ++ String.singleton '"' ++
    hexEncode fromAddr ++ String.singleton '"' ++ ": "

/-- The gas price step of a call that takes an override: the network price is
fetched when the override is zero. -/
def gasPriceStep (w : World) (gasPrice : Int) : Run Int :=
  if gasPrice = 0 then MustGetGasPrice w else pure gasPrice

/-- The inputs of the submission of a call are usable: the context carries the
key `key`, a signer can be made from it, and the sender and destination
addresses parse. -/
structure SubmitReady (w : World) (ctx : Context) (sender toStr : String)
    (key senderAddr toAddr : Bytes) : Prop where
  hasKey : ctx.privateKey = some key
  signer : ∀ chain, w.newSigner chain key = .ok ()
  senderParses : w.newAddress sender = .ok senderAddr
  destParses : w.newAddress toStr = .ok toAddr

/-- How a call with outcome `outcome`, whose submission starts after the events
`h` with the call data `data`, ends when a request fails (calls that take a
gas-price override: chain id, then gas price, then nonce): a failed chain-id,
gas-price or nonce fetch makes the call panic with the wrapped error; a failed
signing or broadcast makes it return that error. -/
def AbortsOnRpcFailure {α : Type} (w : World) (outcome : Outcome α) (h : List Event)
    (key senderAddr toAddr data : Bytes) (gasLimit : Nat) (gasPrice : Int) : Prop :=
  (∀ e, w.chainID h = .error e →
    outcome = .panic ("unable to retrieve chain id: " ++ e)) ∧
  (∀ chain e, w.chainID h = .ok chain → gasPrice = 0 →
    w.gasPrice (h ++ [.chainID]) = .error e →
    outcome = .panic ("unable to retrieve gas price: " ++ e)) ∧
  (∀ chain gp h2 e, w.chainID h = .ok chain →
    gasPriceStep w gasPrice (h ++ [.chainID]) = (.ok gp, h2) →
    w.nonce h2 senderAddr = .error e →
    outcome = .panic (nonceErrorPrefix senderAddr ++ e)) ∧
  (∀ chain gp h2 n e, w.chainID h = .ok chain →
    gasPriceStep w gasPrice (h ++ [.chainID]) = (.ok gp, h2) →
    w.nonce h2 senderAddr = .ok n →
    w.signTransaction chain key
      { nonce := n, toAddr := toAddr, value := 0, gasLimit := gasLimit, gasPrice := gp,
        data := data } = .error e →
    outcome = .error e) ∧
  (∀ chain gp h2 n raw e, w.chainID h = .ok chain →
    gasPriceStep w gasPrice (h ++ [.chainID]) = (.ok gp, h2) →
    w.nonce h2 senderAddr = .ok n →
    w.signTransaction chain key
      { nonce := n, toAddr := toAddr, value := 0, gasLimit := gasLimit, gasPrice := gp,
        data := data } = .ok raw →
    w.sendRaw (h2 ++ [.nonce senderAddr, .sign
      { nonce := n, toAddr := toAddr, value := 0, gasLimit := gasLimit, gasPrice := gp,
        data := data }]) raw = .error e →
    outcome = .error e)

/-- The same for `collectCall`, which fetches the nonce before the gas price
and always fetches the gas price. -/
def CollectAbortsOnRpcFailure {α : Type} (w : World) (outcome : Outcome α) (h : List Event)
    (key senderAddr toAddr data : Bytes) : Prop :=
  (∀ e, w.chainID h = .error e →
    outcome = .panic ("unable to retrieve chain id: " ++ e)) ∧
  (∀ chain e, w.chainID h = .ok chain →
    w.nonce (h ++ [.chainID]) senderAddr = .error e →
    outcome = .panic (nonceErrorPrefix senderAddr ++ e)) ∧
  (∀ chain n e, w.chainID h = .ok chain →
    w.nonce (h ++ [.chainID]) senderAddr = .ok n →
    w.gasPrice (h ++ [.chainID, .nonce senderAddr]) = .error e →
    outcome = .panic ("unable to retrieve gas price: " ++ e)) ∧
  (∀ chain n gp e, w.chainID h = .ok chain →
    w.nonce (h ++ [.chainID]) senderAddr = .ok n →
    w.gasPrice (h ++ [.chainID, .nonce senderAddr]) = .ok gp →
    w.signTransaction chain key
      { nonce := n, toAddr := toAddr, value := 0, gasLimit := 5000000, gasPrice := gp,
        data := data } = .error e →
    outcome = .error e) ∧
  (∀ chain n gp raw e, w.chainID h = .ok chain →
    w.nonce (h ++ [.chainID]) senderAddr = .ok n →
    w.gasPrice (h ++ [.chainID, .nonce senderAddr]) = .ok gp →
    w.signTransaction chain key
      { nonce := n, toAddr := toAddr, value := 0, gasLimit := 5000000, gasPrice := gp,
        data := data } = .ok raw →
    w.sendRaw (h ++ [.chainID, .nonce senderAddr, .gasPrice, .sign
      { nonce := n, toAddr := toAddr, value := 0, gasLimit := 5000000, gasPrice := gp,
        data := data }]) raw = .error e →
    outcome = .error e)

/-- The sample world with one failing request: the chain id (stage 0), the gas
price (1), the nonce (2), the signing (3) or the broadcast (4). -/
def failingWorld (stage : Nat) : World :=
  { sampleWorld [[1]] with
    chainID := fun _ => if stage = 0 then .error "rpc down" else .ok 42161
    gasPrice := fun _ => if stage = 1 then .error "rpc down" else .ok 7
    nonce := fun _ _ => if stage = 2 then .error "rpc down" else .ok 0
    signTransaction := fun _ key tx =>
      if stage = 3 then .error "cannot sign" else .ok (key ++ [tx.nonce, tx.gasLimit])
    sendRaw := fun _ _ => if stage = 4 then .error "rejected" else .ok sampleTrxHash }

/-- The bytes of `sampleSender`. -/
def sampleSenderAddr : Bytes :=
  [53, 145, 124, 14, 185, 29, 46, 33, 190, 244, 9, 64, 208, 40, 148, 4, 132, 35, 12, 6]

/-- The bytes of `StakingContractAddress`. -/
def stakingAddr : Bytes :=
  [0, 102, 154, 76, 240, 20, 80, 182, 78, 138, 42, 32, 233, 177, 252, 183, 30, 97, 239, 3]

/-- The bytes of `GRTTokenContractAddress`. -/
def grtAddr : Bytes :=
  [150, 35, 6, 51, 119, 173, 27, 39, 84, 76, 150, 92, 205, 115, 66, 247, 234, 126, 136, 199]

/-! ### Deployment upload (`cmd/utils/deployment.go`) -/

/-- Further collaborators of the commands:
* `newUUID`: `uuid.NewUUID()` and the string form of the identifier;
* `clientDo`: `client.Do(req)` for the upload request with the given file
  contents, giving the response body stream;
* `readAll`: `io.ReadAll(resp.Body)`;
* `unmarshalHash`: `json.Unmarshal` of the response and its `Hash` field;
* `keyString`: `privateKey.String()`;
* `pretty`: `Address.Pretty()`;
* `quote`: `strconv.Quote`, the text the verb `%q` of `fmt` gives for a
  string.
The multipart form and the request object are built in memory and are taken
to succeed. -/
structure Host where
  newUUID : Except String String
  clientDo : List Event → String → Except String String
  readAll : String → Except String String
  unmarshalHash : String → Except String String
  keyString : Bytes → String
  pretty : Bytes → String
  quote : String → String

/-- Go `uploadFile`: posts the file and returns the hash of the response. -/
def uploadFile (host : Host) (fileContents : String) : Run String := do
  let resp ← wrapErr "error making request: "
    (request .upload (fun h => host.clientDo h fileContents))
  let responseBody ← wrapErr "error reading response: " (ofExcept (host.readAll resp))
  let hash ← wrapErr ("error unmarshalling response JSON " ++ host.quote responseBody ++ ", ")
    (ofExcept (host.unmarshalHash responseBody))
  pure hash

/-- Go `utils.GenerateDeployment`: panics when no identifier can be made,
uploads the manifest otherwise. -/
def GenerateDeployment (host : Host) : Run String := do
  let uniqueId ← must (ofExcept host.newUUID)
  let template := "specVersion: 0.0.5\ndescription: " ++ String.singleton '"' ++
    "thegraph.market Payment Gateway usage" ++ String.singleton '"' ++
    "\nusage:\n  uid: " ++ uniqueId ++ "\n"
  let hash ← wrapErr "error uploading file: " (uploadFile host template)
  pure hash

/-! ### The receivepayment command (`cmd/receivepayment`) -/

/-- The parsed flags of `open-allocation`. -/
structure OpenAllocationFlags where
  privateKeyFile : String
  indexerAddress : String
  deploymentID : String
  allocationAmount : Nat
  gasPrice : Int

/-- The parsed flags of `close-allocation`. -/
structure CloseAllocationFlags where
  privateKeyFile : String
  allocationID : String
  gasPrice : Int

/-- The message of the private key check of the receivepayment commands. -/
def privateKeyRequired : String :=
  "private key is required, either through the NETWORK_PAYMENT_PRIVATE_KEY " ++
    "environment variable or --private-key-file flag"

/-- The explorer line printed for a transaction hash. -/
def explorerLine (trx : String) : String :=
  "See transaction on arbiscan: https://arbiscan.io/tx/" ++ trx ++ "\n"

/-- Go `openAllocationE`, from the parsed flags on. -/
def openAllocationE (w : World) (c : Crypto) (os : Os) (host : Host) (fuel : Nat)
    (flags : OpenAllocationFlags) : Run Unit := do
  let deploymentID ← (if flags.deploymentID = "" then
      (emit (.print "No deployment ID provided, generating a random one\n") >>= fun _ =>
        wrapErr "generating deployment ID: " (GenerateDeployment host))
    else pure flags.deploymentID)
  let amount := flags.allocationAmount
  failIf (decide (amount = 0)) "amount must be greater than 0"
  let indexerAddress := flags.indexerAddress
  failIf (decide (indexerAddress = "")) "indexer address is required"
  let gasPrice := flags.gasPrice
  let privateKey ← importPrivateKey os flags.privateKeyFile
  failIf (decide (host.keyString privateKey = "")) privateKeyRequired
  let ctx : Context := { privateKey := some privateKey }
  (if deploymentID ≠ "" then
      (wrapErr "failed to check if curated: " (IsCuratedCall w deploymentID) >>= fun isCurated =>
        failIf isCurated ("deployment has curation and cannot be paid to. " ++
          "please generate a different deployment and open a new allocation"))
    else pure ())
  let (allocateTrx, allocationID) ←
    allocateCall w c ctx fuel StakingContractAddress (os.keyAddress privateKey)
      indexerAddress deploymentID amount gasPrice
  let allocationAddress ← MustNewAddress w allocationID
  emit (.print ("Allocation created with ID:  " ++ host.pretty allocationAddress ++ "\n"))
  emit (.print ("Deployment ID:  " ++ deploymentID ++ "\n"))
  emit (.print (explorerLine allocateTrx))

/-- Go `closeAllocationE`, from the parsed flags on. -/
def closeAllocationE (w : World) (os : Os) (host : Host) (fuel : Nat)
    (flags : CloseAllocationFlags) : Run Unit := do
  let allocationID := flags.allocationID
  failIf (decide (allocationID = "")) "deployment ID is required"
  let gasPrice := flags.gasPrice
  let privateKey ← importPrivateKey os flags.privateKeyFile
  failIf (decide (host.keyString privateKey = "")) privateKeyRequired
  let ctx : Context := { privateKey := some privateKey }
  let closeTrx ←
    closeAllocationCall w ctx fuel StakingContractAddress (os.keyAddress privateKey)
      allocationID gasPrice
  emit (.print "Allocation closed successfully\n")
  emit (.print (explorerLine closeTrx))

/-- The subcommand selected on the command line, with its parsed flags. -/
inductive Invocation where
  | openAllocation (flags : OpenAllocationFlags)
  | closeAllocation (flags : CloseAllocationFlags)

/-- Go `rootCmd.Execute()` for a selected subcommand: its `RunE`. -/
def Execute (w : World) (c : Crypto) (os : Os) (host : Host) (fuel : Nat) :
    Invocation → Run Unit
  | .openAllocation flags => openAllocationE w c os host fuel flags
  | .closeAllocation flags => closeAllocationE w os host fuel flags

/-- Go `main` of the receivepayment command: the exit status of the process
(`none` while a polling loop is still running when the fuel is spent) and the
events of the run. An error returned by `Execute` is logged and the process
exits with status 1; a panic is caught by the deferred `recover`, logged, and
`main` returns. -/
def main (w : World) (c : Crypto) (os : Os) (host : Host) (fuel : Nat) (inv : Invocation) :
    Option Nat × List Event :=
  match Execute w c os host fuel inv [] with
  | (.ok _, h) => (some 0, h)
  | (.error e, h) => (some 1, h ++ [.print ("error executing command: " ++ e)])
  | (.panic e, h) => (some 0, h ++ [.print ("panic executing command: " ++ e)])
  | (.running, h) => (none, h)

/-! ### The paygrt command (`cmd/paygrt/main.go`) -/

/-- The text of the Go `*strconv.NumError` that `strconv.ParseUint` returns for
the input `s`: `quote` is `strconv.Quote` and `msg` the text of `ErrSyntax` or
`ErrRange`. -/
def numError (quote : String → String) (s msg : String) : String :=
  "strconv.ParseUint: parsing " ++ quote s ++ ": " ++ msg

/-- The digit loop of Go `strconv.ParseUint` in base 10 and 64 bits, on the
rest of the input and the value `n` read so far. A byte that is not a decimal
digit ends the loop with a syntax error (a letter gives a digit value of 10 or
more, which the base rejects; every byte of a character outside ASCII is
neither a digit nor a letter, so the loop is run over the characters). A digit
read when `n` has reached the cutoff `(2^64 - 1) / 10 + 1`, or whose addition
wraps, ends it with a range error. -/
def parseUintLoop (quote : String → String) (s0 : String) : List Char → Nat → Except String Nat
  | [], n => .ok n
  | ch :: rest, n =>
    if 48 ≤ ch.toNat ∧ ch.toNat ≤ 57 then
      let d := ch.toNat - 48
      if n ≥ (2 ^ 64 - 1) / 10 + 1 then .error (numError quote s0 "value out of range")
      else
        let n10 := (n * 10) % 2 ^ 64
        let n1 := (n10 + d) % 2 ^ 64
        if n1 < n10 ∨ n1 > 2 ^ 64 - 1 then .error (numError quote s0 "value out of range")
        else parseUintLoop quote s0 rest n1
    else .error (numError quote s0 "invalid syntax")

/-- Go `strconv.ParseUint(s, 10, 64)`: the empty string is a syntax error, any
other string goes through the digit loop. -/
def parseUint (quote : String → String) (s : String) : Except String Nat :=
  if s = "" then .error (numError quote s "invalid syntax")
  else parseUintLoop quote s s.data 0

/-- Go `run` of the paygrt command on its three arguments. -/
def run (c : Crypto) (host : Host) (fromB58String : String → Except String Bytes)
    (arg0 arg1 arg2 : String) : Run Unit := do
  let allocAmountGRT ← wrapErr ("invalid alloc-amount " ++ host.quote arg0 ++ ": ")
    (ofExcept (parseUint host.quote arg0))
  let payAmountGRT ← wrapErr ("invalid pay-amount " ++ host.quote arg1 ++ ": ")
    (ofExcept (parseUint host.quote arg1))
  let indexerAddress := arg2
  let (allocationIDBytes, proofBytes) ← wrapErr "failed to generate allocation ID and proof: "
    (ofExcept (GenerateAllocationIDAndProof c indexerAddress))
  let allocationID := "0x" ++ hexEncode allocationIDBytes
  let proof := "0x" ++ hexEncode proofBytes
  let deploymentQM ← wrapErr "generating deployment ID: " (GenerateDeployment host)
  let deploymentBytes ← wrapErr "failed to convert deployment ID to byte string: "
    (ofExcept (ConvertIPFSHashToByteString fromB58String deploymentQM))
  let deploymentID := "0x" ++ hexEncode deploymentBytes
  let json := generateJSON indexerAddress deploymentID allocationID proof
    allocAmountGRT payAmountGRT
  emit (.print (json ++ "\n"))

/-! ### Classes of events and sample collaborators -/

/-- Network access: a request to the RPC endpoint or the deployment upload. -/
def isNetwork : Event → Bool
  | .ethCall _ _ => true
  | .chainID => true
  | .gasPrice => true
  | .nonce _ => true
  | .sendRaw _ => true
  | .receiptPoll _ => true
  | .upload => true
  | .sign _ => false
  | .sleep _ => false
  | .print _ => false

/-- A transaction handed to the signer or a broadcast. -/
def isSubmission : Event → Bool
  | .sign _ => true
  | .sendRaw _ => true
  | _ => false

/-- A printed explorer line. -/
def isExplorerLine : Event → Bool
  | .print line => "See transaction on arbiscan: ".data.isPrefixOf line.data
  | _ => false

/-- A computation whose added events hold no explorer line unless it returns
normally. -/
def LinkOnlyOnOk {α : Type} (m : Run α) : Prop :=
  ∀ h, ∃ added, (m h).2 = h ++ added ∧
    ((∀ a, (m h).1 ≠ .ok a) → ∀ ev ∈ added, isExplorerLine ev = false)

/-- Go `strconv.Quote` on one character of a text: the double quote and the
backslash get a backslash, a printable ASCII character stands for itself, the
control characters 7 to 13 have their letter escapes, and any other ASCII
control character is written `\x` and two hexadecimal digits. A character
outside ASCII is taken to be printable and stands for itself. -/
def quoteRune (ch : Char) : List Char :=
  if ch.toNat = 34 ∨ ch.toNat = 92 then [Char.ofNat 92, ch]
  else if 32 ≤ ch.toNat ∧ ch.toNat < 127 then [ch]
  else if ch.toNat = 7 then [Char.ofNat 92, 'a']
  else if ch.toNat = 8 then [Char.ofNat 92, 'b']
  else if ch.toNat = 12 then [Char.ofNat 92, 'f']
  else if ch.toNat = 10 then [Char.ofNat 92, 'n']
  else if ch.toNat = 13 then [Char.ofNat 92, 'r']
  else if ch.toNat = 9 then [Char.ofNat 92, 't']
  else if ch.toNat = 11 then [Char.ofNat 92, 'v']
  else if ch.toNat < 32 ∨ ch.toNat = 127 then
    [Char.ofNat 92, 'x', hexDigit (ch.toNat / 16), hexDigit (ch.toNat % 16)]
  else [ch]

/-- Go `strconv.Quote` for the sample runs: the text between double quotes,
each character written by `quoteRune`. -/
def sampleQuote (s : String) : String :=
  String.mk (Char.ofNat 34 :: (s.data.flatMap quoteRune ++ [Char.ofNat 34]))

/-- A sample host: the upload answers with the version-0 identifier. -/
def sampleHost : Host where
  newUUID := .ok "4c0d4b5e-0000-11f0-8000-000000000000"
  clientDo := fun _ _ => .ok "body"
  readAll := fun body => .ok body
  unmarshalHash := fun _ => .ok sampleCidV0
  keyString := fun key => hexEncode key
  pretty := fun a => "0x" ++ hexEncode a
  quote := sampleQuote

/-- The sample world with a curation contract that reports every deployment
as curated. -/
def curatedWorld : World :=
  { sampleWorld [[1]] with
    call := fun _ _ _ =>
      .ok "0x0000000000000000000000000000000000000000000000000000000000000001" }

/-- The line `openAllocationE` prints before it generates a deployment. -/
def generatingLine : String := "No deployment ID provided, generating a random one\n"

/-- The argument checks of `openAllocationE`, for a run `result` of the command
whose checks are made after the events `hret`: a zero amount, an empty indexer
address, a private key that cannot be imported and an empty private key each
end the command with an error, with no event after `hret`. -/
def OpenChecksReturn (result : Outcome Unit × List Event) (os : Os) (host : Host)
    (flags : OpenAllocationFlags) (hret : List Event) : Prop :=
  (flags.allocationAmount = 0 → result = (.error "amount must be greater than 0", hret)) ∧
  (flags.allocationAmount ≠ 0 → flags.indexerAddress = "" →
    result = (.error "indexer address is required", hret)) ∧
  (∀ e, flags.allocationAmount ≠ 0 → flags.indexerAddress ≠ "" →
    importPrivateKey os flags.privateKeyFile hret = (.error e, hret) →
    result = (.error e, hret)) ∧
  (∀ key, flags.allocationAmount ≠ 0 → flags.indexerAddress ≠ "" →
    importPrivateKey os flags.privateKeyFile hret = (.ok key, hret) →
    host.keyString key = "" →
    result = (.error privateKeyRequired, hret))

/-- The sample world with an endpoint that never reports the receipt, under a
clock that advances by 100 s per poll. -/
def silentWorld : World :=
  { sampleWorld [[1]] with
    transactionReceipt := fun _ _ _ => .ok none
    since := fun _ i => (i : Int) * (100 * second) }

/-- The flags of the sample `close-allocation` runs. -/
def sampleCloseFlags : CloseAllocationFlags :=
  { privateKeyFile := "", allocationID := sampleAllocation, gasPrice := 0 }

/-! ### Confirmation of a broadcast -/

/-- The polling loop run on the hash of `trx`, right after the broadcast that
returned `trx`, found a receipt that satisfies `good` and left the events
`h'`. -/
def Confirmed (w : World) (fuel : Nat) (trx : String) (h' : List Event)
    (good : TransactionReceipt → Prop) : Prop :=
  ∃ hpre raw hash receipt,
    w.sendRaw hpre raw = .ok trx ∧ w.newHash trx = .ok hash ∧
    fetchReceipt w fuel hash (hpre ++ [.sendRaw raw]) = (.ok (some receipt), h') ∧
    good receipt

/-- A computation for which a polling loop that gave up means an error:
whenever the computation adds the line of a polling loop that gave up, it
returns an error, the text `e` of the error satisfies `E trx e` for the hash
`trx` that a broadcast returned, and that broadcast is among the events the
computation added. -/
def GivenUpFails {α : Type} (w : World) (E : String → String → Prop) (m : Run α) : Prop :=
  ∀ h, ∃ added, (m h).2 = h ++ added ∧
    (Event.print timeoutLine ∈ added →
      ∃ e trx hpre raw, (m h).1 = .error e ∧ E trx e ∧
        w.sendRaw hpre raw = .ok trx ∧ Event.sendRaw raw ∈ added)

/-- The flags of the sample `sendpayment` runs. -/
def sampleSendFlags : SendPaymentFlags :=
  { allocationID := sampleAllocation, deploymentID := sampleCidV0, amount := 2,
    gasPrice := 0, privateKeyFile := "" }

/-! ## Theorems -/

/-! ### Numeric utilities -/

theorem int64OfUint64_of_lt (x : Nat) (h : x < 2 ^ 63) : int64OfUint64 x = (x : Int) := by
  have h1 : x % 2 ^ 64 = x := Nat.mod_eq_of_lt (by omega)
  unfold int64OfUint64
  rw [h1, if_pos h]

theorem ConvertToWei_of_lt (x : Nat) (h : x < 2 ^ 63) :
    ConvertToWei x = (x : Int) * 10 ^ 18 := by
  simp only [ConvertToWei, int64OfUint64_of_lt x h]

/-- C1 (code defect): at the `uint64` amount `2^63` the conversion
`int64(amount)` wraps, so `ConvertToWei` returns the negative number
`-(2^63) * 10^18` and not `2^63 * 10^18`. -/
theorem ConvertToWei_wraps_at_two_pow_63 :
    ConvertToWei 9223372036854775808 = -9223372036854775808 * 10 ^ 18 ∧
    ConvertToWei 9223372036854775808 ≠ (9223372036854775808 : Int) * 10 ^ 18 := by
  constructor
  · decide
  · decide

/-! ### Receipt poller -/

/-- The closed form of the `k`-th backoff (counting from zero). -/
theorem nextBackoff_closed_form (k : Nat) :
    nextBackoff (min (500 * millisecond * 2 ^ k) (16 * second)) =
      min (500 * millisecond * 2 ^ (k + 1)) (16 * second) := by
  unfold nextBackoff millisecond second
  rcases Nat.lt_or_ge k 5 with h | h
  · interval_cases k <;> decide
  · have h32 : (2 : Int) ^ 5 ≤ 2 ^ k := pow_le_pow_right₀ (by norm_num) h
    have h33 : (2 : Int) ^ 5 ≤ 2 ^ (k + 1) := pow_le_pow_right₀ (by norm_num) (by omega)
    have e1 : min (500 * 1000000 * (2 : Int) ^ k) (16 * 1000000000) = 16 * 1000000000 :=
      min_eq_right (by norm_num at h32 ⊢; omega)
    have e2 : min (500 * 1000000 * (2 : Int) ^ (k + 1)) (16 * 1000000000) = 16 * 1000000000 :=
      min_eq_right (by norm_num at h33 ⊢; omega)
    rw [e1, e2]
    decide

theorem backoffsFrom_closed_form (n : Nat) : ∀ i : Nat,
    backoffsFrom (min (500 * millisecond * 2 ^ i) (16 * second)) n =
      (List.range n).map (fun k => min (500 * millisecond * 2 ^ (i + k)) (16 * second)) := by
  induction n with
  | zero => intro i; rfl
  | succ n ih =>
    intro i
    rw [backoffsFrom, nextBackoff_closed_form, ih (i + 1), List.range_succ_eq_map]
    simp only [List.map_cons, List.map_map, Nat.add_zero]
    congr 1
    apply List.map_congr_left
    intro k _
    simp only [Function.comp, Nat.succ_eq_add_one]
    congr 3
    omega

theorem backoffsFrom_length (n : Nat) : ∀ b : Int, (backoffsFrom b n).length = n := by
  induction n with
  | zero => intro b; rfl
  | succ n ih => intro b; simp [backoffsFrom, ih]

/-- While the answers are not-found and the clock is within the ceiling, the
loop sleeps for the current backoff and goes on with the next one. -/
theorem fetchLoop_notFound_prefix (poll : Nat → PollResponse) (since : Nat → Int) :
    ∀ (n fuel i : Nat) (b : Int) (sleeps : List Int),
      (∀ j, j < n → poll (i + j) = .ok none ∧ since (i + j) ≤ maxWaitTime) →
      fetchLoop poll since (n + fuel) i b sleeps =
        fetchLoop poll since fuel (i + n) (nextBackoff^[n] b) (sleeps ++ backoffsFrom b n) := by
  intro n
  induction n with
  | zero => intro fuel i b sleeps _; simp [backoffsFrom]
  | succ n ih =>
    intro fuel i b sleeps h
    have h0 := h 0 (Nat.succ_pos n)
    rw [Nat.add_zero] at h0
    have hfuel : n + 1 + fuel = (n + fuel) + 1 := by omega
    rw [hfuel, fetchLoop, h0.1]
    simp only [if_neg (not_lt.mpr h0.2)]
    have hrest : ∀ j, j < n → poll (i + 1 + j) = .ok none ∧ since (i + 1 + j) ≤ maxWaitTime := by
      intro j hj
      have := h (j + 1) (by omega)
      rwa [show i + (j + 1) = i + 1 + j by omega] at this
    have := ih fuel (i + 1) (nextBackoff b) (sleeps ++ [b]) hrest
    rw [nextBackoff] at this
    rw [this]
    simp [backoffsFrom, nextBackoff, Nat.add_assoc, Nat.add_comm 1 n]


theorem fetchLoop_timeout_reads_clock (poll : Nat → PollResponse) (since : Nat → Int) :
    ∀ (fuel i : Nat) (b : Int) (sleeps : List Int),
      (fetchLoop poll since fuel i b sleeps).result = some (.ok none) →
      ∃ j, (fetchLoop poll since fuel i b sleeps).polls = j + 1 ∧ maxWaitTime < since j ∧
        poll j = .ok none := by
  intro fuel
  induction fuel with
  | zero => intro i b sleeps h; simp [fetchLoop] at h
  | succ fuel ih =>
    intro i b sleeps h
    rw [fetchLoop] at h ⊢
    split at h
    · simp at h
    · rename_i hp
      split at h
      · rename_i hs
        simp only [if_pos hs]
        exact ⟨i, rfl, hs, hp⟩
      · rename_i hs
        simp only [if_neg hs]
        exact ih _ _ _ h
    · simp at h

/-- The sleeps of the loop are the sleeps made before it was entered, followed
by successive backoffs from the backoff it was entered with. -/
theorem fetchLoop_sleeps (poll : Nat → PollResponse) (since : Nat → Int) :
    ∀ (fuel i : Nat) (b : Int) (sleeps : List Int),
      ∃ m, (fetchLoop poll since fuel i b sleeps).sleeps = sleeps ++ backoffsFrom b m := by
  intro fuel
  induction fuel with
  | zero => intro i b sleeps; exact ⟨0, by simp [fetchLoop, backoffsFrom]⟩
  | succ fuel ih =>
    intro i b sleeps
    rw [fetchLoop]
    split
    · exact ⟨0, by simp [backoffsFrom]⟩
    · split
      · exact ⟨0, by simp [backoffsFrom]⟩
      · obtain ⟨m, hm⟩ := ih (i + 1) (if b < 12 * second then b * 2 else b) (sleeps ++ [b])
        refine ⟨m + 1, ?_⟩
        rw [hm]
        simp [backoffsFrom, nextBackoff]
    · exact ⟨0, by simp [backoffsFrom]⟩

/-- C3 (amended): in every run the successive sleeps are 500ms, 1s, 2s, 4s, 8s,
16s, 16s, ...: the sleep number `k` (from zero) lasts `min (500ms * 2^k) 16s`,
so the backoff doubles while it is below 12 s and never exceeds 16 s; and a run
whose first `n` answers are not-found within the ceiling makes at least `n`
sleeps (given fuel for them). -/
theorem FetchReceiptWithProgress_backoff_sequence (poll : Nat → PollResponse)
    (since : Nat → Int) (n fuel : Nat)
    (h : ∀ i, i < n → poll i = .ok none ∧ since i ≤ maxWaitTime) (hf : n ≤ fuel) :
    (FetchReceiptWithProgress poll since fuel).sleeps =
        (List.range (FetchReceiptWithProgress poll since fuel).sleeps.length).map
          (fun k => min (500 * millisecond * 2 ^ k) (16 * second)) ∧
      n ≤ (FetchReceiptWithProgress poll since fuel).sleeps.length ∧
      ∀ d ∈ (FetchReceiptWithProgress poll since fuel).sleeps, d ≤ 16 * second := by
  have h500 : min (500 * millisecond * 2 ^ 0) (16 * second) = 500 * millisecond := by decide
  have hs : (FetchReceiptWithProgress poll since fuel).sleeps =
      (List.range (FetchReceiptWithProgress poll since fuel).sleeps.length).map
        (fun k => min (500 * millisecond * 2 ^ k) (16 * second)) := by
    obtain ⟨m, hm⟩ := fetchLoop_sleeps poll since fuel 0 (500 * millisecond) []
    have hclosed := backoffsFrom_closed_form m 0
    rw [h500] at hclosed
    simp only [Nat.zero_add] at hclosed
    unfold FetchReceiptWithProgress
    rw [hm, List.nil_append, backoffsFrom_length, hclosed]
  refine ⟨hs, ?_, ?_⟩
  · obtain ⟨rest, rfl⟩ : ∃ rest, fuel = n + rest := ⟨fuel - n, by omega⟩
    have hrun := fetchLoop_notFound_prefix poll since n rest 0 (500 * millisecond) []
      (by intro j hj; rw [Nat.zero_add]; exact h j hj)
    obtain ⟨m, hm⟩ := fetchLoop_sleeps poll since rest (0 + n)
      (nextBackoff^[n] (500 * millisecond)) ([] ++ backoffsFrom (500 * millisecond) n)
    unfold FetchReceiptWithProgress
    rw [hrun, hm]
    simp [backoffsFrom_length]
  · intro d hd
    rw [hs, List.mem_map] at hd
    obtain ⟨k, _, rfl⟩ := hd
    exact min_le_right _ _

/-- C3 (witness): seven not-found answers under a clock at zero. -/
theorem FetchReceiptWithProgress_backoff_sequence_witness :
    (FetchReceiptWithProgress neverFound (fun _ => 0) 7).sleeps =
        (List.range (FetchReceiptWithProgress neverFound (fun _ => 0) 7).sleeps.length).map
          (fun k => min (500 * millisecond * 2 ^ k) (16 * second)) ∧
      7 ≤ (FetchReceiptWithProgress neverFound (fun _ => 0) 7).sleeps.length ∧
      ∀ d ∈ (FetchReceiptWithProgress neverFound (fun _ => 0) 7).sleeps, d ≤ 16 * second :=
  FetchReceiptWithProgress_backoff_sequence neverFound (fun _ => 0) 7 7 (by decide) (by decide)

/-- C3 (counterexample): after six not-found answers the sixth sleep lasted
16 s, not the 12 s of `min (500ms * 2^5) 12s`. -/
theorem FetchReceiptWithProgress_sixth_sleep_16s :
    (FetchReceiptWithProgress neverFound (fun _ => 0) 6).sleeps =
        [500000000, 1000000000, 2000000000, 4000000000, 8000000000, 16000000000] ∧
    (FetchReceiptWithProgress neverFound (fun _ => 0) 6).sleeps ≠
        (List.range 6).map (fun k => min (500 * millisecond * 2 ^ k) (12 * second)) := by
  constructor
  · decide
  · decide

theorem clock_lower_bound (since : Nat → Int) (hclock : SleepAdvancesClock since) (n : Nat) :
    ((List.range n).map (fun k => min (500 * millisecond * 2 ^ k) (16 * second))).sum ≤
      since n := by
  induction n with
  | zero => simpa using hclock.1
  | succ n ih =>
    rw [List.range_succ, List.map_append, List.sum_append]
    simp only [List.map_cons, List.map_nil, List.sum_cons, List.sum_nil, add_zero]
    have := hclock.2 n
    omega

/-- Under a clock advanced by the sleeps, some reading among the first 24
exceeds the ceiling; the first such reading is taken. -/
theorem exists_first_past_ceiling (since : Nat → Int) (hclock : SleepAdvancesClock since) :
    ∃ k, k ≤ 23 ∧ maxWaitTime < since k ∧ ∀ i, i < k → since i ≤ maxWaitTime := by
  have hsum : ((List.range 23).map (fun k => min (500 * millisecond * 2 ^ k) (16 * second))).sum =
      303500000000 := by decide
  have h23 : maxWaitTime < since 23 := by
    have := clock_lower_bound since hclock 23
    rw [hsum] at this
    have hmax : maxWaitTime = 300000000000 := by decide
    omega
  have hex : ∃ k, maxWaitTime < since k := ⟨23, h23⟩
  refine ⟨Nat.find hex, Nat.find_min' hex h23, Nat.find_spec hex, ?_⟩
  intro i hi
  exact not_lt.mp (Nat.find_min hex hi)

/-- C4: when every poll reports not-found, the function returns a nil receipt
with a nil error at the first poll whose clock reading exceeds five minutes
(given fuel for that many polls); no run returns nil-without-error at a poll
whose clock reading is at most five minutes; and under a clock advanced by the
sleeps such a first poll exists among the first 24, so the function does
return. -/
theorem FetchReceiptWithProgress_timeout (since : Nat → Int) :
    (∀ k fuel : Nat, (∀ i, i < k → since i ≤ maxWaitTime) → maxWaitTime < since k → k < fuel →
      (FetchReceiptWithProgress neverFound since fuel).result = some (.ok none) ∧
      (FetchReceiptWithProgress neverFound since fuel).polls = k + 1 ∧
      (FetchReceiptWithProgress neverFound since fuel).sleeps.length = k) ∧
    (∀ (poll : Nat → PollResponse) (fuel : Nat),
      (FetchReceiptWithProgress poll since fuel).result = some (.ok none) →
      ∃ j, (FetchReceiptWithProgress poll since fuel).polls = j + 1 ∧ maxWaitTime < since j) ∧
    (SleepAdvancesClock since →
      ∃ k, k ≤ 23 ∧ maxWaitTime < since k ∧ (∀ i, i < k → since i ≤ maxWaitTime) ∧
        ∀ fuel, k < fuel →
          (FetchReceiptWithProgress neverFound since fuel).result = some (.ok none) ∧
          (FetchReceiptWithProgress neverFound since fuel).polls = k + 1) := by
  have first : ∀ k fuel : Nat, (∀ i, i < k → since i ≤ maxWaitTime) → maxWaitTime < since k →
      k < fuel →
      (FetchReceiptWithProgress neverFound since fuel).result = some (.ok none) ∧
      (FetchReceiptWithProgress neverFound since fuel).polls = k + 1 ∧
      (FetchReceiptWithProgress neverFound since fuel).sleeps.length = k := by
    intro k fuel hlt hk hf
    obtain ⟨rest, rfl⟩ : ∃ rest, fuel = k + (rest + 1) := ⟨fuel - k - 1, by omega⟩
    have hrun := fetchLoop_notFound_prefix neverFound since k (rest + 1) 0 (500 * millisecond) []
      (by intro j hj; rw [Nat.zero_add]; exact ⟨rfl, hlt j hj⟩)
    unfold FetchReceiptWithProgress
    rw [hrun, fetchLoop, Nat.zero_add]
    have hp : neverFound k = .ok none := rfl
    rw [hp]
    simp only [if_pos hk, List.nil_append, backoffsFrom_length, and_self]
  refine ⟨first, ?_, ?_⟩
  · intro poll fuel h
    obtain ⟨j, hj, hs, _⟩ := fetchLoop_timeout_reads_clock poll since fuel 0 _ _ h
    exact ⟨j, hj, hs⟩
  · intro hclock
    obtain ⟨k, hk23, hk, hlt⟩ := exists_first_past_ceiling since hclock
    refine ⟨k, hk23, hk, hlt, ?_⟩
    intro fuel hf
    obtain ⟨h1, h2, _⟩ := first k fuel hlt hk hf
    exact ⟨h1, h2⟩

theorem steadyClock_advances : SleepAdvancesClock steadyClock := by
  refine ⟨by decide, ?_⟩
  intro i
  have h := min_le_right (500 * millisecond * 2 ^ i) (16 * second)
  unfold steadyClock
  push_cast
  linarith

/-- C4 (witness): a clock that passes the ceiling at the fourth read, and a
clock advanced by 16 s per round. -/
theorem FetchReceiptWithProgress_timeout_witness :
    ((FetchReceiptWithProgress neverFound clockPastCeilingAtThree 10).result = some (.ok none) ∧
      (FetchReceiptWithProgress neverFound clockPastCeilingAtThree 10).polls = 4 ∧
      (FetchReceiptWithProgress neverFound clockPastCeilingAtThree 10).sleeps.length = 3) ∧
    ∃ k, k ≤ 23 ∧ maxWaitTime < steadyClock k ∧ (∀ i, i < k → steadyClock i ≤ maxWaitTime) ∧
      ∀ fuel, k < fuel →
        (FetchReceiptWithProgress neverFound steadyClock fuel).result = some (.ok none) ∧
        (FetchReceiptWithProgress neverFound steadyClock fuel).polls = k + 1 :=
  ⟨(FetchReceiptWithProgress_timeout clockPastCeilingAtThree).1 3 10
      (by decide) (by decide) (by decide),
    (FetchReceiptWithProgress_timeout steadyClock).2.2 steadyClock_advances⟩

/-- C5: the first poll that answers with an RPC error ends the run: the result
is that error with no receipt, the polls made are those up to it, the sleeps
made are those before it, whatever the clock shows at that poll; and the loop
entered at that poll returns the error from any backoff. -/
theorem FetchReceiptWithProgress_error (poll : Nat → PollResponse) (since : Nat → Int)
    (k fuel : Nat) (e : String)
    (hprev : ∀ i, i < k → poll i = .ok none ∧ since i ≤ maxWaitTime)
    (hk : poll k = .error e) (hf : k < fuel) :
    (FetchReceiptWithProgress poll since fuel).result = some (.error e) ∧
    (FetchReceiptWithProgress poll since fuel).polls = k + 1 ∧
    (FetchReceiptWithProgress poll since fuel).sleeps = backoffsFrom (500 * millisecond) k ∧
    (FetchReceiptWithProgress poll since fuel).sleeps.length = k ∧
    ∀ (fuel' : Nat) (b : Int) (sleeps : List Int),
      (fetchLoop poll since (fuel' + 1) k b sleeps).result = some (.error e) ∧
      (fetchLoop poll since (fuel' + 1) k b sleeps).polls = k + 1 ∧
      (fetchLoop poll since (fuel' + 1) k b sleeps).sleeps = sleeps := by
  obtain ⟨rest, rfl⟩ : ∃ rest, fuel = k + (rest + 1) := ⟨fuel - k - 1, by omega⟩
  have hrun := fetchLoop_notFound_prefix poll since k (rest + 1) 0 (500 * millisecond) []
    (by intro j hj; rw [Nat.zero_add]; exact hprev j hj)
  unfold FetchReceiptWithProgress
  rw [hrun, fetchLoop, Nat.zero_add, hk]
  refine ⟨rfl, rfl, List.nil_append _, ?_, ?_⟩
  · simp only [List.nil_append, backoffsFrom_length]
  · intro fuel' b sleeps
    rw [fetchLoop, hk]
    exact ⟨rfl, rfl, rfl⟩

/-- C5 (witness): the third request fails after two requests that found no
receipt, under a clock that still reads zero: the loop ends with that error
after three polls and two sleeps. -/
theorem FetchReceiptWithProgress_error_witness :
    (FetchReceiptWithProgress failsAtThird clockPastCeilingAtThree 5).result =
        some (.error "rpc down") ∧
    (FetchReceiptWithProgress failsAtThird clockPastCeilingAtThree 5).polls = 3 ∧
    (FetchReceiptWithProgress failsAtThird clockPastCeilingAtThree 5).sleeps.length = 2 :=
  have h := FetchReceiptWithProgress_error failsAtThird clockPastCeilingAtThree 2 5 "rpc down"
    (by decide) (by decide) (by decide)
  ⟨h.1, h.2.1, h.2.2.2.1⟩


/-! ### Content identifiers -/

theorem FromB58String_sampleCidV0 :
    FromB58String sampleCidV0 = .ok (18 :: 32 :: sampleCidV0Digest) := by decide

/-- C9: when the identifier decodes to `d`, the result is `d` without its first
two bytes if `d` is 34 bytes long and `d` itself otherwise; the result is an
error exactly when the decoding fails. -/
theorem ConvertIPFSHashToByteString_spec (fromB58String : String → Except String Bytes)
    (hash : String) :
    (∀ d, fromB58String hash = .ok d →
      (d.length = 34 → ConvertIPFSHashToByteString fromB58String hash = .ok (d.drop 2)) ∧
      (d.length ≠ 34 → ConvertIPFSHashToByteString fromB58String hash = .ok d)) ∧
    ((∃ e, ConvertIPFSHashToByteString fromB58String hash = .error e) ↔
      ∃ e, fromB58String hash = .error e) := by
  unfold ConvertIPFSHashToByteString
  constructor
  · intro d hd
    rw [hd]
    constructor
    · intro h34
      simp only [if_pos h34]
    · intro h34
      simp only [if_neg h34]
  · cases hdec : fromB58String hash with
    | error e => simp
    | ok d => simp

/-- C9 (witness): a version-0 identifier loses its two header bytes. -/
theorem ConvertIPFSHashToByteString_spec_witness :
    ConvertIPFSHashToByteString FromB58String sampleCidV0 = .ok sampleCidV0Digest :=
  ((ConvertIPFSHashToByteString_spec FromB58String sampleCidV0).1
    (18 :: 32 :: sampleCidV0Digest) FromB58String_sampleCidV0).1 (by decide)

/-- C10 (amended): a successful conversion of an identifier whose decoded form
is 34 bytes long returns exactly 32 bytes; for a decoded form of any other
length the result has that same length. -/
theorem ConvertIPFSHashToByteString_length (fromB58String : String → Except String Bytes)
    (hash : String) (out : Bytes)
    (h : ConvertIPFSHashToByteString fromB58String hash = .ok out) :
    ∃ d, fromB58String hash = .ok d ∧
      (d.length = 34 → out.length = 32) ∧ (d.length ≠ 34 → out.length = d.length) := by
  unfold ConvertIPFSHashToByteString at h
  cases hdec : fromB58String hash with
  | error e => rw [hdec] at h; simp at h
  | ok d =>
    rw [hdec] at h
    refine ⟨d, rfl, ?_, ?_⟩
    · intro h34
      simp only [if_pos h34, Except.ok.injEq] at h
      rw [← h, List.length_drop, h34]
    · intro h34
      simp only [if_neg h34, Except.ok.injEq] at h
      rw [← h]

/-- C10 (witness): the version-0 identifier gives 32 bytes. -/
theorem ConvertIPFSHashToByteString_length_witness :
    ∃ d, FromB58String sampleCidV0 = .ok d ∧
      (d.length = 34 → sampleCidV0Digest.length = 32) ∧
      (d.length ≠ 34 → sampleCidV0Digest.length = d.length) :=
  ConvertIPFSHashToByteString_length FromB58String sampleCidV0 sampleCidV0Digest (by decide)

/-- C10 (counterexample): the base-58 form of a sha1 multihash (22 bytes) is
converted without error and the result is 22 bytes long, not 32. -/
theorem ConvertIPFSHashToByteString_sha1_not_32 :
    ConvertIPFSHashToByteString FromB58String sampleSha1Multihash =
      .ok [17, 20, 11, 238, 199, 181, 234, 63, 15, 219, 201, 93, 13, 212, 127, 60, 91, 194, 117,
        218, 138, 51] ∧
    ¬ (∀ out, ConvertIPFSHashToByteString FromB58String sampleSha1Multihash = .ok out →
      out.length = 32) := by
  have h : ConvertIPFSHashToByteString FromB58String sampleSha1Multihash =
      .ok [17, 20, 11, 238, 199, 181, 234, 63, 15, 219, 201, 93, 13, 212, 127, 60, 91, 194, 117,
        218, 138, 51] := by decide
  refine ⟨h, ?_⟩
  intro hall
  have := hall _ h
  simp at this

/-! ### Allocation identity -/

theorem generateAllocationIDAndProof_eq (c : Crypto) (address : String) :
    generateAllocationIDAndProof c address = GenerateAllocationIDAndProof c address := rfl

/-- C2: whenever `GenerateAllocationIDAndProof` (or its copy
`generateAllocationIDAndProof`) returns an allocation address and a proof,
personal-message recovery of that proof over
`keccak256 (indexer bytes ++ allocation bytes)` gives exactly that address; and
whenever key generation and signing succeed but recovery gives another address,
both functions return an error. -/
theorem GenerateAllocationIDAndProof_roundtrip (c : Crypto) (address : String) :
    (∀ a p, (GenerateAllocationIDAndProof c address = .ok (a, p) ∨
        generateAllocationIDAndProof c address = .ok (a, p)) →
      c.recoverPersonal p (c.keccak256 (c.hexToAddress address ++ a)) = .ok a) ∧
    (∀ key pk signature recovered,
      c.generateKey = .ok key → c.newPrivateKey (hexEncode key) = .ok pk →
      c.signPersonal pk (c.keccak256 (c.hexToAddress address ++ c.pubkeyToAddress key)) =
        .ok signature →
      c.recoverPersonal (c.toInverted signature)
        (c.keccak256 (c.hexToAddress address ++ c.pubkeyToAddress key)) = .ok recovered →
      recovered ≠ c.pubkeyToAddress key →
      (∃ e, GenerateAllocationIDAndProof c address = .error e) ∧
      (∃ e, generateAllocationIDAndProof c address = .error e)) := by
  constructor
  · intro a p h
    rw [generateAllocationIDAndProof_eq, or_self] at h
    unfold GenerateAllocationIDAndProof at h
    cases hk : c.generateKey with
    | error e => simp [hk] at h
    | ok key =>
      cases hpk : c.newPrivateKey (hexEncode key) with
      | error e => simp [hk, hpk] at h
      | ok pk =>
        cases hs : c.signPersonal pk
            (c.keccak256 (c.hexToAddress address ++ c.pubkeyToAddress key)) with
        | error e => simp [hk, hpk, hs] at h
        | ok signature =>
          cases hr : c.recoverPersonal (c.toInverted signature)
              (c.keccak256 (c.hexToAddress address ++ c.pubkeyToAddress key)) with
          | error e => simp [hk, hpk, hs, hr] at h
          | ok recovered =>
            simp only [hk, hpk, hs, hr] at h
            by_cases heq : recovered = c.pubkeyToAddress key
            · simp only [heq, not_true_eq_false, if_false, Except.ok.injEq, Prod.mk.injEq] at h
              obtain ⟨ha, hp⟩ := h
              rw [← ha, ← hp, hr, heq]
            · simp [heq] at h
  · intro key pk signature recovered hk hpk hs hr hne
    rw [generateAllocationIDAndProof_eq, and_self]
    unfold GenerateAllocationIDAndProof
    simp only [hk, hpk, hs, hr]
    simp [hne]

/-- C2 (witness): a run whose recovery gives back the allocation address
returns the identity, and a run whose recovery gives another address returns an
error. -/
theorem GenerateAllocationIDAndProof_roundtrip_witness :
    (toyCrypto []).recoverPersonal (toyAddress ++ [1, 2, 27])
        ((toyCrypto []).keccak256 ((toyCrypto []).hexToAddress "0x35" ++ toyAddress)) =
      .ok toyAddress ∧
    (∃ e, GenerateAllocationIDAndProof (toyCrypto [9, 9]) "0x35" = .error e) :=
  ⟨(GenerateAllocationIDAndProof_roundtrip (toyCrypto []) "0x35").1 toyAddress
      (toyAddress ++ [1, 2, 27]) (Or.inl (by decide)),
   ((GenerateAllocationIDAndProof_roundtrip (toyCrypto [9, 9]) "0x35").2 (toyAddress ++ [1, 2])
      (toyAddress ++ [1, 2]) (toyAddress ++ [1, 2, 0]) [9, 9] (by decide) (by decide) (by decide)
      (by decide) (by decide)).1⟩

/-! ### Submitting calls -/

/-! ### Sequencing lemmas and the zero-logs check of the sibling calls -/

/-- A sequence returns normally only if its first part did and the rest, run
after it, did. -/
theorem Run.bind_ok {α β : Type} (m : Run α) (f : α → Run β) (h h' : List Event) (b : β)
    (hrun : (m >>= f) h = (.ok b, h')) :
    ∃ a h1, m h = (.ok a, h1) ∧ f a h1 = (.ok b, h') := by
  change Run.bind m f h = (.ok b, h') at hrun
  unfold Run.bind at hrun
  split at hrun
  · rename_i a h1 hm
    exact ⟨a, h1, hm, hrun⟩
  all_goals simp at hrun

/-- The final check of `closeAllocationCall` and `allocateCall`: a normal
return needs a receipt with at least one log. -/
theorem receipt_check_ok {α : Type} (receipt : Option TransactionReceipt) (e1 e2 : String)
    (a b : α) (h h' : List Event)
    (hrun : (match receipt with
      | none => (fail e1 : Run α)
      | some receipt => if receipt.logs.length = 0 then fail e2 else pure a) h = (.ok b, h')) :
    ∃ r, receipt = some r ∧ r.logs ≠ [] ∧ h' = h := by
  cases receipt with
  | none => simp [fail] at hrun
  | some r =>
    by_cases hl : r.logs.length = 0
    · simp [hl, fail] at hrun
    · simp only [hl, if_false] at hrun
      have h2 : h = h' := congrArg Prod.snd hrun
      exact ⟨r, rfl, fun hnil => hl (by rw [hnil]; rfl), h2.symm⟩

/-- Whenever `closeAllocationCall` returns a transaction hash, the receipt its
polling loop found has at least one log. -/
theorem closeAllocationCall_ok_has_logs (w : World) (ctx : Context) (fuel : Nat)
    (toStr sender allocationID : String) (gasPrice : Int) (h h' : List Event) (resp : String)
    (hrun : closeAllocationCall w ctx fuel toStr sender allocationID gasPrice h = (.ok resp, h')) :
    ∃ hash h0 receipt, fetchReceipt w fuel hash h0 = (.ok (some receipt), h') ∧
      receipt.logs ≠ [] := by
  unfold closeAllocationCall at hrun
  obtain ⟨_, _, -, hrun⟩ := Run.bind_ok _ _ _ _ _ hrun
  obtain ⟨_, _, -, hrun⟩ := Run.bind_ok _ _ _ _ _ hrun
  obtain ⟨_, _, -, hrun⟩ := Run.bind_ok _ _ _ _ _ hrun
  obtain ⟨_, _, -, hrun⟩ := Run.bind_ok _ _ _ _ _ hrun
  obtain ⟨_, _, -, hrun⟩ := Run.bind_ok _ _ _ _ _ hrun
  obtain ⟨_, _, -, hrun⟩ := Run.bind_ok _ _ _ _ _ hrun
  obtain ⟨_, _, -, hrun⟩ := Run.bind_ok _ _ _ _ _ hrun
  obtain ⟨_, _, -, hrun⟩ := Run.bind_ok _ _ _ _ _ hrun
  obtain ⟨_, _, -, hrun⟩ := Run.bind_ok _ _ _ _ _ hrun
  obtain ⟨_, _, -, hrun⟩ := Run.bind_ok _ _ _ _ _ hrun
  obtain ⟨_, _, -, hrun⟩ := Run.bind_ok _ _ _ _ _ hrun
  obtain ⟨hash, h0, -, hrun⟩ := Run.bind_ok _ _ _ _ _ hrun
  obtain ⟨receipt, h1, hfetch, hrun⟩ := Run.bind_ok _ _ _ _ _ hrun
  obtain ⟨r, rfl, hlogs, rfl⟩ := receipt_check_ok _ _ _ _ _ _ _ hrun
  exact ⟨hash, h0, r, hfetch, hlogs⟩

/-- Whenever `allocateCall` returns a transaction hash, the receipt its polling
loop found has at least one log. -/
theorem allocateCall_ok_has_logs (w : World) (c : Crypto) (ctx : Context) (fuel : Nat)
    (toStr sender indexerAddress deploymentID : String) (amt : Nat) (gasPrice : Int)
    (h h' : List Event) (out : String × String)
    (hrun : allocateCall w c ctx fuel toStr sender indexerAddress deploymentID amt gasPrice h =
      (.ok out, h')) :
    ∃ hash h0 receipt, fetchReceipt w fuel hash h0 = (.ok (some receipt), h') ∧
      receipt.logs ≠ [] := by
  unfold allocateCall at hrun
  obtain ⟨_, _, -, hrun⟩ := Run.bind_ok _ _ _ _ _ hrun
  obtain ⟨_, _, -, hrun⟩ := Run.bind_ok _ _ _ _ _ hrun
  obtain ⟨⟨_, _⟩, _, -, hrun⟩ := Run.bind_ok _ _ _ _ _ hrun
  obtain ⟨_, _, -, hrun⟩ := Run.bind_ok _ _ _ _ _ hrun
  obtain ⟨_, _, -, hrun⟩ := Run.bind_ok _ _ _ _ _ hrun
  obtain ⟨_, _, -, hrun⟩ := Run.bind_ok _ _ _ _ _ hrun
  obtain ⟨_, _, -, hrun⟩ := Run.bind_ok _ _ _ _ _ hrun
  obtain ⟨_, _, -, hrun⟩ := Run.bind_ok _ _ _ _ _ hrun
  obtain ⟨_, _, -, hrun⟩ := Run.bind_ok _ _ _ _ _ hrun
  obtain ⟨_, _, -, hrun⟩ := Run.bind_ok _ _ _ _ _ hrun
  obtain ⟨_, _, -, hrun⟩ := Run.bind_ok _ _ _ _ _ hrun
  obtain ⟨_, _, -, hrun⟩ := Run.bind_ok _ _ _ _ _ hrun
  obtain ⟨_, _, -, hrun⟩ := Run.bind_ok _ _ _ _ _ hrun
  obtain ⟨_, _, -, hrun⟩ := Run.bind_ok _ _ _ _ _ hrun
  obtain ⟨_, _, -, hrun⟩ := Run.bind_ok _ _ _ _ _ hrun
  obtain ⟨_, _, -, hrun⟩ := Run.bind_ok _ _ _ _ _ hrun
  obtain ⟨hash, h0, -, hrun⟩ := Run.bind_ok _ _ _ _ _ hrun
  obtain ⟨receipt, h1, hfetch, hrun⟩ := Run.bind_ok _ _ _ _ _ hrun
  obtain ⟨r, rfl, hlogs, rfl⟩ := receipt_check_ok _ _ _ _ _ _ _ hrun
  exact ⟨hash, h0, r, hfetch, hlogs⟩

/-- C6 (code defect): with a broadcast that succeeds and a receipt that is
found with zero logs, `approveCall` and `collectCall` return the transaction
hash with a nil error, while `closeAllocationCall` and `allocateCall` return an
error on the same receipt. -/
theorem approveCall_collectCall_accept_zero_logs :
    (approveCall (sampleWorld []) sampleContext 5 GRTTokenContractAddress sampleSender
        StakingContractAddress 2 0 []).1 = .ok sampleTrxHash ∧
    (collectCall (sampleWorld []) sampleContext 5 StakingContractAddress sampleSender
        sampleAllocation 2 []).1 = .ok sampleTrxHash ∧
    (closeAllocationCall (sampleWorld []) sampleContext 5 StakingContractAddress sampleSender
        sampleAllocation 0 []).1 =
      .error ("failed to close allocation. no logs found for transaction " ++ sampleTrxHash) ∧
    (allocateCall (sampleWorld []) (toyCrypto []) sampleContext 5 StakingContractAddress
        sampleSender sampleSender sampleCidV0 20 0 []).1 =
      .error ("failed to allocate. no logs found for transaction " ++ sampleTrxHash) := by
  refine ⟨?_, ?_, ?_, ?_⟩
  · decide
  · decide
  · decide
  · decide

/-- C7 (code defect): a send-payment run with the gas-price override 5 on a
network reporting the gas price 7 signs the approve transaction with gas price
5 and the collect transaction with gas price 7. -/
theorem sendPaymentE_collect_ignores_override :
    (sendPaymentE (sampleWorld [[1]]) sampleOs 5
        { allocationID := sampleAllocation, deploymentID := sampleCidV0, amount := 2,
          gasPrice := 5, privateKeyFile := "" } []).1 = .ok () ∧
    (signedTransactions (sendPaymentE (sampleWorld [[1]]) sampleOs 5
        { allocationID := sampleAllocation, deploymentID := sampleCidV0, amount := 2,
          gasPrice := 5, privateKeyFile := "" } []).2).map
      (fun tx => (tx.gasLimit, tx.gasPrice)) = [(7000000, 5), (5000000, 7)] := by
  constructor
  · decide
  · decide

/-! ### Batch document -/

theorem sprintfChars_verb (lit : List Char) (hlit : '%' ∉ lit) (rest : List Char) (a : String)
    (args : List String) :
    sprintfChars (lit ++ '%' :: 's' :: rest) (a :: args) =
      lit ++ (a.data ++ sprintfChars rest args) := by
  induction lit with
  | nil => simp [sprintfChars]
  | cons c lit ih =>
    have hc : c ≠ '%' := fun h => hlit (by simp [h])
    have hl : '%' ∉ lit := fun h => hlit (by simp [h])
    rw [List.cons_append, sprintfChars]
    · rw [ih hl, List.cons_append]
    all_goals (intros; simp_all)

theorem sprintfChars_literal (lit : List Char) (hlit : '%' ∉ lit) :
    sprintfChars lit [] = lit := by
  induction lit with
  | nil => simp [sprintfChars]
  | cons c lit ih =>
    have hc : c ≠ '%' := fun h => hlit (by simp [h])
    have hl : '%' ∉ lit := fun h => hlit (by simp [h])
    rw [sprintfChars]
    · rw [ih hl]
    all_goals (intros; simp_all)

set_option maxRecDepth 100000 in
theorem jsonTemplate_segments :
    jsonTemplate.data =
      segIndexer.data ++ '%' :: 's' :: (segDeployment.data ++ '%' :: 's' ::
      (segAllocateTokens.data ++ '%' :: 's' :: (segAllocateAllocationID.data ++ '%' :: 's' ::
      (segProof.data ++ '%' :: 's' :: (segApproveAmount.data ++ '%' :: 's' ::
      (segCollectTokens.data ++ '%' :: 's' :: (segCollectAllocationID.data ++ '%' :: 's' ::
      (segCloseAllocationID.data ++ '%' :: 's' :: segTail.data)))))))) :=
  eq_of_beq (by decide)

set_option maxRecDepth 100000 in
theorem segments_literal :
    '%' ∉ segIndexer.data ∧ '%' ∉ segDeployment.data ∧ '%' ∉ segAllocateTokens.data ∧
    '%' ∉ segAllocateAllocationID.data ∧ '%' ∉ segProof.data ∧ '%' ∉ segApproveAmount.data ∧
    '%' ∉ segCollectTokens.data ∧ '%' ∉ segCollectAllocationID.data ∧
    '%' ∉ segCloseAllocationID.data ∧ '%' ∉ segTail.data := by
  decide

/-- The document is the template with its nine verbs filled in order. -/
theorem Sprintf_jsonTemplate (a1 a2 a3 a4 a5 a6 a7 a8 a9 : String) :
    Sprintf jsonTemplate [a1, a2, a3, a4, a5, a6, a7, a8, a9] =
      segIndexer ++ a1 ++ segDeployment ++ a2 ++ segAllocateTokens ++ a3 ++
      segAllocateAllocationID ++ a4 ++ segProof ++ a5 ++ segApproveAmount ++ a6 ++
      segCollectTokens ++ a7 ++ segCollectAllocationID ++ a8 ++ segCloseAllocationID ++ a9 ++
      segTail := by
  obtain ⟨h0, h1, h2, h3, h4, h5, h6, h7, h8, h9⟩ := segments_literal
  apply String.ext
  unfold Sprintf
  rw [jsonTemplate_segments, sprintfChars_verb _ h0, sprintfChars_verb _ h1,
    sprintfChars_verb _ h2, sprintfChars_verb _ h3, sprintfChars_verb _ h4,
    sprintfChars_verb _ h5, sprintfChars_verb _ h6, sprintfChars_verb _ h7,
    sprintfChars_verb _ h8, sprintfChars_literal _ h9]
  simp only [String.data_append, List.append_assoc]

/-- C8 (amended): for amounts `a` and `p` with `a + p < 2^63`, the document
carries `a * 10^18` as the `_tokens` input of `allocateFrom`, `p * 10^18` as
the `_tokens` input of `collect`, and the combined value `(a + p) * 10^18` as
the `amount` input of `approve`. -/
theorem generateJSON_amounts (indexerAddress deploymentID allocationID proof : String)
    (a p : Nat) (h : a + p < 2 ^ 63) :
    generateJSON indexerAddress deploymentID allocationID proof a p =
      segIndexer ++ indexerAddress ++ segDeployment ++ deploymentID ++
      segAllocateTokens ++ bigIntString ((a : Int) * 10 ^ 18) ++
      segAllocateAllocationID ++ allocationID ++ segProof ++ proof ++
      segApproveAmount ++ bigIntString (((a : Int) + (p : Int)) * 10 ^ 18) ++
      segCollectTokens ++ bigIntString ((p : Int) * 10 ^ 18) ++
      segCollectAllocationID ++ allocationID ++ segCloseAllocationID ++ allocationID ++
      segTail := by
  have hmod : (a + p) % 2 ^ 64 = a + p := Nat.mod_eq_of_lt (by omega)
  unfold generateJSON
  simp only [hmod]
  rw [ConvertToWei_of_lt a (by omega), ConvertToWei_of_lt p (by omega),
    ConvertToWei_of_lt (a + p) h, Sprintf_jsonTemplate]
  push_cast
  rfl

set_option maxRecDepth 100000 in
/-- C8 (witness): the run `paygrt 20 2`; the `_tokens` input of `allocateFrom`
is `20 * 10^18`, the `amount` input of `approve` is `22 * 10^18`, the `_tokens`
input of `collect` is `2 * 10^18`. -/
theorem generateJSON_amounts_witness :
    sampleBatch =
      segIndexer ++ "0x35917C0eB91d2E21BEF40940D028940484230c06" ++ segDeployment ++
      "0x9d6c2be50f706953479ab9df2ce3edca90b68053c00b3004b7f0accbe1e8eedf" ++
      segAllocateTokens ++ bigIntString (((20 : Nat) : Int) * 10 ^ 18) ++
      segAllocateAllocationID ++ "0xabcdabcdabcdabcdabcdabcdabcdabcdabcdabcd" ++ segProof ++
      "0x01021b" ++
      segApproveAmount ++ bigIntString ((((20 : Nat) : Int) + ((2 : Nat) : Int)) * 10 ^ 18) ++
      segCollectTokens ++ bigIntString (((2 : Nat) : Int) * 10 ^ 18) ++
      segCollectAllocationID ++ "0xabcdabcdabcdabcdabcdabcdabcdabcdabcdabcd" ++
      segCloseAllocationID ++ "0xabcdabcdabcdabcdabcdabcdabcdabcdabcdabcd" ++ segTail ∧
    fieldValue "amount" 0 sampleBatch = some "22000000000000000000" ∧
    fieldValue "_tokens" 1 sampleBatch = some "2000000000000000000" :=
  ⟨generateJSON_amounts "0x35917C0eB91d2E21BEF40940D028940484230c06"
      "0x9d6c2be50f706953479ab9df2ce3edca90b68053c00b3004b7f0accbe1e8eedf"
      "0xabcdabcdabcdabcdabcdabcdabcdabcdabcdabcd" "0x01021b" 20 2 (by decide),
    by decide, by decide⟩

set_option maxRecDepth 100000 in
/-- C8 (counterexample): in the document of `paygrt 20 2` the `_tokens` input
of `allocateFrom` is `20 * 10^18`, not the combined `22 * 10^18`. -/
theorem generateJSON_allocateFrom_tokens_not_combined :
    fieldValue "_tokens" 0 sampleBatch = some "20000000000000000000" ∧
    fieldValue "_tokens" 0 sampleBatch ≠ some (bigIntString ((20 + 2) * 10 ^ 18)) := by
  constructor
  · decide
  · decide

/-! ### Content identifiers: idempotence -/

/-- C15: a decoded form that is already 32 bytes long is returned unchanged, and
converting the result of a conversion again (with any decoder that yields that
result) gives the same bytes. -/
theorem ConvertIPFSHashToByteString_idempotent :
    (∀ (f : String → Except String Bytes) (hash : String) (d : Bytes),
      f hash = .ok d → d.length = 32 → ConvertIPFSHashToByteString f hash = .ok d) ∧
    (∀ (f g : String → Except String Bytes) (hash hash2 : String) (r : Bytes),
      ConvertIPFSHashToByteString f hash = .ok r → g hash2 = .ok r →
      ConvertIPFSHashToByteString g hash2 = .ok r) := by
  constructor
  · intro f hash d hd h32
    unfold ConvertIPFSHashToByteString
    rw [hd]
    have h34 : ¬ d.length = 34 := by omega
    simp only [if_neg h34]
  · intro f g hash hash2 r hr hg
    have hlen : r.length ≠ 34 := by
      unfold ConvertIPFSHashToByteString at hr
      cases hdec : f hash with
      | error e => rw [hdec] at hr; simp at hr
      | ok d =>
        rw [hdec] at hr
        by_cases h34 : d.length = 34
        · simp only [if_pos h34, Except.ok.injEq] at hr
          rw [← hr, List.length_drop, h34]
          omega
        · simp only [if_neg h34, Except.ok.injEq] at hr
          rw [← hr]
          exact h34
    unfold ConvertIPFSHashToByteString
    rw [hg]
    simp only [if_neg hlen]

/-- C15 (witness): the digest of the version-0 identifier, 32 bytes long, is
returned unchanged, also when it comes out of a first conversion. -/
theorem ConvertIPFSHashToByteString_idempotent_witness :
    ConvertIPFSHashToByteString (fun _ => .ok sampleCidV0Digest) "digest" =
        .ok sampleCidV0Digest ∧
    ConvertIPFSHashToByteString (fun _ => .ok sampleCidV0Digest) "again" =
        .ok sampleCidV0Digest :=
  ⟨ConvertIPFSHashToByteString_idempotent.1 (fun _ => .ok sampleCidV0Digest) "digest"
      sampleCidV0Digest rfl (by decide),
   ConvertIPFSHashToByteString_idempotent.2 FromB58String (fun _ => .ok sampleCidV0Digest)
      sampleCidV0 "again" sampleCidV0Digest (by decide) rfl⟩

/-! ### Receipt poller: termination -/

/-- Once some clock reading at an index not yet passed exceeds the ceiling, the
loop returns by that index. -/
theorem fetchLoop_returns_by (poll : Nat → PollResponse) (since : Nat → Int) (k : Nat)
    (hk : maxWaitTime < since k) :
    ∀ (fuel i : Nat) (b : Int) (sleeps : List Int), i ≤ k → k - i < fuel →
      ∃ r, (fetchLoop poll since fuel i b sleeps).result = some r ∧
        (fetchLoop poll since fuel i b sleeps).polls ≤ k + 1 ∧
        (fetchLoop poll since fuel i b sleeps).sleeps.length ≤ sleeps.length + (k - i) := by
  intro fuel
  induction fuel with
  | zero => intro i b sleeps _ hf; omega
  | succ fuel ih =>
    intro i b sleeps hi hf
    rw [fetchLoop]
    split
    · exact ⟨_, rfl, by simp only; omega, by simp only; omega⟩
    · split
      · exact ⟨_, rfl, by simp only; omega, by simp only; omega⟩
      · rename_i hnot
        have hik : i ≠ k := fun h => hnot (by rw [h]; exact hk)
        obtain ⟨r, h1, h2, h3⟩ := ih (i + 1) (if b < 12 * second then b * 2 else b)
          (sleeps ++ [b]) (by omega) (by omega)
        refine ⟨r, h1, h2, ?_⟩
        rw [List.length_append, List.length_singleton] at h3
        omega
    · exact ⟨_, rfl, by simp only; omega, by simp only; omega⟩

/-- A run that has returned is not changed by more fuel. -/
theorem fetchLoop_fuel_stable (poll : Nat → PollResponse) (since : Nat → Int) (extra : Nat) :
    ∀ (fuel i : Nat) (b : Int) (sleeps : List Int) (r : Except String (Option TransactionReceipt)),
      (fetchLoop poll since fuel i b sleeps).result = some r →
      fetchLoop poll since (fuel + extra) i b sleeps = fetchLoop poll since fuel i b sleeps := by
  intro fuel
  induction fuel with
  | zero => intro i b sleeps r h; simp [fetchLoop] at h
  | succ fuel ih =>
    intro i b sleeps r h
    have hfuel : fuel + 1 + extra = (fuel + extra) + 1 := by omega
    rw [hfuel, fetchLoop, fetchLoop]
    rw [fetchLoop] at h
    split
    · rfl
    · split
      · rfl
      · rename_i hp hnot
        rw [hp] at h
        simp only [if_neg hnot] at h
        exact ih _ _ _ r h
    · rfl

/-- C19: under a clock that does not run backward and that each sleep advances
by at least the current backoff, for every sequence of poll answers the
function returns, after at most 24 polls and at most 23 sleeps; 24 units of
fuel are enough and more fuel does not change the run. -/
theorem FetchReceiptWithProgress_terminates (poll : Nat → PollResponse) (since : Nat → Int)
    (hclock : SleepAdvancesClock since) (fuel : Nat) (hf : 24 ≤ fuel) :
    ∃ r, (FetchReceiptWithProgress poll since fuel).result = some r ∧
      (FetchReceiptWithProgress poll since fuel).polls ≤ 24 ∧
      (FetchReceiptWithProgress poll since fuel).sleeps.length ≤ 23 ∧
      FetchReceiptWithProgress poll since fuel = FetchReceiptWithProgress poll since 24 := by
  obtain ⟨k, hk23, hk, _⟩ := exists_first_past_ceiling since hclock
  obtain ⟨r, h1, h2, h3⟩ :=
    fetchLoop_returns_by poll since k hk 24 0 (500 * millisecond) [] (Nat.zero_le k) (by omega)
  obtain ⟨extra, rfl⟩ : ∃ extra, fuel = 24 + extra := ⟨fuel - 24, by omega⟩
  have hst := fetchLoop_fuel_stable poll since extra 24 0 (500 * millisecond) [] r h1
  unfold FetchReceiptWithProgress
  rw [hst]
  refine ⟨r, h1, by omega, ?_, rfl⟩
  simp only [List.length_nil, Nat.zero_add, Nat.sub_zero] at h3
  omega

/-- C19 (witness): the clock advancing by 16 s per round, with a receipt that
is never found and with a request that fails at the third poll. -/
theorem FetchReceiptWithProgress_terminates_witness :
    (∃ r, (FetchReceiptWithProgress neverFound steadyClock 30).result = some r ∧
      (FetchReceiptWithProgress neverFound steadyClock 30).polls ≤ 24 ∧
      (FetchReceiptWithProgress neverFound steadyClock 30).sleeps.length ≤ 23 ∧
      FetchReceiptWithProgress neverFound steadyClock 30 =
        FetchReceiptWithProgress neverFound steadyClock 24) ∧
    (FetchReceiptWithProgress neverFound steadyClock 24).polls = 20 :=
  ⟨FetchReceiptWithProgress_terminates neverFound steadyClock steadyClock_advances 30
    (by decide), by decide⟩

/-! ### Batch document: the approved amount -/

set_option maxRecDepth 100000 in
/-- C18 (code defect): for the amounts 9223372036854775807 and 1 the document
carries the approve `amount` `-9223372036854775808 * 10^18`, which is not the
sum of the allocateFrom `_tokens` and the collect `_tokens` of the same
document; for the amounts `2^63` and `2^63`, whose sum does not fit in 64 bits,
the approved amount is built from the wrapped sum 0. -/
theorem generateJSON_approve_amount_not_sum :
    fieldValue "_tokens" 0 overflowBatch = some "9223372036854775807000000000000000000" ∧
    fieldValue "_tokens" 1 overflowBatch = some "1000000000000000000" ∧
    fieldValue "amount" 0 overflowBatch = some "-9223372036854775808000000000000000000" ∧
    ConvertToWei ((9223372036854775807 + 1) % 2 ^ 64) ≠
      ConvertToWei 9223372036854775807 + ConvertToWei 1 ∧
    ConvertToWei ((9223372036854775808 + 9223372036854775808) % 2 ^ 64) = 0 ∧
    ConvertToWei 9223372036854775808 + ConvertToWei 9223372036854775808 ≠ 0 := by
  refine ⟨?_, ?_, ?_, ?_, ?_, ?_⟩
  · decide
  · decide
  · decide
  · decide
  · decide
  · decide

/-! ### Events added by the calls -/

theorem Emits.mono {α : Type} {P Q : Event → Prop} {m : Run α} (hm : Emits P m)
    (hPQ : ∀ ev, P ev → Q ev) : Emits Q m := by
  intro h
  obtain ⟨added, h1, h2⟩ := hm h
  exact ⟨added, h1, fun ev hev => hPQ ev (h2 ev hev)⟩

theorem Emits.pure {α : Type} (P : Event → Prop) (a : α) : Emits P (pure a : Run α) :=
  fun h => ⟨[], by simp [Pure.pure], by simp⟩

theorem Emits.fail {α : Type} (P : Event → Prop) (e : String) : Emits P (fail e : Run α) :=
  fun h => ⟨[], by simp [NetworkPayments.fail], by simp⟩

theorem Emits.goPanic {α : Type} (P : Event → Prop) (e : String) :
    Emits P (goPanic e : Run α) :=
  fun h => ⟨[], by simp [NetworkPayments.goPanic], by simp⟩

theorem Emits.failIf (P : Event → Prop) (c : Bool) (e : String) : Emits P (failIf c e) := by
  intro h
  refine ⟨[], ?_, by simp⟩
  unfold NetworkPayments.failIf
  split <;> simp

theorem Emits.ofExcept {α : Type} (P : Event → Prop) (x : Except String α) :
    Emits P (ofExcept x) := by
  intro h
  refine ⟨[], ?_, by simp⟩
  unfold NetworkPayments.ofExcept
  split <;> simp

theorem Emits.emit (P : Event → Prop) (ev : Event) (hev : P ev) : Emits P (emit ev) :=
  fun h => ⟨[ev], by simp [NetworkPayments.emit], by simpa using hev⟩

theorem Emits.request {α : Type} (P : Event → Prop) (ev : Event)
    (answer : List Event → Except String α) (hev : P ev) : Emits P (request ev answer) := by
  intro h
  refine ⟨[ev], ?_, by simpa using hev⟩
  unfold NetworkPayments.request
  split <;> simp

theorem Emits.wrapErr {α : Type} {P : Event → Prop} (pre : String) {m : Run α}
    (hm : Emits P m) : Emits P (wrapErr pre m) := by
  intro h
  obtain ⟨added, h1, h2⟩ := hm h
  refine ⟨added, ?_, h2⟩
  unfold NetworkPayments.wrapErr
  split
  · rename_i heq
    rw [heq] at h1
    exact h1
  · exact h1

theorem Emits.must {α : Type} {P : Event → Prop} {m : Run α} (hm : Emits P m) :
    Emits P (must m) := by
  intro h
  obtain ⟨added, h1, h2⟩ := hm h
  refine ⟨added, ?_, h2⟩
  unfold NetworkPayments.must
  split
  · rename_i heq
    rw [heq] at h1
    exact h1
  · exact h1

theorem Emits.bind {α β : Type} {P : Event → Prop} {m : Run α} {f : α → Run β}
    (hm : Emits P m) (hf : ∀ a, Emits P (f a)) : Emits P (m >>= f) := by
  intro h
  obtain ⟨added, h1, h2⟩ := hm h
  change ∃ added, (Run.bind m f h).2 = h ++ added ∧ _
  unfold Run.bind
  split
  · rename_i a h' heq
    rw [heq] at h1
    obtain ⟨added2, h3, h4⟩ := hf a h'
    have h1' : h' = h ++ added := h1
    refine ⟨added ++ added2, ?_, ?_⟩
    · rw [h3, h1', List.append_assoc]
    · intro ev hev
      rcases List.mem_append.mp hev with h5 | h5
      · exact h2 ev h5
      · exact h4 ev h5
  all_goals
    rename_i heq
    rw [heq] at h1
    exact ⟨added, h1, h2⟩

theorem Emits.ite {α : Type} {P : Event → Prop} (c : Prop) [Decidable c] {m1 m2 : Run α}
    (h1 : Emits P m1) (h2 : Emits P m2) : Emits P (if c then m1 else m2) := by
  split
  · exact h1
  · exact h2

theorem pollEvents_mem (hash : Bytes) (run : PollRun) :
    ∀ ev ∈ pollEvents hash run, ev = .receiptPoll hash ∨ ∃ d, ev = .sleep d := by
  unfold pollEvents
  generalize List.range run.polls = l
  induction l with
  | nil => intro ev hev; simp at hev
  | cons i l ih =>
    intro ev hev
    rw [List.foldr_cons] at hev
    split at hev
    · rename_i d _
      rcases List.mem_cons.mp hev with h1 | h1
      · exact Or.inl h1
      · rcases List.mem_cons.mp h1 with h2 | h2
        · exact Or.inr ⟨d, h2⟩
        · exact ih ev h2
    · rcases List.mem_cons.mp hev with h1 | h1
      · exact Or.inl h1
      · exact ih ev h1

theorem Emits.fetchReceipt {P : Event → Prop} (w : World) (fuel : Nat) (hash : Bytes)
    (hpoll : P (.receiptPoll hash)) (hsleep : ∀ d, P (.sleep d)) (hline : P (.print timeoutLine)) :
    Emits P (fetchReceipt w fuel hash) := by
  intro h
  have hmem : ∀ ev ∈ pollEvents hash
      (FetchReceiptWithProgress (w.transactionReceipt h hash) (w.since h) fuel), P ev := by
    intro ev hev
    rcases pollEvents_mem _ _ ev hev with h1 | ⟨d, h1⟩
    · rw [h1]; exact hpoll
    · rw [h1]; exact hsleep d
  unfold NetworkPayments.fetchReceipt
  simp only
  split
  · exact ⟨_, rfl, hmem⟩
  · exact ⟨_, rfl, hmem⟩
  · refine ⟨_, List.append_assoc _ _ _, ?_⟩
    intro ev hev
    rcases List.mem_append.mp hev with h1 | h1
    · exact hmem ev h1
    · rw [List.mem_singleton.mp h1]
      exact hline
  · exact ⟨_, rfl, hmem⟩

theorem Emits.MustNewAddress (P : Event → Prop) (w : World) (s : String) :
    Emits P (MustNewAddress w s) :=
  Emits.must (Emits.ofExcept P _)

theorem Emits.MustNewHash (P : Event → Prop) (w : World) (s : String) :
    Emits P (MustNewHash w s) :=
  Emits.must (Emits.ofExcept P _)

theorem Emits.MustGetPrivateKey (P : Event → Prop) (ctx : Context) :
    Emits P (MustGetPrivateKey ctx) := by
  apply Emits.must
  unfold GetPrivateKey
  split
  · exact Emits.pure P _
  · exact Emits.fail P _

theorem Emits.MustGetChainID {P : Event → Prop} (w : World) (hP : P .chainID) :
    Emits P (MustGetChainID w) :=
  Emits.must (Emits.wrapErr _ (Emits.request P _ _ hP))

theorem Emits.MustGetGasPrice {P : Event → Prop} (w : World) (hP : P .gasPrice) :
    Emits P (MustGetGasPrice w) :=
  Emits.must (Emits.wrapErr _ (Emits.request P _ _ hP))

theorem Emits.MustGetAccountNonce {P : Event → Prop} (w : World) (a : Bytes)
    (hP : P (.nonce a)) : Emits P (MustGetAccountNonce w a) :=
  Emits.must (Emits.wrapErr _ (Emits.request P _ _ hP))

theorem Emits.IsCuratedCall {P : Event → Prop} (w : World) (deploymentId : String)
    (hP : ∀ a d, P (.ethCall a d)) : Emits P (IsCuratedCall w deploymentId) := by
  unfold NetworkPayments.IsCuratedCall
  refine Emits.bind (Emits.ofExcept P _) (fun _ => ?_)
  refine Emits.bind (Emits.ofExcept P _) (fun _ => ?_)
  refine Emits.bind (Emits.MustNewAddress P _ _) (fun _ => ?_)
  refine Emits.bind (Emits.request P _ _ (hP _ _)) (fun _ => ?_)
  exact Emits.pure P _

/-- The events `approveCall` adds are requests, sleeps, the give-up line and
transactions of zero value and gas limit 7,000,000 handed to the signer. -/
theorem approveCall_emits (w : World) (ctx : Context) (fuel : Nat) (toStr sender addr : String)
    (amt : Nat) (gasPrice : Int) :
    Emits (CallEvent 7000000) (approveCall w ctx fuel toStr sender addr amt gasPrice) := by
  unfold approveCall
  refine Emits.bind (Emits.MustNewAddress _ _ _) (fun _ => ?_)
  refine Emits.bind (Emits.ofExcept _ _) (fun _ => ?_)
  refine Emits.bind (Emits.MustGetChainID _ trivial) (fun _ => ?_)
  refine Emits.bind (Emits.MustGetPrivateKey _ _) (fun _ => ?_)
  refine Emits.bind (Emits.wrapErr _ (Emits.ofExcept _ _)) (fun _ => ?_)
  refine Emits.bind (Emits.ite _ (Emits.MustGetGasPrice _ trivial) (Emits.pure _ _)) (fun _ => ?_)
  refine Emits.bind (Emits.MustNewAddress _ _ _) (fun _ => ?_)
  refine Emits.bind (Emits.MustGetAccountNonce _ _ trivial) (fun _ => ?_)
  refine Emits.bind (Emits.MustNewAddress _ _ _) (fun _ => ?_)
  refine Emits.bind (Emits.request _ _ _ ⟨rfl, rfl⟩) (fun _ => ?_)
  refine Emits.bind (Emits.request _ _ _ trivial) (fun _ => ?_)
  refine Emits.bind (Emits.MustNewHash _ _ _) (fun _ => ?_)
  refine Emits.bind (Emits.fetchReceipt _ _ _ trivial (fun _ => trivial) rfl) (fun receipt => ?_)
  cases receipt with
  | none => exact Emits.fail _ _
  | some _ => exact Emits.pure _ _

/-- The events `ApproveCall` adds are those of `approveCall`. -/
theorem ApproveCall_emits (w : World) (ctx : Context) (fuel : Nat) (toStr sender addr : String)
    (amt : Nat) (gasPrice : Int) :
    Emits (CallEvent 7000000) (ApproveCall w ctx fuel toStr sender addr amt gasPrice) := by
  unfold ApproveCall
  refine Emits.bind (Emits.MustNewAddress _ _ _) (fun _ => ?_)
  refine Emits.bind (Emits.ofExcept _ _) (fun _ => ?_)
  refine Emits.bind (Emits.MustGetChainID _ trivial) (fun _ => ?_)
  refine Emits.bind (Emits.MustGetPrivateKey _ _) (fun _ => ?_)
  refine Emits.bind (Emits.wrapErr _ (Emits.ofExcept _ _)) (fun _ => ?_)
  refine Emits.bind (Emits.ite _ (Emits.MustGetGasPrice _ trivial) (Emits.pure _ _)) (fun _ => ?_)
  refine Emits.bind (Emits.MustNewAddress _ _ _) (fun _ => ?_)
  refine Emits.bind (Emits.MustGetAccountNonce _ _ trivial) (fun _ => ?_)
  refine Emits.bind (Emits.MustNewAddress _ _ _) (fun _ => ?_)
  refine Emits.bind (Emits.request _ _ _ ⟨rfl, rfl⟩) (fun _ => ?_)
  refine Emits.bind (Emits.request _ _ _ trivial) (fun _ => ?_)
  refine Emits.bind (Emits.MustNewHash _ _ _) (fun _ => ?_)
  refine Emits.bind (Emits.fetchReceipt _ _ _ trivial (fun _ => trivial) rfl) (fun receipt => ?_)
  cases receipt with
  | none => exact Emits.fail _ _
  | some _ => exact Emits.pure _ _

/-- The events `collectCall` adds: its transactions have gas limit 5,000,000. -/
theorem collectCall_emits (w : World) (ctx : Context) (fuel : Nat)
    (toStr sender allocation : String) (amt : Nat) :
    Emits (CallEvent 5000000) (collectCall w ctx fuel toStr sender allocation amt) := by
  unfold collectCall
  refine Emits.bind (Emits.MustNewAddress _ _ _) (fun _ => ?_)
  refine Emits.bind (Emits.ofExcept _ _) (fun _ => ?_)
  refine Emits.bind (Emits.MustGetChainID _ trivial) (fun _ => ?_)
  refine Emits.bind (Emits.MustGetPrivateKey _ _) (fun _ => ?_)
  refine Emits.bind (Emits.wrapErr _ (Emits.ofExcept _ _)) (fun _ => ?_)
  refine Emits.bind (Emits.MustNewAddress _ _ _) (fun _ => ?_)
  refine Emits.bind (Emits.MustGetAccountNonce _ _ trivial) (fun _ => ?_)
  refine Emits.bind (Emits.MustNewAddress _ _ _) (fun _ => ?_)
  refine Emits.bind (Emits.MustGetGasPrice _ trivial) (fun _ => ?_)
  refine Emits.bind (Emits.request _ _ _ ⟨rfl, rfl⟩) (fun _ => ?_)
  refine Emits.bind (Emits.request _ _ _ trivial) (fun _ => ?_)
  refine Emits.bind (Emits.MustNewHash _ _ _) (fun _ => ?_)
  refine Emits.bind (Emits.fetchReceipt _ _ _ trivial (fun _ => trivial) rfl) (fun receipt => ?_)
  cases receipt with
  | none => exact Emits.fail _ _
  | some _ => exact Emits.pure _ _

/-- The events `closeAllocationCall` adds. -/
theorem closeAllocationCall_emits (w : World) (ctx : Context) (fuel : Nat)
    (toStr sender allocationID : String) (gasPrice : Int) :
    Emits (CallEvent 7000000)
      (closeAllocationCall w ctx fuel toStr sender allocationID gasPrice) := by
  unfold closeAllocationCall
  refine Emits.bind (Emits.MustNewAddress _ _ _) (fun _ => ?_)
  refine Emits.bind (Emits.wrapErr _ (Emits.ofExcept _ _)) (fun _ => ?_)
  refine Emits.bind (Emits.MustGetChainID _ trivial) (fun _ => ?_)
  refine Emits.bind (Emits.MustGetPrivateKey _ _) (fun _ => ?_)
  refine Emits.bind (Emits.wrapErr _ (Emits.ofExcept _ _)) (fun _ => ?_)
  refine Emits.bind (Emits.ite _ (Emits.MustGetGasPrice _ trivial) (Emits.pure _ _)) (fun _ => ?_)
  refine Emits.bind (Emits.MustNewAddress _ _ _) (fun _ => ?_)
  refine Emits.bind (Emits.MustGetAccountNonce _ _ trivial) (fun _ => ?_)
  refine Emits.bind (Emits.MustNewAddress _ _ _) (fun _ => ?_)
  refine Emits.bind (Emits.request _ _ _ ⟨rfl, rfl⟩) (fun _ => ?_)
  refine Emits.bind (Emits.request _ _ _ trivial) (fun _ => ?_)
  refine Emits.bind (Emits.MustNewHash _ _ _) (fun _ => ?_)
  refine Emits.bind (Emits.fetchReceipt _ _ _ trivial (fun _ => trivial) rfl) (fun receipt => ?_)
  cases receipt with
  | none => exact Emits.fail _ _
  | some r => exact Emits.ite _ (Emits.fail _ _) (Emits.pure _ _)

/-- The events `allocateCall` adds. -/
theorem allocateCall_emits (w : World) (c : Crypto) (ctx : Context) (fuel : Nat)
    (toStr sender indexerAddress deploymentID : String) (amt : Nat) (gasPrice : Int) :
    Emits (CallEvent 7000000)
      (allocateCall w c ctx fuel toStr sender indexerAddress deploymentID amt gasPrice) := by
  unfold allocateCall
  refine Emits.bind (Emits.wrapErr _ (Emits.IsCuratedCall _ _ (fun _ _ => trivial))) (fun _ => ?_)
  refine Emits.bind (Emits.failIf _ _ _) (fun _ => ?_)
  refine Emits.bind (Emits.wrapErr _ (Emits.ofExcept _ _)) (fun ⟨_, _⟩ => ?_)
  refine Emits.bind (Emits.wrapErr _ (Emits.ofExcept _ _)) (fun _ => ?_)
  refine Emits.bind (Emits.MustNewAddress _ _ _) (fun _ => ?_)
  refine Emits.bind (Emits.MustNewAddress _ _ _) (fun _ => ?_)
  refine Emits.bind (Emits.wrapErr _ (Emits.ofExcept _ _)) (fun _ => ?_)
  refine Emits.bind (Emits.MustGetChainID _ trivial) (fun _ => ?_)
  refine Emits.bind (Emits.MustGetPrivateKey _ _) (fun _ => ?_)
  refine Emits.bind (Emits.wrapErr _ (Emits.ofExcept _ _)) (fun _ => ?_)
  refine Emits.bind (Emits.ite _ (Emits.MustGetGasPrice _ trivial) (Emits.pure _ _)) (fun _ => ?_)
  refine Emits.bind (Emits.MustNewAddress _ _ _) (fun _ => ?_)
  refine Emits.bind (Emits.MustGetAccountNonce _ _ trivial) (fun _ => ?_)
  refine Emits.bind (Emits.MustNewAddress _ _ _) (fun _ => ?_)
  refine Emits.bind (Emits.request _ _ _ ⟨rfl, rfl⟩) (fun _ => ?_)
  refine Emits.bind (Emits.request _ _ _ trivial) (fun _ => ?_)
  refine Emits.bind (Emits.MustNewHash _ _ _) (fun _ => ?_)
  refine Emits.bind (Emits.fetchReceipt _ _ _ trivial (fun _ => trivial) rfl) (fun receipt => ?_)
  cases receipt with
  | none => exact Emits.fail _ _
  | some r => exact Emits.ite _ (Emits.fail _ _) (Emits.pure _ _)

theorem signsOnly_of_emits {α : Type} {gasLimit : Nat} {m : Run α}
    (hm : Emits (CallEvent gasLimit) m) : SignsOnly gasLimit m := by
  intro h
  obtain ⟨added, h1, h2⟩ := hm h
  exact ⟨added, h1, fun tx htx => h2 _ htx⟩

/-- C16: every transaction handed to the signer by `allocateCall`,
`approveCall` (and its copy `ApproveCall`) and `closeAllocationCall` has value
zero and gas limit 7,000,000, and every transaction handed to the signer by
`collectCall` has value zero and gas limit 5,000,000, whatever the inputs, the
answers of the endpoint and the events before the call. -/
theorem signed_transactions_zero_value_fixed_gas (w : World) (c : Crypto) (ctx : Context)
    (fuel : Nat) (toStr sender s1 s2 : String) (amt : Nat) (gasPrice : Int) :
    SignsOnly 7000000 (allocateCall w c ctx fuel toStr sender s1 s2 amt gasPrice) ∧
    SignsOnly 7000000 (approveCall w ctx fuel toStr sender s1 amt gasPrice) ∧
    SignsOnly 7000000 (ApproveCall w ctx fuel toStr sender s1 amt gasPrice) ∧
    SignsOnly 7000000 (closeAllocationCall w ctx fuel toStr sender s1 gasPrice) ∧
    SignsOnly 5000000 (collectCall w ctx fuel toStr sender s1 amt) :=
  ⟨signsOnly_of_emits (allocateCall_emits _ _ _ _ _ _ _ _ _ _),
   signsOnly_of_emits (approveCall_emits _ _ _ _ _ _ _ _),
   signsOnly_of_emits (ApproveCall_emits _ _ _ _ _ _ _ _),
   signsOnly_of_emits (closeAllocationCall_emits _ _ _ _ _ _ _),
   signsOnly_of_emits (collectCall_emits _ _ _ _ _ _ _)⟩

/-! ### Failures of the requests of a submitting call -/

theorem Run.bind_apply {α β : Type} (m : Run α) (f : α → Run β) (h : List Event) :
    (m >>= f) h = Run.bind m f h := rfl

theorem Run.pure_apply {α : Type} (a : α) (h : List Event) :
    (pure a : Run α) h = (.ok a, h) := rfl

theorem MustNewAddress_ok (w : World) (s : String) (a : Bytes) (h : List Event)
    (ha : w.newAddress s = .ok a) : MustNewAddress w s h = (.ok a, h) := by
  simp [MustNewAddress, must, ofExcept, ha]

theorem MustGetPrivateKey_ok (ctx : Context) (key : Bytes) (h : List Event)
    (hk : ctx.privateKey = some key) : MustGetPrivateKey ctx h = (.ok key, h) := by
  simp [MustGetPrivateKey, GetPrivateKey, must, hk, Run.pure_apply]

theorem MustGetChainID_ok (w : World) (h : List Event) (chain : Int)
    (hc : w.chainID h = .ok chain) : MustGetChainID w h = (.ok chain, h ++ [.chainID]) := by
  simp [MustGetChainID, getChainID, must, wrapErr, request, hc]

/-- A failed chain-id fetch makes `MustGetChainID` panic. -/
theorem MustGetChainID_error (w : World) (h : List Event) (e : String)
    (hc : w.chainID h = .error e) :
    MustGetChainID w h = (.panic ("unable to retrieve chain id: " ++ e), h ++ [.chainID]) := by
  simp [MustGetChainID, getChainID, must, wrapErr, request, hc]

theorem MustGetGasPrice_ok (w : World) (h : List Event) (gp : Int)
    (hc : w.gasPrice h = .ok gp) : MustGetGasPrice w h = (.ok gp, h ++ [.gasPrice]) := by
  simp [MustGetGasPrice, getGasPrice, must, wrapErr, request, hc]

/-- A failed gas-price fetch makes `MustGetGasPrice` panic. -/
theorem MustGetGasPrice_error (w : World) (h : List Event) (e : String)
    (hc : w.gasPrice h = .error e) :
    MustGetGasPrice w h = (.panic ("unable to retrieve gas price: " ++ e), h ++ [.gasPrice]) := by
  simp [MustGetGasPrice, getGasPrice, must, wrapErr, request, hc]

theorem MustGetAccountNonce_ok (w : World) (a : Bytes) (h : List Event) (n : Nat)
    (hc : w.nonce h a = .ok n) : MustGetAccountNonce w a h = (.ok n, h ++ [.nonce a]) := by
  simp [MustGetAccountNonce, getAccountNonce, must, wrapErr, request, hc]

/-- A failed nonce fetch makes `MustGetAccountNonce` panic. -/
theorem MustGetAccountNonce_error (w : World) (a : Bytes) (h : List Event) (e : String)
    (hc : w.nonce h a = .error e) :
    MustGetAccountNonce w a h = (.panic (nonceErrorPrefix a ++ e), h ++ [.nonce a]) := by
  simp [MustGetAccountNonce, getAccountNonce, must, wrapErr, request, hc, nonceErrorPrefix]

theorem approveCall_aborts (w : World) (ctx : Context) (fuel : Nat) (toStr sender addr : String)
    (amt : Nat) (gasPrice : Int) (h : List Event) (key senderAddr toAddr a data : Bytes)
    (hready : SubmitReady w ctx sender toStr key senderAddr toAddr)
    (hA : w.newAddress addr = .ok a)
    (hE : w.encode "approve(address,uint256)" [.address a, .uint (ConvertToWei amt)] = .ok data) :
    AbortsOnRpcFailure w (approveCall w ctx fuel toStr sender addr amt gasPrice h).1 h
      key senderAddr toAddr data 7000000 gasPrice := by
  obtain ⟨hK, hS, hFrom, hTo⟩ := hready
  refine ⟨?_, ?_, ?_, ?_, ?_⟩
  · intro e hc
    simp [approveCall, Run.bind_apply, Run.bind, MustNewAddress_ok _ _ _ _ hA, hE, ofExcept,
      MustGetChainID_error _ _ _ hc]
  · intro chain e hc h0 hg
    simp [approveCall, Run.bind_apply, Run.bind, MustNewAddress_ok _ _ _ _ hA, hE, ofExcept,
      MustGetChainID_ok _ _ _ hc, MustGetPrivateKey_ok _ _ _ hK, hS, wrapErr, h0,
      MustGetGasPrice_error _ _ _ hg]
  · intro chain gp h2 e hc hg hn
    unfold gasPriceStep at hg
    simp [approveCall, Run.bind_apply, Run.bind, MustNewAddress_ok _ _ _ _ hA, hE, ofExcept,
      MustGetChainID_ok _ _ _ hc, MustGetPrivateKey_ok _ _ _ hK, hS, wrapErr, hg,
      MustNewAddress_ok _ _ _ _ hFrom, MustGetAccountNonce_error _ _ _ _ hn]
  · intro chain gp h2 n e hc hg hn hs
    unfold gasPriceStep at hg
    simp [approveCall, Run.bind_apply, Run.bind, MustNewAddress_ok _ _ _ _ hA, hE, ofExcept,
      MustGetChainID_ok _ _ _ hc, MustGetPrivateKey_ok _ _ _ hK, hS, wrapErr, hg,
      MustNewAddress_ok _ _ _ _ hFrom, MustGetAccountNonce_ok _ _ _ _ hn,
      MustNewAddress_ok _ _ _ _ hTo, request, hs]
  · intro chain gp h2 n raw e hc hg hn hs hb
    unfold gasPriceStep at hg
    simp [approveCall, Run.bind_apply, Run.bind, MustNewAddress_ok _ _ _ _ hA, hE, ofExcept,
      MustGetChainID_ok _ _ _ hc, MustGetPrivateKey_ok _ _ _ hK, hS, wrapErr, hg,
      MustNewAddress_ok _ _ _ _ hFrom, MustGetAccountNonce_ok _ _ _ _ hn,
      MustNewAddress_ok _ _ _ _ hTo, request, hs, hb]

theorem closeAllocationCall_aborts (w : World) (ctx : Context) (fuel : Nat)
    (toStr sender allocationID : String) (gasPrice : Int) (h : List Event)
    (key senderAddr toAddr a data : Bytes)
    (hready : SubmitReady w ctx sender toStr key senderAddr toAddr)
    (hA : w.newAddress allocationID = .ok a)
    (hE : w.encode "closeAllocation(address,bytes32)"
      [.address a, .bytes (List.replicate 32 0)] = .ok data) :
    AbortsOnRpcFailure w (closeAllocationCall w ctx fuel toStr sender allocationID gasPrice h).1 h
      key senderAddr toAddr data 7000000 gasPrice := by
  obtain ⟨hK, hS, hFrom, hTo⟩ := hready
  unfold closeAllocationCall
  generalize List.replicate 32 0 = zeros at hE ⊢
  refine ⟨?_, ?_, ?_, ?_, ?_⟩
  · intro e hc
    simp [Run.bind_apply, Run.bind, MustNewAddress_ok _ _ _ _ hA, hE,
      ofExcept, wrapErr, MustGetChainID_error _ _ _ hc]
  · intro chain e hc h0 hg
    simp [Run.bind_apply, Run.bind, MustNewAddress_ok _ _ _ _ hA, hE,
      ofExcept, MustGetChainID_ok _ _ _ hc, MustGetPrivateKey_ok _ _ _ hK, hS, wrapErr, h0,
      MustGetGasPrice_error _ _ _ hg]
  · intro chain gp h2 e hc hg hn
    unfold gasPriceStep at hg
    simp [Run.bind_apply, Run.bind, MustNewAddress_ok _ _ _ _ hA, hE,
      ofExcept, MustGetChainID_ok _ _ _ hc, MustGetPrivateKey_ok _ _ _ hK, hS, wrapErr, hg,
      MustNewAddress_ok _ _ _ _ hFrom, MustGetAccountNonce_error _ _ _ _ hn]
  · intro chain gp h2 n e hc hg hn hs
    unfold gasPriceStep at hg
    simp [Run.bind_apply, Run.bind, MustNewAddress_ok _ _ _ _ hA, hE,
      ofExcept, MustGetChainID_ok _ _ _ hc, MustGetPrivateKey_ok _ _ _ hK, hS, wrapErr, hg,
      MustNewAddress_ok _ _ _ _ hFrom, MustGetAccountNonce_ok _ _ _ _ hn,
      MustNewAddress_ok _ _ _ _ hTo, request, hs]
  · intro chain gp h2 n raw e hc hg hn hs hb
    unfold gasPriceStep at hg
    simp [Run.bind_apply, Run.bind, MustNewAddress_ok _ _ _ _ hA, hE,
      ofExcept, MustGetChainID_ok _ _ _ hc, MustGetPrivateKey_ok _ _ _ hK, hS, wrapErr, hg,
      MustNewAddress_ok _ _ _ _ hFrom, MustGetAccountNonce_ok _ _ _ _ hn,
      MustNewAddress_ok _ _ _ _ hTo, request, hs, hb]

theorem collectCall_aborts (w : World) (ctx : Context) (fuel : Nat)
    (toStr sender allocation : String) (amt : Nat) (h : List Event)
    (key senderAddr toAddr a data : Bytes)
    (hready : SubmitReady w ctx sender toStr key senderAddr toAddr)
    (hA : w.newAddress allocation = .ok a)
    (hE : w.encode "collect(uint256,address)" [.uint (ConvertToWei amt), .address a] = .ok data) :
    CollectAbortsOnRpcFailure w (collectCall w ctx fuel toStr sender allocation amt h).1 h
      key senderAddr toAddr data := by
  obtain ⟨hK, hS, hFrom, hTo⟩ := hready
  refine ⟨?_, ?_, ?_, ?_, ?_⟩
  · intro e hc
    simp [collectCall, Run.bind_apply, Run.bind, MustNewAddress_ok _ _ _ _ hA, hE, ofExcept,
      MustGetChainID_error _ _ _ hc]
  · intro chain e hc hn
    simp [collectCall, Run.bind_apply, Run.bind, MustNewAddress_ok _ _ _ _ hA, hE, ofExcept,
      MustGetChainID_ok _ _ _ hc, MustGetPrivateKey_ok _ _ _ hK, hS, wrapErr,
      MustNewAddress_ok _ _ _ _ hFrom, MustGetAccountNonce_error _ _ _ _ hn]
  · intro chain n e hc hn hg
    simp [collectCall, Run.bind_apply, Run.bind, MustNewAddress_ok _ _ _ _ hA, hE, ofExcept,
      MustGetChainID_ok _ _ _ hc, MustGetPrivateKey_ok _ _ _ hK, hS, wrapErr,
      MustNewAddress_ok _ _ _ _ hFrom, MustGetAccountNonce_ok _ _ _ _ hn,
      MustNewAddress_ok _ _ _ _ hTo, MustGetGasPrice_error _ _ _ hg]
  · intro chain n gp e hc hn hg hs
    simp [collectCall, Run.bind_apply, Run.bind, MustNewAddress_ok _ _ _ _ hA, hE, ofExcept,
      MustGetChainID_ok _ _ _ hc, MustGetPrivateKey_ok _ _ _ hK, hS, wrapErr,
      MustNewAddress_ok _ _ _ _ hFrom, MustGetAccountNonce_ok _ _ _ _ hn,
      MustNewAddress_ok _ _ _ _ hTo, MustGetGasPrice_ok _ _ _ hg, request, hs]
  · intro chain n gp raw e hc hn hg hs hb
    simp [collectCall, Run.bind_apply, Run.bind, MustNewAddress_ok _ _ _ _ hA, hE, ofExcept,
      MustGetChainID_ok _ _ _ hc, MustGetPrivateKey_ok _ _ _ hK, hS, wrapErr,
      MustNewAddress_ok _ _ _ _ hFrom, MustGetAccountNonce_ok _ _ _ _ hn,
      MustNewAddress_ok _ _ _ _ hTo, MustGetGasPrice_ok _ _ _ hg, request, hs, hb]

theorem allocateCall_aborts (w : World) (c : Crypto) (ctx : Context) (fuel : Nat)
    (toStr sender indexerAddress deploymentID : String) (amt : Nat) (gasPrice : Int)
    (h h1 : List Event) (key senderAddr toAddr aid proof qm a1 a2 data : Bytes)
    (hready : SubmitReady w ctx sender toStr key senderAddr toAddr)
    (hCur : IsCuratedCall w deploymentID h = (.ok false, h1))
    (hGen : generateAllocationIDAndProof c indexerAddress = .ok (aid, proof))
    (hQm : ConvertIPFSHashToByteString w.fromB58String deploymentID = .ok qm)
    (hA1 : w.newAddress (hexEncode aid) = .ok a1)
    (hA2 : w.newAddress indexerAddress = .ok a2)
    (hE : w.encode "allocateFrom(address,bytes32,uint256,address,bytes32,bytes)"
      [.address a2, .bytes qm, .uint (ConvertToWei amt), .address a1,
        .bytes (List.replicate 32 0), .bytes proof] = .ok data) :
    AbortsOnRpcFailure w
      (allocateCall w c ctx fuel toStr sender indexerAddress deploymentID amt gasPrice h).1 h1
      key senderAddr toAddr data 7000000 gasPrice := by
  obtain ⟨hK, hS, hFrom, hTo⟩ := hready
  unfold allocateCall
  generalize List.replicate 32 0 = zeros at hE ⊢
  refine ⟨?_, ?_, ?_, ?_, ?_⟩
  · intro e hc
    simp [Run.bind_apply, Run.bind, hCur, failIf, hGen, hQm,
      MustNewAddress_ok _ _ _ _ hA1, MustNewAddress_ok _ _ _ _ hA2, hE,
      ofExcept, wrapErr, MustGetChainID_error _ _ _ hc]
  · intro chain e hc h0 hg
    simp [Run.bind_apply, Run.bind, hCur, failIf, hGen, hQm,
      MustNewAddress_ok _ _ _ _ hA1, MustNewAddress_ok _ _ _ _ hA2, hE,
      ofExcept, MustGetChainID_ok _ _ _ hc, MustGetPrivateKey_ok _ _ _ hK, hS, wrapErr, h0,
      MustGetGasPrice_error _ _ _ hg]
  · intro chain gp h2 e hc hg hn
    unfold gasPriceStep at hg
    simp [Run.bind_apply, Run.bind, hCur, failIf, hGen, hQm,
      MustNewAddress_ok _ _ _ _ hA1, MustNewAddress_ok _ _ _ _ hA2, hE,
      ofExcept, MustGetChainID_ok _ _ _ hc, MustGetPrivateKey_ok _ _ _ hK, hS, wrapErr, hg,
      MustNewAddress_ok _ _ _ _ hFrom, MustGetAccountNonce_error _ _ _ _ hn]
  · intro chain gp h2 n e hc hg hn hs
    unfold gasPriceStep at hg
    simp [Run.bind_apply, Run.bind, hCur, failIf, hGen, hQm,
      MustNewAddress_ok _ _ _ _ hA1, MustNewAddress_ok _ _ _ _ hA2, hE,
      ofExcept, MustGetChainID_ok _ _ _ hc, MustGetPrivateKey_ok _ _ _ hK, hS, wrapErr, hg,
      MustNewAddress_ok _ _ _ _ hFrom, MustGetAccountNonce_ok _ _ _ _ hn,
      MustNewAddress_ok _ _ _ _ hTo, request, hs]
  · intro chain gp h2 n raw e hc hg hn hs hb
    unfold gasPriceStep at hg
    simp [Run.bind_apply, Run.bind, hCur, failIf, hGen, hQm,
      MustNewAddress_ok _ _ _ _ hA1, MustNewAddress_ok _ _ _ _ hA2, hE,
      ofExcept, MustGetChainID_ok _ _ _ hc, MustGetPrivateKey_ok _ _ _ hK, hS, wrapErr, hg,
      MustNewAddress_ok _ _ _ _ hFrom, MustGetAccountNonce_ok _ _ _ _ hn,
      MustNewAddress_ok _ _ _ _ hTo, request, hs, hb]

/-- C11 (amended): in each submitting call whose inputs are usable, a failed
chain-id, gas-price or nonce fetch makes the call panic with the wrapped error
(it does not return), and a failed signing or broadcast makes the call return
that error; in none of these cases is a transaction hash returned. -/
theorem calls_abort_on_rpc_failure (w : World) (c : Crypto) (ctx : Context) (fuel : Nat)
    (toStr sender : String) (key senderAddr toAddr : Bytes)
    (hready : SubmitReady w ctx sender toStr key senderAddr toAddr)
    (amt : Nat) (gasPrice : Int) (h : List Event) :
    (∀ (addr : String) (a data : Bytes), w.newAddress addr = .ok a →
      w.encode "approve(address,uint256)" [.address a, .uint (ConvertToWei amt)] = .ok data →
      AbortsOnRpcFailure w (approveCall w ctx fuel toStr sender addr amt gasPrice h).1 h
        key senderAddr toAddr data 7000000 gasPrice) ∧
    (∀ (allocationID : String) (a data : Bytes), w.newAddress allocationID = .ok a →
      w.encode "closeAllocation(address,bytes32)"
        [.address a, .bytes (List.replicate 32 0)] = .ok data →
      AbortsOnRpcFailure w
        (closeAllocationCall w ctx fuel toStr sender allocationID gasPrice h).1 h
        key senderAddr toAddr data 7000000 gasPrice) ∧
    (∀ (allocation : String) (a data : Bytes), w.newAddress allocation = .ok a →
      w.encode "collect(uint256,address)" [.uint (ConvertToWei amt), .address a] = .ok data →
      CollectAbortsOnRpcFailure w (collectCall w ctx fuel toStr sender allocation amt h).1 h
        key senderAddr toAddr data) ∧
    (∀ (indexerAddress deploymentID : String) (h1 : List Event)
      (aid proof qm a1 a2 data : Bytes),
      IsCuratedCall w deploymentID h = (.ok false, h1) →
      generateAllocationIDAndProof c indexerAddress = .ok (aid, proof) →
      ConvertIPFSHashToByteString w.fromB58String deploymentID = .ok qm →
      w.newAddress (hexEncode aid) = .ok a1 →
      w.newAddress indexerAddress = .ok a2 →
      w.encode "allocateFrom(address,bytes32,uint256,address,bytes32,bytes)"
        [.address a2, .bytes qm, .uint (ConvertToWei amt), .address a1,
          .bytes (List.replicate 32 0), .bytes proof] = .ok data →
      AbortsOnRpcFailure w
        (allocateCall w c ctx fuel toStr sender indexerAddress deploymentID amt gasPrice h).1 h1
        key senderAddr toAddr data 7000000 gasPrice) := by
  refine ⟨?_, ?_, ?_, ?_⟩
  · intro addr a data hA hE
    exact approveCall_aborts w ctx fuel toStr sender addr amt gasPrice h key senderAddr toAddr
      a data hready hA hE
  · intro allocationID a data hA hE
    exact closeAllocationCall_aborts w ctx fuel toStr sender allocationID gasPrice h key
      senderAddr toAddr a data hready hA hE
  · intro allocation a data hA hE
    exact collectCall_aborts w ctx fuel toStr sender allocation amt h key senderAddr toAddr
      a data hready hA hE
  · intro indexerAddress deploymentID h1 aid proof qm a1 a2 data hCur hGen hQm hA1 hA2 hE
    exact allocateCall_aborts w c ctx fuel toStr sender indexerAddress deploymentID amt gasPrice
      h h1 key senderAddr toAddr aid proof qm a1 a2 data hready hCur hGen hQm hA1 hA2 hE

theorem failingWorld_ready (stage : Nat) :
    SubmitReady (failingWorld stage) sampleContext sampleSender GRTTokenContractAddress
      [1, 1] sampleSenderAddr grtAddr :=
  ⟨rfl, fun _ => rfl,
    (by decide : hexDecodeExact 20 sampleSender = .ok sampleSenderAddr),
    (by decide : hexDecodeExact 20 GRTTokenContractAddress = .ok grtAddr)⟩

/-- C11 (witness): `approveCall` against an endpoint whose chain-id request
fails panics, and against an endpoint that rejects the broadcast returns the
error. -/
theorem calls_abort_on_rpc_failure_witness :
    (approveCall (failingWorld 0) sampleContext 5 GRTTokenContractAddress sampleSender
        StakingContractAddress 2 0 []).1 = .panic ("unable to retrieve chain id: " ++ "rpc down") ∧
    (approveCall (failingWorld 4) sampleContext 5 GRTTokenContractAddress sampleSender
        StakingContractAddress 2 0 []).1 = .error "rejected" :=
  ⟨((calls_abort_on_rpc_failure (failingWorld 0) (toyCrypto []) sampleContext 5
        GRTTokenContractAddress sampleSender [1, 1] sampleSenderAddr grtAddr
        (failingWorld_ready 0) 2 0 []).1 StakingContractAddress stakingAddr
        (24 :: (stakingAddr ++ [2000000000000000000])) (by decide) (by decide)).1 "rpc down"
      (by decide),
   ((calls_abort_on_rpc_failure (failingWorld 4) (toyCrypto []) sampleContext 5
        GRTTokenContractAddress sampleSender [1, 1] sampleSenderAddr grtAddr
        (failingWorld_ready 4) 2 0 []).1 StakingContractAddress stakingAddr
        (24 :: (stakingAddr ++ [2000000000000000000])) (by decide) (by decide)).2.2.2.2
      42161 7 [.chainID, .gasPrice] 0 [1, 1, 0, 7000000] "rejected"
      (by decide) (by decide) (by decide) (by decide) (by decide)⟩

/-- C11 (counterexample): `closeAllocationCall` against an endpoint whose
chain-id request fails does not return an error: it panics. -/
theorem closeAllocationCall_panics_on_chain_id_failure :
    (closeAllocationCall (failingWorld 0) sampleContext 5 StakingContractAddress sampleSender
        sampleAllocation 0 []).1 = .panic "unable to retrieve chain id: rpc down" ∧
    ¬ ∃ e, (closeAllocationCall (failingWorld 0) sampleContext 5 StakingContractAddress
        sampleSender sampleAllocation 0 []).1 = .error e := by
  have h1 : (closeAllocationCall (failingWorld 0) sampleContext 5 StakingContractAddress
      sampleSender sampleAllocation 0 []).1 = .panic "unable to retrieve chain id: rpc down" := by
    decide
  refine ⟨h1, ?_⟩
  rintro ⟨e, he⟩
  rw [h1] at he
  cases he

/-! ### Exit status of the receivepayment command -/

/-- The exit status of `main` in terms of the outcome of the selected
workflow: 1 for a returned error, 0 for a normal return and for a panic. -/
theorem main_exit_status (w : World) (c : Crypto) (os : Os) (host : Host) (fuel : Nat)
    (inv : Invocation) :
    (∀ e, (Execute w c os host fuel inv []).1 = .error e →
      (main w c os host fuel inv).1 = some 1) ∧
    (∀ e, (Execute w c os host fuel inv []).1 = .panic e →
      (main w c os host fuel inv).1 = some 0) ∧
    ((Execute w c os host fuel inv []).1 = .ok () →
      (main w c os host fuel inv).1 = some 0) := by
  unfold main
  refine ⟨?_, ?_, ?_⟩
  · intro e he
    split <;> simp_all
  · intro e he
    split <;> simp_all
  · intro he
    split <;> simp_all

/-- C12 (code defect): a `close-allocation` run against an endpoint whose
chain-id request fails ends in a panic of `MustGetChainID`, which `main`
recovers and logs, and the process exits with status 0; a run that ends in a
returned error (empty allocation id) exits with status 1. -/
theorem main_exits_zero_after_panic :
    (Execute (failingWorld 0) (toyCrypto []) sampleOs sampleHost 5
        (.closeAllocation
          { privateKeyFile := "", allocationID := sampleAllocation, gasPrice := 0 }) []).1 =
      .panic "unable to retrieve chain id: rpc down" ∧
    (main (failingWorld 0) (toyCrypto []) sampleOs sampleHost 5
        (.closeAllocation
          { privateKeyFile := "", allocationID := sampleAllocation, gasPrice := 0 })).1 =
      some 0 ∧
    (main (failingWorld 0) (toyCrypto []) sampleOs sampleHost 5
        (.closeAllocation { privateKeyFile := "", allocationID := "", gasPrice := 0 })).1 =
      some 1 := by
  refine ⟨?_, ?_, ?_⟩
  · decide
  · decide
  · decide

/-! ### Argument checks of the commands -/

theorem failIf_true (e : String) (h : List Event) : failIf true e h = (.error e, h) := rfl

theorem failIf_false (e : String) (h : List Event) : failIf false e h = (.ok (), h) := rfl

theorem Emits.uploadFile (host : Host) (contents : String) :
    Emits (fun ev => ev = .upload) (uploadFile host contents) := by
  unfold NetworkPayments.uploadFile
  refine Emits.bind (Emits.wrapErr _ (Emits.request _ _ _ rfl)) (fun _ => ?_)
  refine Emits.bind (Emits.wrapErr _ (Emits.ofExcept _ _)) (fun _ => ?_)
  refine Emits.bind (Emits.wrapErr _ (Emits.ofExcept _ _)) (fun _ => ?_)
  exact Emits.pure _ _

/-- The only event `GenerateDeployment` adds is the upload. -/
theorem Emits.GenerateDeployment (host : Host) :
    Emits (fun ev => ev = .upload) (GenerateDeployment host) := by
  unfold NetworkPayments.GenerateDeployment
  refine Emits.bind (Emits.must (Emits.ofExcept _ _)) (fun _ => ?_)
  refine Emits.bind (Emits.wrapErr _ (Emits.uploadFile _ _)) (fun _ => ?_)
  exact Emits.pure _ _

theorem openAllocationE_checks (w : World) (c : Crypto) (os : Os) (host : Host) (fuel : Nat)
    (flags : OpenAllocationFlags) (h hret : List Event) (dep : String)
    (hdep : (if flags.deploymentID = "" then
        (emit (.print generatingLine) >>= fun _ =>
          wrapErr "generating deployment ID: " (GenerateDeployment host))
      else pure flags.deploymentID) h = (.ok dep, hret)) :
    OpenChecksReturn (openAllocationE w c os host fuel flags h) os host flags hret := by
  have hdep' : (if flags.deploymentID = "" then
        (emit (.print "No deployment ID provided, generating a random one\n") >>= fun _ =>
          wrapErr "generating deployment ID: " (GenerateDeployment host))
      else pure flags.deploymentID) h = (.ok dep, hret) := hdep
  refine ⟨?_, ?_, ?_, ?_⟩
  · intro h0
    simp [openAllocationE, Run.bind_apply, Run.bind, hdep', h0, failIf]
  · intro h0 h1
    simp [openAllocationE, Run.bind_apply, Run.bind, hdep', h0, h1, failIf]
  · intro e h0 h1 h2
    simp [openAllocationE, Run.bind_apply, Run.bind, hdep', h0, h1, h2, failIf]
  · intro key h0 h1 h2 h3
    simp [openAllocationE, Run.bind_apply, Run.bind, hdep', h0, h1, h2, h3, failIf]

/-- The argument checks the commands do make: each returns its error without
any event after it. In `close-allocation` (empty allocation id, unusable
private key), `sendpayment` (empty deployment id, unusable private key) and
`paygrt` (unparseable amounts) the error comes before any network access; so it
does in `open-allocation` (zero amount, empty indexer address, unusable private
key) when a deployment id is given, and when none is given the only events
before the error are the printed line and the upload of the generated
deployment. -/
theorem argument_checks_before_network (w : World) (c : Crypto) (os : Os) (host : Host)
    (fuel : Nat) (h : List Event) :
    (∀ flags : OpenAllocationFlags, flags.deploymentID ≠ "" →
      OpenChecksReturn (openAllocationE w c os host fuel flags h) os host flags h) ∧
    (∀ (flags : OpenAllocationFlags) (dep : String) (h1 : List Event),
      flags.deploymentID = "" →
      GenerateDeployment host (h ++ [.print generatingLine]) = (.ok dep, h1) →
      OpenChecksReturn (openAllocationE w c os host fuel flags h) os host flags h1 ∧
      ∃ added, h1 = h ++ .print generatingLine :: added ∧ ∀ ev ∈ added, ev = .upload) ∧
    (∀ flags : CloseAllocationFlags,
      (flags.allocationID = "" →
        closeAllocationE w os host fuel flags h = (.error "deployment ID is required", h)) ∧
      (∀ e, flags.allocationID ≠ "" →
        importPrivateKey os flags.privateKeyFile h = (.error e, h) →
        closeAllocationE w os host fuel flags h = (.error e, h)) ∧
      (∀ key, flags.allocationID ≠ "" →
        importPrivateKey os flags.privateKeyFile h = (.ok key, h) →
        host.keyString key = "" →
        closeAllocationE w os host fuel flags h = (.error privateKeyRequired, h))) ∧
    (∀ flags : SendPaymentFlags,
      (flags.deploymentID = "" →
        sendPaymentE w os fuel flags h = (.error "deployment ID is required", h)) ∧
      (∀ e, flags.deploymentID ≠ "" →
        importPrivateKey os flags.privateKeyFile h = (.error e, h) →
        sendPaymentE w os fuel flags h = (.error e, h))) ∧
    (∀ (fromB58String : String → Except String Bytes) (arg0 arg1 arg2 : String),
      (∀ e, parseUint host.quote arg0 = .error e →
        run c host fromB58String arg0 arg1 arg2 h =
          (.error ("invalid alloc-amount " ++ host.quote arg0 ++ ": " ++ e), h)) ∧
      (∀ n e, parseUint host.quote arg0 = .ok n → parseUint host.quote arg1 = .error e →
        run c host fromB58String arg0 arg1 arg2 h =
          (.error ("invalid pay-amount " ++ host.quote arg1 ++ ": " ++ e), h))) := by
  refine ⟨?_, ?_, ?_, ?_, ?_⟩
  · intro flags hne
    apply openAllocationE_checks w c os host fuel flags h h flags.deploymentID
    simp [hne, generatingLine, Run.pure_apply]
  · intro flags dep h1 hempty hgen
    constructor
    · apply openAllocationE_checks w c os host fuel flags h h1 dep
      simp [hempty, Run.bind_apply, Run.bind, emit, wrapErr, hgen]
    · obtain ⟨added, h2, h3⟩ := Emits.GenerateDeployment host (h ++ [.print generatingLine])
      rw [hgen] at h2
      refine ⟨added, ?_, h3⟩
      have h2' : h1 = h ++ [.print generatingLine] ++ added := h2
      rw [h2', List.append_assoc]
      rfl
  · intro flags
    refine ⟨?_, ?_, ?_⟩
    · intro h0
      simp [closeAllocationE, Run.bind_apply, Run.bind, h0, failIf]
    · intro e h0 h1
      simp [closeAllocationE, Run.bind_apply, Run.bind, h0, h1, failIf]
    · intro key h0 h1 h2
      simp [closeAllocationE, Run.bind_apply, Run.bind, h0, h1, h2, failIf]
  · intro flags
    refine ⟨?_, ?_⟩
    · intro h0
      simp [sendPaymentE, Run.bind_apply, Run.bind, h0, failIf]
    · intro e h0 h1
      simp [sendPaymentE, Run.bind_apply, Run.bind, h0, h1, failIf]
  · intro fromB58String arg0 arg1 arg2
    refine ⟨?_, ?_⟩
    · intro e h0
      simp [run, Run.bind_apply, Run.bind, h0, wrapErr, ofExcept, String.append_assoc]
    · intro n e h0 h1
      simp [run, Run.bind_apply, Run.bind, h0, h1, wrapErr, ofExcept, String.append_assoc]

/-- Two sample runs of the argument checks: `close-allocation` without an
allocation id and `paygrt` with an amount that is not a number return their
error with no event at all. -/
theorem argument_checks_before_network_witness :
    closeAllocationE (sampleWorld [[1]]) sampleOs sampleHost 5
        { privateKeyFile := "", allocationID := "", gasPrice := 0 } [] =
      (.error "deployment ID is required", []) ∧
    run (toyCrypto []) sampleHost FromB58String "abc" "2" sampleSender [] =
      (.error ("invalid alloc-amount " ++ String.singleton '"' ++ "abc" ++
        String.singleton '"' ++ ": " ++
        "strconv.ParseUint: parsing \"abc\": invalid syntax"), []) :=
  ⟨((argument_checks_before_network (sampleWorld [[1]]) (toyCrypto []) sampleOs sampleHost 5
      []).2.2.1 { privateKeyFile := "", allocationID := "", gasPrice := 0 }).1 rfl,
   ((argument_checks_before_network (sampleWorld [[1]]) (toyCrypto []) sampleOs sampleHost 5
      []).2.2.2.2 FromB58String "abc" "2" sampleSender).1
      "strconv.ParseUint: parsing \"abc\": invalid syntax" (by decide)⟩

/-- A sample run of `open-allocation` without a deployment id and with a zero
amount: it uploads a generated deployment before it returns the error of the
amount check. -/
theorem openAllocationE_uploads_before_amount_check :
    openAllocationE (sampleWorld [[1]]) (toyCrypto []) sampleOs sampleHost 5
        { privateKeyFile := "", indexerAddress := sampleSender, deploymentID := "",
          allocationAmount := 0, gasPrice := 0 } [] =
      (.error "amount must be greater than 0", [.print generatingLine, .upload]) ∧
    isNetwork .upload = true := by
  constructor
  · decide
  · rfl

/-! ### The explorer line -/

theorem linkOnlyOnOk_of_emits {α : Type} {m : Run α}
    (hm : Emits (fun ev => isExplorerLine ev = false) m) : LinkOnlyOnOk m := by
  intro h
  obtain ⟨added, h1, h2⟩ := hm h
  exact ⟨added, h1, fun _ => h2⟩

theorem linkOnlyOnOk_emit (ev : Event) : LinkOnlyOnOk (emit ev) := by
  intro h
  refine ⟨[ev], rfl, ?_⟩
  intro hne
  exact absurd rfl (hne ())

theorem linkOnlyOnOk_bind {α β : Type} {m : Run α} {f : α → Run β}
    (hm : Emits (fun ev => isExplorerLine ev = false) m) (hf : ∀ a, LinkOnlyOnOk (f a)) :
    LinkOnlyOnOk (m >>= f) := by
  intro h
  obtain ⟨added, h1, h2⟩ := hm h
  change ∃ added, (Run.bind m f h).2 = h ++ added ∧
    ((∀ a, (Run.bind m f h).1 ≠ .ok a) → _)
  unfold Run.bind
  split
  · rename_i a h' heq
    rw [heq] at h1
    have h1' : h' = h ++ added := h1
    obtain ⟨added2, h3, h4⟩ := hf a h'
    refine ⟨added ++ added2, ?_, ?_⟩
    · rw [h3, h1', List.append_assoc]
    · intro hne ev hev
      rcases List.mem_append.mp hev with h5 | h5
      · exact h2 ev h5
      · exact h4 hne ev h5
  all_goals
    rename_i heq
    rw [heq] at h1
    exact ⟨added, h1, fun _ => h2⟩

theorem CallEvent.not_explorerLine (gasLimit : Nat) (ev : Event) (hev : CallEvent gasLimit ev) :
    isExplorerLine ev = false := by
  cases ev with
  | print line =>
    have hline : line = timeoutLine := hev
    rw [hline]
    decide
  | _ => rfl

theorem Emits.importPrivateKey (P : Event → Prop) (os : Os) (file : String) :
    Emits P (importPrivateKey os file) := by
  unfold NetworkPayments.importPrivateKey
  split
  · exact Emits.wrapErr _ (Emits.ofExcept _ _)
  · refine Emits.bind (Emits.wrapErr _ (Emits.ofExcept _ _)) (fun _ => ?_)
    exact Emits.wrapErr _ (Emits.ofExcept _ _)

theorem emit_apply (ev : Event) (h h' : List Event) (u : Unit)
    (hrun : emit ev h = (.ok u, h')) : h' = h ++ [ev] := by
  have := congrArg Prod.snd hrun
  exact this.symm

theorem closeAllocationE_linkOnlyOnOk (w : World) (os : Os) (host : Host) (fuel : Nat)
    (flags : CloseAllocationFlags) : LinkOnlyOnOk (closeAllocationE w os host fuel flags) := by
  unfold closeAllocationE
  refine linkOnlyOnOk_bind (Emits.failIf _ _ _) (fun _ => ?_)
  refine linkOnlyOnOk_bind (Emits.importPrivateKey _ _ _) (fun _ => ?_)
  refine linkOnlyOnOk_bind (Emits.failIf _ _ _) (fun _ => ?_)
  refine linkOnlyOnOk_bind
    (Emits.mono (closeAllocationCall_emits _ _ _ _ _ _ _) (CallEvent.not_explorerLine _))
    (fun _ => ?_)
  refine linkOnlyOnOk_bind (Emits.emit _ _ (by decide)) (fun _ => ?_)
  exact linkOnlyOnOk_emit _

theorem openAllocationE_linkOnlyOnOk (w : World) (c : Crypto) (os : Os) (host : Host)
    (fuel : Nat) (flags : OpenAllocationFlags) :
    LinkOnlyOnOk (openAllocationE w c os host fuel flags) := by
  unfold openAllocationE
  refine linkOnlyOnOk_bind (Emits.ite _ ?_ (Emits.pure _ _)) (fun dep => ?_)
  · refine Emits.bind (Emits.emit _ _ (by decide)) (fun _ => ?_)
    exact Emits.wrapErr _ (Emits.mono (Emits.GenerateDeployment host)
      (fun ev hev => by rw [hev]; rfl))
  refine linkOnlyOnOk_bind (Emits.failIf _ _ _) (fun _ => ?_)
  refine linkOnlyOnOk_bind (Emits.failIf _ _ _) (fun _ => ?_)
  refine linkOnlyOnOk_bind (Emits.importPrivateKey _ _ _) (fun _ => ?_)
  refine linkOnlyOnOk_bind (Emits.failIf _ _ _) (fun _ => ?_)
  refine linkOnlyOnOk_bind (Emits.ite _ ?_ (Emits.pure _ _)) (fun _ => ?_)
  · refine Emits.bind (Emits.wrapErr _ (Emits.IsCuratedCall _ _ (fun _ _ => rfl))) (fun _ => ?_)
    exact Emits.failIf _ _ _
  refine linkOnlyOnOk_bind
    (Emits.mono (allocateCall_emits _ _ _ _ _ _ _ _ _ _) (CallEvent.not_explorerLine _))
    (fun ⟨_, _⟩ => ?_)
  refine linkOnlyOnOk_bind (Emits.MustNewAddress _ _ _) (fun _ => ?_)
  refine linkOnlyOnOk_bind (Emits.emit _ _ ?_) (fun _ => ?_)
  · show ("See transaction on arbiscan: ".data.isPrefixOf
      ("Allocation created with ID:  " ++ _ ++ "\n").data) = false
    simp [String.data_append, List.isPrefixOf]
  refine linkOnlyOnOk_bind (Emits.emit _ _ ?_) (fun _ => ?_)
  · show ("See transaction on arbiscan: ".data.isPrefixOf
      ("Deployment ID:  " ++ dep ++ "\n").data) = false
    simp [String.data_append, List.isPrefixOf]
  exact linkOnlyOnOk_emit _

theorem linkOnlyOnOk_emit3 (a b c : Event) :
    LinkOnlyOnOk (NetworkPayments.emit a >>= fun _ =>
      NetworkPayments.emit b >>= fun _ => NetworkPayments.emit c) := by
  intro h
  refine ⟨[a, b, c], ?_, fun hne => absurd rfl (hne ())⟩
  simp [Run.bind_apply, Run.bind, NetworkPayments.emit]

theorem sendPaymentE_linkOnlyOnOk (w : World) (os : Os) (fuel : Nat) (flags : SendPaymentFlags) :
    LinkOnlyOnOk (sendPaymentE w os fuel flags) := by
  unfold sendPaymentE
  refine linkOnlyOnOk_bind (Emits.failIf _ _ _) (fun _ => ?_)
  refine linkOnlyOnOk_bind (Emits.importPrivateKey _ _ _) (fun _ => ?_)
  refine linkOnlyOnOk_bind
    (Emits.wrapErr _
      (Emits.mono (approveCall_emits _ _ _ _ _ _ _ _) (CallEvent.not_explorerLine _)))
    (fun _ => ?_)
  refine linkOnlyOnOk_bind (Emits.failIf _ _ _) (fun _ => ?_)
  refine linkOnlyOnOk_bind
    (Emits.wrapErr _ (Emits.IsCuratedCall _ _ (fun _ _ => rfl))) (fun _ => ?_)
  refine linkOnlyOnOk_bind (Emits.failIf _ _ _) (fun _ => ?_)
  refine linkOnlyOnOk_bind
    (Emits.wrapErr _
      (Emits.mono (collectCall_emits _ _ _ _ _ _ _) (CallEvent.not_explorerLine _)))
    (fun _ => ?_)
  refine linkOnlyOnOk_bind (Emits.failIf _ _ _) (fun _ => ?_)
  exact linkOnlyOnOk_emit3 _ _ _

theorem wrapErr_ok {α : Type} (pre : String) (m : Run α) (h h' : List Event) (a : α)
    (hrun : wrapErr pre m h = (.ok a, h')) : m h = (.ok a, h') := by
  unfold wrapErr at hrun
  split at hrun
  · simp at hrun
  · exact hrun

/-- C14 (counterexample): a `close-allocation` run whose broadcast returns a
hash and whose receipt has zero logs, and one whose receipt is never found,
return an error and print no explorer line. -/
theorem closeAllocationE_no_explorer_line_after_broadcast :
    (closeAllocationE (sampleWorld []) sampleOs sampleHost 5 sampleCloseFlags []).1 =
      .error ("failed to close allocation. no logs found for transaction " ++ sampleTrxHash) ∧
    (closeAllocationE (sampleWorld []) sampleOs sampleHost 5 sampleCloseFlags []).2.any
      isSubmission = true ∧
    (closeAllocationE (sampleWorld []) sampleOs sampleHost 5 sampleCloseFlags []).2.any
      isExplorerLine = false ∧
    (closeAllocationE silentWorld sampleOs sampleHost 10 sampleCloseFlags []).1 =
      .error ("failed to close allocation. no receipt found for transaction " ++
        sampleTrxHash) ∧
    (closeAllocationE silentWorld sampleOs sampleHost 10 sampleCloseFlags []).2.any
      isExplorerLine = false := by
  refine ⟨?_, ?_, ?_, ?_, ?_⟩
  · decide
  · decide
  · decide
  · decide
  · decide

/-! ### The curation check -/

theorem importPrivateKey_cases (os : Os) (file : String) (h : List Event) :
    (∃ key, importPrivateKey os file h = (.ok key, h)) ∨
    (∃ e, importPrivateKey os file h = (.error e, h)) := by
  unfold importPrivateKey
  split
  · cases hk : os.newPrivateKey os.envPrivateKey with
    | ok key => exact Or.inl ⟨key, by simp [wrapErr, ofExcept, hk]⟩
    | error e => exact Or.inr ⟨"import private key: " ++ e, by simp [wrapErr, ofExcept, hk]⟩
  · cases hf : os.readFile file with
    | error e =>
      exact Or.inr ⟨"read private key file: " ++ e,
        by simp [Run.bind_apply, Run.bind, wrapErr, ofExcept, hf]⟩
    | ok contents =>
      cases hk : os.newPrivateKey (os.trimSpace contents) with
      | ok key =>
        exact Or.inl ⟨key, by simp [Run.bind_apply, Run.bind, wrapErr, ofExcept, hf, hk]⟩
      | error e =>
        exact Or.inr ⟨"import private key: " ++ e,
          by simp [Run.bind_apply, Run.bind, wrapErr, ofExcept, hf, hk]⟩

/-- A curation check that reports "curated" or fails makes `allocateCall`
return an error with no event besides those of the check. -/
theorem allocateCall_curated (w : World) (c : Crypto) (ctx : Context) (fuel : Nat)
    (toStr sender indexerAddress deploymentID : String) (amt : Nat) (gasPrice : Int)
    (h : List Event)
    (hcur : (IsCuratedCall w deploymentID h).1 = .ok true ∨
      ∃ e, (IsCuratedCall w deploymentID h).1 = .error e) :
    (∃ e, (allocateCall w c ctx fuel toStr sender indexerAddress deploymentID amt gasPrice
      h).1 = .error e) ∧
    (allocateCall w c ctx fuel toStr sender indexerAddress deploymentID amt gasPrice h).2 =
      (IsCuratedCall w deploymentID h).2 := by
  unfold allocateCall
  cases hres : IsCuratedCall w deploymentID h with
  | mk out hx =>
    rw [hres] at hcur
    rcases hcur with h1 | ⟨e, h1⟩
    · have h1' : out = .ok true := h1
      subst h1'
      simp [Run.bind_apply, Run.bind, wrapErr, hres, failIf]
    · have h1' : out = .error e := h1
      subst h1'
      simp [Run.bind_apply, Run.bind, wrapErr, hres]

theorem openAllocationE_curated (w : World) (c : Crypto) (os : Os) (host : Host) (fuel : Nat)
    (flags : OpenAllocationFlags) (h : List Event) (hne : flags.deploymentID ≠ "")
    (hcur : (IsCuratedCall w flags.deploymentID h).1 = .ok true ∨
      ∃ e, (IsCuratedCall w flags.deploymentID h).1 = .error e) :
    (∃ e, (openAllocationE w c os host fuel flags h).1 = .error e) ∧
    ((openAllocationE w c os host fuel flags h).2 = h ∨
      (openAllocationE w c os host fuel flags h).2 = (IsCuratedCall w flags.deploymentID h).2) := by
  unfold openAllocationE
  by_cases h0 : flags.allocationAmount = 0
  · simp [Run.bind_apply, Run.bind, hne, Run.pure_apply, h0, failIf]
  by_cases h1 : flags.indexerAddress = ""
  · simp [Run.bind_apply, Run.bind, hne, Run.pure_apply, h0, h1, failIf]
  rcases importPrivateKey_cases os flags.privateKeyFile h with ⟨key, hk⟩ | ⟨e, hk⟩
  · by_cases h2 : host.keyString key = ""
    · simp [Run.bind_apply, Run.bind, hne, Run.pure_apply, h0, h1, hk, h2, failIf]
    · cases hres : IsCuratedCall w flags.deploymentID h with
      | mk out hx =>
        rw [hres] at hcur
        rcases hcur with h3 | ⟨e, h3⟩
        · have h3' : out = .ok true := h3
          subst h3'
          simp [Run.bind_apply, Run.bind, hne, Run.pure_apply, h0, h1, hk, h2, failIf, wrapErr,
            hres]
        · have h3' : out = .error e := h3
          subst h3'
          simp [Run.bind_apply, Run.bind, hne, Run.pure_apply, h0, h1, hk, h2, failIf, wrapErr,
            hres]
  · simp [Run.bind_apply, Run.bind, hne, Run.pure_apply, h0, h1, hk, failIf]

theorem sendPaymentE_curated (w : World) (os : Os) (fuel : Nat) (flags : SendPaymentFlags)
    (h h1 : List Event) (key : Bytes) (trx : String) (hne : flags.deploymentID ≠ "")
    (hk : importPrivateKey os flags.privateKeyFile h = (.ok key, h))
    (happ : approveCall w { privateKey := some key } fuel GRTTokenContractAddress
      (os.keyAddress key) StakingContractAddress flags.amount flags.gasPrice h = (.ok trx, h1))
    (htrx : trx ≠ "")
    (hcur : (IsCuratedCall w flags.deploymentID h1).1 = .ok true ∨
      ∃ e, (IsCuratedCall w flags.deploymentID h1).1 = .error e) :
    (∃ e, (sendPaymentE w os fuel flags h).1 = .error e) ∧
    (sendPaymentE w os fuel flags h).2 = (IsCuratedCall w flags.deploymentID h1).2 := by
  unfold sendPaymentE
  cases hres : IsCuratedCall w flags.deploymentID h1 with
  | mk out hx =>
    rw [hres] at hcur
    rcases hcur with h3 | ⟨e, h3⟩
    · have h3' : out = .ok true := h3
      subst h3'
      simp [Run.bind_apply, Run.bind, hne, hk, happ, htrx, failIf, wrapErr, hres]
    · have h3' : out = .error e := h3
      subst h3'
      simp [Run.bind_apply, Run.bind, hne, hk, happ, htrx, failIf, wrapErr, hres]

/-- C17 (amended): when the curation check reports the deployment as curated,
or fails, `allocateCall` and `openAllocationE` return an error without having
handed any transaction to the signer or broadcast any; `sendPaymentE` returns
an error without having signed or broadcast the collect transaction: the only
transactions of the run are those of the approve call made before the check,
with gas limit 7,000,000. -/
theorem curation_check_blocks_submission (w : World) (c : Crypto) (os : Os) (host : Host)
    (fuel : Nat) (h : List Event) :
    (∀ (ctx : Context) (toStr sender indexerAddress deploymentID : String) (amt : Nat)
      (gasPrice : Int),
      ((IsCuratedCall w deploymentID h).1 = .ok true ∨
        ∃ e, (IsCuratedCall w deploymentID h).1 = .error e) →
      (∃ e, (allocateCall w c ctx fuel toStr sender indexerAddress deploymentID amt gasPrice
        h).1 = .error e) ∧
      ∃ added,
        (allocateCall w c ctx fuel toStr sender indexerAddress deploymentID amt gasPrice h).2 =
          h ++ added ∧
        ∀ ev ∈ added, isSubmission ev = false) ∧
    (∀ flags : OpenAllocationFlags, flags.deploymentID ≠ "" →
      ((IsCuratedCall w flags.deploymentID h).1 = .ok true ∨
        ∃ e, (IsCuratedCall w flags.deploymentID h).1 = .error e) →
      (∃ e, (openAllocationE w c os host fuel flags h).1 = .error e) ∧
      ∃ added, (openAllocationE w c os host fuel flags h).2 = h ++ added ∧
        ∀ ev ∈ added, isSubmission ev = false) ∧
    (∀ (flags : SendPaymentFlags) (h1 : List Event) (key : Bytes) (trx : String),
      flags.deploymentID ≠ "" →
      importPrivateKey os flags.privateKeyFile h = (.ok key, h) →
      approveCall w { privateKey := some key } fuel GRTTokenContractAddress
        (os.keyAddress key) StakingContractAddress flags.amount flags.gasPrice h =
        (.ok trx, h1) →
      trx ≠ "" →
      ((IsCuratedCall w flags.deploymentID h1).1 = .ok true ∨
        ∃ e, (IsCuratedCall w flags.deploymentID h1).1 = .error e) →
      (∃ e, (sendPaymentE w os fuel flags h).1 = .error e) ∧
      ∃ added, (sendPaymentE w os fuel flags h).2 = h ++ added ∧
        ∀ tx, Event.sign tx ∈ added → tx.value = 0 ∧ tx.gasLimit = 7000000) := by
  refine ⟨?_, ?_, ?_⟩
  · intro ctx toStr sender indexerAddress deploymentID amt gasPrice hcur
    obtain ⟨he, htrace⟩ := allocateCall_curated w c ctx fuel toStr sender indexerAddress
      deploymentID amt gasPrice h hcur
    refine ⟨he, ?_⟩
    obtain ⟨added, h1, h2⟩ :=
      Emits.IsCuratedCall (P := fun ev => isSubmission ev = false) w deploymentID
        (fun _ _ => rfl) h
    exact ⟨added, by rw [htrace, h1], h2⟩
  · intro flags hne hcur
    obtain ⟨he, htrace⟩ := openAllocationE_curated w c os host fuel flags h hne hcur
    refine ⟨he, ?_⟩
    rcases htrace with h1 | h1
    · exact ⟨[], by rw [h1, List.append_nil], by simp⟩
    · obtain ⟨added, h2, h3⟩ :=
        Emits.IsCuratedCall (P := fun ev => isSubmission ev = false) w flags.deploymentID
          (fun _ _ => rfl) h
      exact ⟨added, by rw [h1, h2], h3⟩
  · intro flags h1 key trx hne hk happ htrx hcur
    obtain ⟨he, htrace⟩ := sendPaymentE_curated w os fuel flags h h1 key trx hne hk happ htrx hcur
    refine ⟨he, ?_⟩
    obtain ⟨added1, ha1, ha2⟩ := approveCall_emits w { privateKey := some key } fuel
      GRTTokenContractAddress (os.keyAddress key) StakingContractAddress flags.amount
      flags.gasPrice h
    rw [happ] at ha1
    have ha1' : h1 = h ++ added1 := ha1
    obtain ⟨added2, hb1, hb2⟩ :=
      Emits.IsCuratedCall (P := fun ev => ∃ a d, ev = .ethCall a d) w flags.deploymentID
        (fun a d => ⟨a, d, rfl⟩) h1
    refine ⟨added1 ++ added2, by rw [htrace, hb1, ha1', List.append_assoc], ?_⟩
    intro tx htx
    rcases List.mem_append.mp htx with h5 | h5
    · exact ha2 _ h5
    · obtain ⟨a, d, h6⟩ := hb2 _ h5
      cases h6

/-- C17 (witness): against a curation contract that reports every deployment
as curated, `allocateCall` returns an error after the check alone, and a
send-payment run returns an error after the approve transaction and the
check. -/
theorem curation_check_blocks_submission_witness :
    ((∃ e, (allocateCall curatedWorld (toyCrypto []) sampleContext 5 StakingContractAddress
        sampleSender sampleSender sampleCidV0 20 0 []).1 = .error e) ∧
      ∃ added,
        (allocateCall curatedWorld (toyCrypto []) sampleContext 5 StakingContractAddress
          sampleSender sampleSender sampleCidV0 20 0 []).2 = [] ++ added ∧
        ∀ ev ∈ added, isSubmission ev = false) ∧
    (signedTransactions (sendPaymentE curatedWorld sampleOs 5
        { allocationID := sampleAllocation, deploymentID := sampleCidV0, amount := 2,
          gasPrice := 0, privateKeyFile := "" } []).2).map (fun tx => tx.gasLimit) =
      [7000000] :=
  ⟨(curation_check_blocks_submission curatedWorld (toyCrypto []) sampleOs sampleHost 5 []).1
      sampleContext StakingContractAddress sampleSender sampleSender sampleCidV0 20 0
      (Or.inl (by decide)),
    by decide⟩

/-- C17 (counterexample): against a curation contract that reports the
deployment as curated, a send-payment run returns the curation error after it
has signed and broadcast the approve transaction. -/
theorem sendPaymentE_submits_approve_before_curation_check :
    (sendPaymentE curatedWorld sampleOs 5
        { allocationID := sampleAllocation, deploymentID := sampleCidV0, amount := 2,
          gasPrice := 0, privateKeyFile := "" } []).1 =
      .error ("deployment has curation and cannot be paid to. " ++
        "please use a different deployment and open a new allocation") ∧
    ((sendPaymentE curatedWorld sampleOs 5
        { allocationID := sampleAllocation, deploymentID := sampleCidV0, amount := 2,
          gasPrice := 0, privateKeyFile := "" } []).2.filter isSubmission).length = 2 := by
  constructor
  · decide
  · decide

/-- C16 (witness): the sample `approveCall` run hands exactly one transaction
to the signer, of value zero and gas limit 7,000,000, and the sample
`collectCall` run one of value zero and gas limit 5,000,000. -/
theorem signed_transactions_zero_value_fixed_gas_witness :
    SignsOnly 7000000 (approveCall (sampleWorld [[1]]) sampleContext 5 GRTTokenContractAddress
      sampleSender StakingContractAddress 2 0) ∧
    (signedTransactions (approveCall (sampleWorld [[1]]) sampleContext 5
        GRTTokenContractAddress sampleSender StakingContractAddress 2 0 []).2).map
      (fun tx => (tx.value, tx.gasLimit)) = [(0, 7000000)] ∧
    (signedTransactions (collectCall (sampleWorld [[1]]) sampleContext 5
        StakingContractAddress sampleSender sampleAllocation 2 []).2).map
      (fun tx => (tx.value, tx.gasLimit)) = [(0, 5000000)] :=
  ⟨(signed_transactions_zero_value_fixed_gas (sampleWorld [[1]]) (toyCrypto []) sampleContext 5
      GRTTokenContractAddress sampleSender StakingContractAddress sampleCidV0 2 0).2.1,
    by decide, by decide⟩

/-! ### The allocation id of `sendpayment` -/

/-- The allocation id of a `sendpayment` run is first read by `collectCall`:
when the key is imported, the approve call returns a hash and the deployment is
not curated, a run whose allocation id does not parse as an address panics with
the error of the parser, after all the events of the approve call and of the
curation check. -/
theorem sendPaymentE_allocation_id_unchecked (w : World) (os : Os) (fuel : Nat)
    (flags : SendPaymentFlags) (h h1 h2 : List Event) (key : Bytes) (trx e : String)
    (hne : flags.deploymentID ≠ "")
    (hk : importPrivateKey os flags.privateKeyFile h = (.ok key, h))
    (happ : approveCall w { privateKey := some key } fuel GRTTokenContractAddress
      (os.keyAddress key) StakingContractAddress flags.amount flags.gasPrice h = (.ok trx, h1))
    (htrx : trx ≠ "")
    (hcur : IsCuratedCall w flags.deploymentID h1 = (.ok false, h2))
    (haddr : w.newAddress flags.allocationID = .error e) :
    sendPaymentE w os fuel flags h = (.panic e, h2) := by
  unfold sendPaymentE
  simp [Run.bind_apply, Run.bind, hne, hk, happ, htrx, failIf, wrapErr, hcur, collectCall,
    MustNewAddress, must, ofExcept, haddr]

/-- C13 (code defect): `sendpayment` never checks its allocation id. A run with
a malformed allocation id (`0xzz`), or with none, reads the chain id, the gas
price and the nonce, signs and broadcasts the approve transaction, polls twice
for its receipt and asks the curation contract (seven requests to the endpoint,
the broadcast among them) before `collectCall` panics on the allocation id,
while `close-allocation` returns an error for an empty allocation id before any
event; and `open-allocation` without a deployment id uploads a generated
deployment before it returns the error of its check of a zero amount. The
sample address parser rejects the empty text. -/
theorem sendPaymentE_broadcasts_before_allocation_id_is_read :
    (sendPaymentE (sampleWorld [[1]]) sampleOs 5
        { allocationID := "0xzz", deploymentID := sampleCidV0, amount := 2,
          gasPrice := 0, privateKeyFile := "" } []).1 = .panic "invalid hex" ∧
    ((sendPaymentE (sampleWorld [[1]]) sampleOs 5
        { allocationID := "0xzz", deploymentID := sampleCidV0, amount := 2,
          gasPrice := 0, privateKeyFile := "" } []).2.filter isSubmission).length = 2 ∧
    ((sendPaymentE (sampleWorld [[1]]) sampleOs 5
        { allocationID := "0xzz", deploymentID := sampleCidV0, amount := 2,
          gasPrice := 0, privateKeyFile := "" } []).2.filter isNetwork).length = 7 ∧
    (sendPaymentE (sampleWorld [[1]]) sampleOs 5
        { allocationID := "", deploymentID := sampleCidV0, amount := 2,
          gasPrice := 0, privateKeyFile := "" } []).1 = .panic "invalid length" ∧
    ((sendPaymentE (sampleWorld [[1]]) sampleOs 5
        { allocationID := "", deploymentID := sampleCidV0, amount := 2,
          gasPrice := 0, privateKeyFile := "" } []).2.filter isSubmission).length = 2 ∧
    closeAllocationE (sampleWorld [[1]]) sampleOs sampleHost 5
        { privateKeyFile := "", allocationID := "", gasPrice := 0 } [] =
      (.error "deployment ID is required", []) ∧
    openAllocationE (sampleWorld [[1]]) (toyCrypto []) sampleOs sampleHost 5
        { privateKeyFile := "", indexerAddress := sampleSender, deploymentID := "",
          allocationAmount := 0, gasPrice := 0 } [] =
      (.error "amount must be greater than 0", [.print generatingLine, .upload]) := by
  refine ⟨?_, ?_, ?_, ?_, ?_, ?_, ?_⟩
  · decide
  · decide
  · decide
  · decide
  · decide
  · decide
  · decide

/-! ### A polling loop that gave up -/

theorem givenUpFails_of_emits {α : Type} {w : World} {E : String → String → Prop} {m : Run α}
    (hm : Emits (fun ev => ev ≠ .print timeoutLine) m) : GivenUpFails w E m := by
  intro h
  obtain ⟨added, h1, h2⟩ := hm h
  exact ⟨added, h1, fun hmem => absurd rfl (h2 _ hmem)⟩

theorem givenUpFails_mono {α : Type} {w : World} {E F : String → String → Prop} {m : Run α}
    (hm : GivenUpFails w E m) (hEF : ∀ trx e, E trx e → F trx e) : GivenUpFails w F m := by
  intro h
  obtain ⟨added, h1, h2⟩ := hm h
  refine ⟨added, h1, fun hmem => ?_⟩
  obtain ⟨e, trx, hpre, raw, h3, h4, h5, h6⟩ := h2 hmem
  exact ⟨e, trx, hpre, raw, h3, hEF _ _ h4, h5, h6⟩

theorem givenUpFails_wrapErr {α : Type} {w : World} {E : String → String → Prop} (pre : String)
    {m : Run α} (hm : GivenUpFails w E m) :
    GivenUpFails w (fun trx e => ∃ e0, e = pre ++ e0 ∧ E trx e0) (wrapErr pre m) := by
  intro h
  obtain ⟨added, h1, h2⟩ := hm h
  unfold wrapErr
  split
  · rename_i e0 hx heq
    rw [heq] at h1 h2
    refine ⟨added, h1, fun hmem => ?_⟩
    obtain ⟨e, trx, hpre, raw, h3, h4, h5, h6⟩ := h2 hmem
    have h3' : e0 = e := by simpa using h3
    exact ⟨pre ++ e0, trx, hpre, raw, rfl, ⟨e, by rw [h3'], h4⟩, h5, h6⟩
  · rename_i hne
    refine ⟨added, h1, fun hmem => ?_⟩
    obtain ⟨e, trx, hpre, raw, h3, h4, h5, h6⟩ := h2 hmem
    exact absurd (Prod.ext h3 rfl : m h = (.error e, (m h).2)) (hne e _)

theorem givenUpFails_bind {α β : Type} {w : World} {E : String → String → Prop} {m : Run α}
    {f : α → Run β} (hm : GivenUpFails w E m) (hf : ∀ a, GivenUpFails w E (f a)) :
    GivenUpFails w E (m >>= f) := by
  intro h
  obtain ⟨added, h1, h2⟩ := hm h
  change ∃ added, (Run.bind m f h).2 = h ++ added ∧ (_ → ∃ e trx hpre raw,
    (Run.bind m f h).1 = .error e ∧ _)
  unfold Run.bind
  split
  · rename_i a h' heq
    rw [heq] at h1 h2
    have h1' : h' = h ++ added := h1
    obtain ⟨added2, h3, h4⟩ := hf a h'
    refine ⟨added ++ added2, by rw [h3, h1', List.append_assoc], fun hmem => ?_⟩
    rcases List.mem_append.mp hmem with h5 | h5
    · obtain ⟨e, _, _, _, h6, _⟩ := h2 h5
      simp at h6
    · obtain ⟨e, trx, hpre, raw, h6, h7, h8, h9⟩ := h4 h5
      exact ⟨e, trx, hpre, raw, h6, h7, h8, List.mem_append_right _ h9⟩
  · rename_i e h' heq
    rw [heq] at h1 h2
    refine ⟨added, h1, fun hmem => ?_⟩
    obtain ⟨e1, trx, hpre, raw, h6, h7, h8, h9⟩ := h2 hmem
    have h6' : e = e1 := by simpa using h6
    exact ⟨e1, trx, hpre, raw, by rw [h6'], h7, h8, h9⟩
  · rename_i e h' heq
    rw [heq] at h1 h2
    refine ⟨added, h1, fun hmem => ?_⟩
    obtain ⟨e, _, _, _, h6, _⟩ := h2 hmem
    simp at h6
  · rename_i h' heq
    rw [heq] at h1 h2
    refine ⟨added, h1, fun hmem => ?_⟩
    obtain ⟨e, _, _, _, h6, _⟩ := h2 hmem
    simp at h6

theorem givenUpFails_ite {α : Type} {w : World} {E : String → String → Prop} (c : Prop)
    [Decidable c] {m1 m2 : Run α} (h1 : GivenUpFails w E m1) (h2 : GivenUpFails w E m2) :
    GivenUpFails w E (if c then m1 else m2) := by
  split
  · exact h1
  · exact h2

/-- The line of a polling loop that gave up is not among the events of its
polls and sleeps. -/
theorem timeoutLine_not_mem_pollEvents (hash : Bytes) (run : PollRun) :
    Event.print timeoutLine ∉ pollEvents hash run := by
  intro hmem
  rcases pollEvents_mem hash run _ hmem with h1 | ⟨d, h1⟩
  · cases h1
  · cases h1

/-- The four ways the polling loop of a call ends: still running when the fuel
is spent, with an error, giving up with its line printed, or with a receipt. -/
theorem fetchReceipt_cases (w : World) (fuel : Nat) (hash : Bytes) (h : List Event) :
    ∃ polled, Event.print timeoutLine ∉ polled ∧
      (fetchReceipt w fuel hash h = (.running, h ++ polled) ∨
        (∃ e, fetchReceipt w fuel hash h = (.error e, h ++ polled)) ∨
        fetchReceipt w fuel hash h = (.ok none, h ++ polled ++ [.print timeoutLine]) ∨
        ∃ r, fetchReceipt w fuel hash h = (.ok (some r), h ++ polled)) := by
  refine ⟨pollEvents hash
    (FetchReceiptWithProgress (w.transactionReceipt h hash) (w.since h) fuel),
    timeoutLine_not_mem_pollEvents _ _, ?_⟩
  unfold fetchReceipt
  simp only
  split
  · exact Or.inl rfl
  · exact Or.inr (Or.inl ⟨_, rfl⟩)
  · exact Or.inr (Or.inr (Or.inl rfl))
  · exact Or.inr (Or.inr (Or.inr ⟨_, rfl⟩))

/-- The broadcast of a call and what follows it: the hash is parsed, the
polling loop runs, and the rest `k` of the call returns the error `msg resp`
when the loop gave up. -/
theorem givenUpFails_confirm {β : Type} (w : World) (fuel : Nat) (raw : Bytes)
    (k : String → Option TransactionReceipt → Run β) (msg : String → String)
    (hnone : ∀ resp, k resp none = fail (msg resp))
    (hsome : ∀ resp r, Emits (fun ev => ev ≠ .print timeoutLine) (k resp (some r))) :
    GivenUpFails w (fun trx e => e = msg trx)
      (request (.sendRaw raw) (fun h => w.sendRaw h raw) >>= fun resp =>
        MustNewHash w resp >>= fun hash =>
          fetchReceipt w fuel hash >>= fun receipt => k resp receipt) := by
  intro h
  simp only [Run.bind_apply, Run.bind, request]
  cases hs : w.sendRaw h raw with
  | error e => exact ⟨[.sendRaw raw], rfl, fun hmem => by simp at hmem⟩
  | ok resp =>
    simp only [MustNewHash, must, ofExcept]
    cases hn : w.newHash resp with
    | error e => exact ⟨[.sendRaw raw], rfl, fun hmem => by simp at hmem⟩
    | ok hash =>
      simp only
      obtain ⟨polled, hnot, hc | ⟨e, hc⟩ | hc | ⟨r, hc⟩⟩ :=
        fetchReceipt_cases w fuel hash (h ++ [.sendRaw raw])
      · rw [hc]
        refine ⟨[.sendRaw raw] ++ polled, (List.append_assoc _ _ _), fun hmem => ?_⟩
        rcases List.mem_append.mp hmem with h1 | h1
        · simp at h1
        · exact absurd h1 hnot
      · rw [hc]
        refine ⟨[.sendRaw raw] ++ polled, (List.append_assoc _ _ _), fun hmem => ?_⟩
        rcases List.mem_append.mp hmem with h1 | h1
        · simp at h1
        · exact absurd h1 hnot
      · rw [hc]
        simp only [hnone, fail]
        refine ⟨[.sendRaw raw] ++ (polled ++ [.print timeoutLine]), ?_, fun _ => ?_⟩
        · simp [List.append_assoc]
        · exact ⟨msg resp, resp, h, raw, rfl, rfl, hs, by simp⟩
      · rw [hc]
        simp only
        obtain ⟨added, h1, h2⟩ := hsome resp r (h ++ [.sendRaw raw] ++ polled)
        refine ⟨[.sendRaw raw] ++ (polled ++ added), ?_, fun hmem => ?_⟩
        · rw [h1]; simp [List.append_assoc]
        · rcases List.mem_append.mp hmem with h3 | h3
          · simp at h3
          · rcases List.mem_append.mp h3 with h4 | h4
            · exact absurd h4 hnot
            · exact absurd rfl (h2 _ h4)

/-- The events `approveCall` adds before its broadcast are not the give-up
line, and when its polling loop gave up it returns its nil-receipt error. -/
theorem approveCall_givenUpFails (w : World) (ctx : Context) (fuel : Nat)
    (toStr sender addr : String) (amt : Nat) (gasPrice : Int) :
    GivenUpFails w (fun _ e => e = "failed to approve. receipt is nil")
      (approveCall w ctx fuel toStr sender addr amt gasPrice) := by
  unfold approveCall
  refine givenUpFails_bind (givenUpFails_of_emits (Emits.MustNewAddress _ _ _)) (fun _ => ?_)
  refine givenUpFails_bind (givenUpFails_of_emits (Emits.ofExcept _ _)) (fun _ => ?_)
  refine givenUpFails_bind (givenUpFails_of_emits (Emits.MustGetChainID _ (by simp)))
    (fun _ => ?_)
  refine givenUpFails_bind (givenUpFails_of_emits (Emits.MustGetPrivateKey _ _)) (fun _ => ?_)
  refine givenUpFails_bind (givenUpFails_of_emits (Emits.wrapErr _ (Emits.ofExcept _ _)))
    (fun _ => ?_)
  refine givenUpFails_bind (givenUpFails_of_emits
    (Emits.ite _ (Emits.MustGetGasPrice _ (by simp)) (Emits.pure _ _))) (fun _ => ?_)
  refine givenUpFails_bind (givenUpFails_of_emits (Emits.MustNewAddress _ _ _)) (fun _ => ?_)
  refine givenUpFails_bind (givenUpFails_of_emits (Emits.MustGetAccountNonce _ _ (by simp)))
    (fun _ => ?_)
  refine givenUpFails_bind (givenUpFails_of_emits (Emits.MustNewAddress _ _ _)) (fun _ => ?_)
  refine givenUpFails_bind (givenUpFails_of_emits (Emits.request _ _ _ (by simp)))
    (fun signedTx => ?_)
  exact givenUpFails_confirm w fuel signedTx
    (fun resp receipt => match receipt with
      | none => fail "failed to approve. receipt is nil"
      | some _ => pure resp)
    (fun _ => "failed to approve. receipt is nil") (fun _ => rfl)
    (fun _ _ => Emits.pure _ _)

/-- When the polling loop of `ApproveCall` gave up, it returns its nil-receipt
error. -/
theorem ApproveCall_givenUpFails (w : World) (ctx : Context) (fuel : Nat)
    (toStr sender addr : String) (amt : Nat) (gasPrice : Int) :
    GivenUpFails w (fun _ e => e = "failed to approve. receipt is nil")
      (ApproveCall w ctx fuel toStr sender addr amt gasPrice) := by
  unfold ApproveCall
  refine givenUpFails_bind (givenUpFails_of_emits (Emits.MustNewAddress _ _ _)) (fun _ => ?_)
  refine givenUpFails_bind (givenUpFails_of_emits (Emits.ofExcept _ _)) (fun _ => ?_)
  refine givenUpFails_bind (givenUpFails_of_emits (Emits.MustGetChainID _ (by simp)))
    (fun _ => ?_)
  refine givenUpFails_bind (givenUpFails_of_emits (Emits.MustGetPrivateKey _ _)) (fun _ => ?_)
  refine givenUpFails_bind (givenUpFails_of_emits (Emits.wrapErr _ (Emits.ofExcept _ _)))
    (fun _ => ?_)
  refine givenUpFails_bind (givenUpFails_of_emits
    (Emits.ite _ (Emits.MustGetGasPrice _ (by simp)) (Emits.pure _ _))) (fun _ => ?_)
  refine givenUpFails_bind (givenUpFails_of_emits (Emits.MustNewAddress _ _ _)) (fun _ => ?_)
  refine givenUpFails_bind (givenUpFails_of_emits (Emits.MustGetAccountNonce _ _ (by simp)))
    (fun _ => ?_)
  refine givenUpFails_bind (givenUpFails_of_emits (Emits.MustNewAddress _ _ _)) (fun _ => ?_)
  refine givenUpFails_bind (givenUpFails_of_emits (Emits.request _ _ _ (by simp)))
    (fun signedTx => ?_)
  exact givenUpFails_confirm w fuel signedTx
    (fun resp receipt => match receipt with
      | none => fail "failed to approve. receipt is nil"
      | some _ => pure resp)
    (fun _ => "failed to approve. receipt is nil") (fun _ => rfl)
    (fun _ _ => Emits.pure _ _)

/-- When the polling loop of `collectCall` gave up, it returns its nil-receipt
error, whose text is that of `approveCall`. -/
theorem collectCall_givenUpFails (w : World) (ctx : Context) (fuel : Nat)
    (toStr sender allocation : String) (amt : Nat) :
    GivenUpFails w (fun _ e => e = "failed to approve. receipt is nil")
      (collectCall w ctx fuel toStr sender allocation amt) := by
  unfold collectCall
  refine givenUpFails_bind (givenUpFails_of_emits (Emits.MustNewAddress _ _ _)) (fun _ => ?_)
  refine givenUpFails_bind (givenUpFails_of_emits (Emits.ofExcept _ _)) (fun _ => ?_)
  refine givenUpFails_bind (givenUpFails_of_emits (Emits.MustGetChainID _ (by simp)))
    (fun _ => ?_)
  refine givenUpFails_bind (givenUpFails_of_emits (Emits.MustGetPrivateKey _ _)) (fun _ => ?_)
  refine givenUpFails_bind (givenUpFails_of_emits (Emits.wrapErr _ (Emits.ofExcept _ _)))
    (fun _ => ?_)
  refine givenUpFails_bind (givenUpFails_of_emits (Emits.MustNewAddress _ _ _)) (fun _ => ?_)
  refine givenUpFails_bind (givenUpFails_of_emits (Emits.MustGetAccountNonce _ _ (by simp)))
    (fun _ => ?_)
  refine givenUpFails_bind (givenUpFails_of_emits (Emits.MustNewAddress _ _ _)) (fun _ => ?_)
  refine givenUpFails_bind (givenUpFails_of_emits (Emits.MustGetGasPrice _ (by simp)))
    (fun _ => ?_)
  refine givenUpFails_bind (givenUpFails_of_emits (Emits.request _ _ _ (by simp)))
    (fun signedTx => ?_)
  exact givenUpFails_confirm w fuel signedTx
    (fun resp receipt => match receipt with
      | none => fail "failed to approve. receipt is nil"
      | some _ => pure resp)
    (fun _ => "failed to approve. receipt is nil") (fun _ => rfl)
    (fun _ _ => Emits.pure _ _)

/-- When the polling loop of `closeAllocationCall` gave up, it returns the
error that names the hash the broadcast returned. -/
theorem closeAllocationCall_givenUpFails (w : World) (ctx : Context) (fuel : Nat)
    (toStr sender allocationID : String) (gasPrice : Int) :
    GivenUpFails w
      (fun trx e => e = "failed to close allocation. no receipt found for transaction " ++ trx)
      (closeAllocationCall w ctx fuel toStr sender allocationID gasPrice) := by
  unfold closeAllocationCall
  refine givenUpFails_bind (givenUpFails_of_emits (Emits.MustNewAddress _ _ _)) (fun _ => ?_)
  refine givenUpFails_bind (givenUpFails_of_emits (Emits.wrapErr _ (Emits.ofExcept _ _)))
    (fun _ => ?_)
  refine givenUpFails_bind (givenUpFails_of_emits (Emits.MustGetChainID _ (by simp)))
    (fun _ => ?_)
  refine givenUpFails_bind (givenUpFails_of_emits (Emits.MustGetPrivateKey _ _)) (fun _ => ?_)
  refine givenUpFails_bind (givenUpFails_of_emits (Emits.wrapErr _ (Emits.ofExcept _ _)))
    (fun _ => ?_)
  refine givenUpFails_bind (givenUpFails_of_emits
    (Emits.ite _ (Emits.MustGetGasPrice _ (by simp)) (Emits.pure _ _))) (fun _ => ?_)
  refine givenUpFails_bind (givenUpFails_of_emits (Emits.MustNewAddress _ _ _)) (fun _ => ?_)
  refine givenUpFails_bind (givenUpFails_of_emits (Emits.MustGetAccountNonce _ _ (by simp)))
    (fun _ => ?_)
  refine givenUpFails_bind (givenUpFails_of_emits (Emits.MustNewAddress _ _ _)) (fun _ => ?_)
  refine givenUpFails_bind (givenUpFails_of_emits (Emits.request _ _ _ (by simp)))
    (fun signedTx => ?_)
  exact givenUpFails_confirm w fuel signedTx
    (fun resp receipt => match receipt with
      | none => fail ("failed to close allocation. no receipt found for transaction " ++ resp)
      | some receipt =>
        if receipt.logs.length = 0 then
          fail ("failed to close allocation. no logs found for transaction " ++ resp)
        else
          pure resp)
    (fun resp => "failed to close allocation. no receipt found for transaction " ++ resp)
    (fun _ => rfl)
    (fun _ _ => Emits.ite _ (Emits.fail _ _) (Emits.pure _ _))

/-- When the polling loop of `allocateCall` gave up, it returns the error that
names the hash the broadcast returned. -/
theorem allocateCall_givenUpFails (w : World) (c : Crypto) (ctx : Context) (fuel : Nat)
    (toStr sender indexerAddress deploymentID : String) (amt : Nat) (gasPrice : Int) :
    GivenUpFails w
      (fun trx e => e = "failed to allocate. no receipt found for transaction " ++ trx)
      (allocateCall w c ctx fuel toStr sender indexerAddress deploymentID amt gasPrice) := by
  unfold allocateCall
  refine givenUpFails_bind (givenUpFails_of_emits
    (Emits.wrapErr _ (Emits.IsCuratedCall _ _ (by simp)))) (fun _ => ?_)
  refine givenUpFails_bind (givenUpFails_of_emits (Emits.failIf _ _ _)) (fun _ => ?_)
  refine givenUpFails_bind (givenUpFails_of_emits (Emits.wrapErr _ (Emits.ofExcept _ _)))
    (fun ⟨_, _⟩ => ?_)
  refine givenUpFails_bind (givenUpFails_of_emits (Emits.wrapErr _ (Emits.ofExcept _ _)))
    (fun _ => ?_)
  refine givenUpFails_bind (givenUpFails_of_emits (Emits.MustNewAddress _ _ _)) (fun _ => ?_)
  refine givenUpFails_bind (givenUpFails_of_emits (Emits.MustNewAddress _ _ _)) (fun _ => ?_)
  refine givenUpFails_bind (givenUpFails_of_emits (Emits.wrapErr _ (Emits.ofExcept _ _)))
    (fun _ => ?_)
  refine givenUpFails_bind (givenUpFails_of_emits (Emits.MustGetChainID _ (by simp)))
    (fun _ => ?_)
  refine givenUpFails_bind (givenUpFails_of_emits (Emits.MustGetPrivateKey _ _)) (fun _ => ?_)
  refine givenUpFails_bind (givenUpFails_of_emits (Emits.wrapErr _ (Emits.ofExcept _ _)))
    (fun _ => ?_)
  refine givenUpFails_bind (givenUpFails_of_emits
    (Emits.ite _ (Emits.MustGetGasPrice _ (by simp)) (Emits.pure _ _))) (fun _ => ?_)
  refine givenUpFails_bind (givenUpFails_of_emits (Emits.MustNewAddress _ _ _)) (fun _ => ?_)
  refine givenUpFails_bind (givenUpFails_of_emits (Emits.MustGetAccountNonce _ _ (by simp)))
    (fun _ => ?_)
  refine givenUpFails_bind (givenUpFails_of_emits (Emits.MustNewAddress _ _ _)) (fun _ => ?_)
  refine givenUpFails_bind (givenUpFails_of_emits (Emits.request _ _ _ (by simp)))
    (fun signedTx => ?_)
  rename_i allocationIDBytes _ _ _ _ _ _ _ _ _ _ _ _
  exact givenUpFails_confirm w fuel signedTx
    (fun resp receipt => match receipt with
      | none => fail ("failed to allocate. no receipt found for transaction " ++ resp)
      | some receipt =>
        if receipt.logs.length = 0 then
          fail ("failed to allocate. no logs found for transaction " ++ resp)
        else
          pure (resp, hexEncode allocationIDBytes))
    (fun resp => "failed to allocate. no receipt found for transaction " ++ resp)
    (fun _ => rfl)
    (fun _ _ => Emits.ite _ (Emits.fail _ _) (Emits.pure _ _))

/-! ### A returned hash is a confirmed one -/

theorem request_ok {α : Type} (ev : Event) (answer : List Event → Except String α)
    (h h' : List Event) (a : α) (hrun : request ev answer h = (.ok a, h')) :
    answer h = .ok a ∧ h' = h ++ [ev] := by
  unfold request at hrun
  split at hrun
  · rename_i a' heq
    simp only [Prod.mk.injEq, Outcome.ok.injEq] at hrun
    exact ⟨by rw [heq, hrun.1], hrun.2.symm⟩
  · simp at hrun

theorem MustNewHash_ok_inv (w : World) (s : String) (h h' : List Event) (hash : Bytes)
    (hrun : MustNewHash w s h = (.ok hash, h')) : w.newHash s = .ok hash ∧ h' = h := by
  unfold MustNewHash must ofExcept at hrun
  cases hn : w.newHash s with
  | error e => simp [hn] at hrun
  | ok b =>
    simp only [hn, Prod.mk.injEq, Outcome.ok.injEq] at hrun
    exact ⟨by rw [hrun.1], hrun.2.symm⟩

/-- The final check of `approveCall` and `collectCall`: a normal return needs a
receipt, and returns the hash of the broadcast. -/
theorem receipt_found_ok (receipt : Option TransactionReceipt) (e1 resp b : String)
    (h h' : List Event)
    (hrun : (match receipt with
      | none => (fail e1 : Run String)
      | some _ => pure resp) h = (.ok b, h')) :
    ∃ r, receipt = some r ∧ b = resp ∧ h' = h := by
  cases receipt with
  | none => simp [fail] at hrun
  | some r =>
    simp only [Run.pure_apply, Prod.mk.injEq, Outcome.ok.injEq] at hrun
    exact ⟨r, rfl, hrun.1.symm, hrun.2.symm⟩

/-- The final check of `closeAllocationCall` and `allocateCall`: a normal
return needs a receipt with at least one log, and returns the value made from
the hash of the broadcast. -/
theorem receipt_check_ok_value {α : Type} (receipt : Option TransactionReceipt)
    (e1 e2 : String) (a b : α) (h h' : List Event)
    (hrun : (match receipt with
      | none => (fail e1 : Run α)
      | some receipt => if receipt.logs.length = 0 then fail e2 else pure a) h = (.ok b, h')) :
    ∃ r, receipt = some r ∧ r.logs ≠ [] ∧ b = a ∧ h' = h := by
  cases receipt with
  | none => simp [fail] at hrun
  | some r =>
    by_cases hl : r.logs.length = 0
    · simp [hl, fail] at hrun
    · simp only [hl, if_false, Run.pure_apply, Prod.mk.injEq, Outcome.ok.injEq] at hrun
      exact ⟨r, rfl, fun hnil => hl (by rw [hnil]; rfl), hrun.1.symm, hrun.2.symm⟩

/-- Whenever `approveCall` returns a hash, its polling loop found the receipt
of that hash. -/
theorem approveCall_ok_confirmed (w : World) (ctx : Context) (fuel : Nat)
    (toStr sender addr : String) (amt : Nat) (gasPrice : Int) (h h' : List Event) (trx : String)
    (hrun : approveCall w ctx fuel toStr sender addr amt gasPrice h = (.ok trx, h')) :
    Confirmed w fuel trx h' (fun _ => True) := by
  unfold approveCall at hrun
  obtain ⟨_, _, -, hrun⟩ := Run.bind_ok _ _ _ _ _ hrun
  obtain ⟨_, _, -, hrun⟩ := Run.bind_ok _ _ _ _ _ hrun
  obtain ⟨_, _, -, hrun⟩ := Run.bind_ok _ _ _ _ _ hrun
  obtain ⟨_, _, -, hrun⟩ := Run.bind_ok _ _ _ _ _ hrun
  obtain ⟨_, _, -, hrun⟩ := Run.bind_ok _ _ _ _ _ hrun
  obtain ⟨_, _, -, hrun⟩ := Run.bind_ok _ _ _ _ _ hrun
  obtain ⟨_, _, -, hrun⟩ := Run.bind_ok _ _ _ _ _ hrun
  obtain ⟨_, _, -, hrun⟩ := Run.bind_ok _ _ _ _ _ hrun
  obtain ⟨_, _, -, hrun⟩ := Run.bind_ok _ _ _ _ _ hrun
  obtain ⟨signedTx, hpre, -, hrun⟩ := Run.bind_ok _ _ _ _ _ hrun
  obtain ⟨resp, h0, hsend, hrun⟩ := Run.bind_ok _ _ _ _ _ hrun
  obtain ⟨hash, h1, hhash, hrun⟩ := Run.bind_ok _ _ _ _ _ hrun
  obtain ⟨receipt, h2, hfetch, hrun⟩ := Run.bind_ok _ _ _ _ _ hrun
  obtain ⟨r, rfl, rfl, rfl⟩ := receipt_found_ok _ _ _ _ _ _ hrun
  obtain ⟨hs1, rfl⟩ := request_ok _ _ _ _ _ hsend
  obtain ⟨hn1, rfl⟩ := MustNewHash_ok_inv _ _ _ _ _ hhash
  exact ⟨hpre, signedTx, hash, r, hs1, hn1, hfetch, trivial⟩

/-- Whenever `ApproveCall` returns a hash, its polling loop found the receipt
of that hash. -/
theorem ApproveCall_ok_confirmed (w : World) (ctx : Context) (fuel : Nat)
    (toStr sender addr : String) (amt : Nat) (gasPrice : Int) (h h' : List Event) (trx : String)
    (hrun : ApproveCall w ctx fuel toStr sender addr amt gasPrice h = (.ok trx, h')) :
    Confirmed w fuel trx h' (fun _ => True) := by
  unfold ApproveCall at hrun
  obtain ⟨_, _, -, hrun⟩ := Run.bind_ok _ _ _ _ _ hrun
  obtain ⟨_, _, -, hrun⟩ := Run.bind_ok _ _ _ _ _ hrun
  obtain ⟨_, _, -, hrun⟩ := Run.bind_ok _ _ _ _ _ hrun
  obtain ⟨_, _, -, hrun⟩ := Run.bind_ok _ _ _ _ _ hrun
  obtain ⟨_, _, -, hrun⟩ := Run.bind_ok _ _ _ _ _ hrun
  obtain ⟨_, _, -, hrun⟩ := Run.bind_ok _ _ _ _ _ hrun
  obtain ⟨_, _, -, hrun⟩ := Run.bind_ok _ _ _ _ _ hrun
  obtain ⟨_, _, -, hrun⟩ := Run.bind_ok _ _ _ _ _ hrun
  obtain ⟨_, _, -, hrun⟩ := Run.bind_ok _ _ _ _ _ hrun
  obtain ⟨signedTx, hpre, -, hrun⟩ := Run.bind_ok _ _ _ _ _ hrun
  obtain ⟨resp, h0, hsend, hrun⟩ := Run.bind_ok _ _ _ _ _ hrun
  obtain ⟨hash, h1, hhash, hrun⟩ := Run.bind_ok _ _ _ _ _ hrun
  obtain ⟨receipt, h2, hfetch, hrun⟩ := Run.bind_ok _ _ _ _ _ hrun
  obtain ⟨r, rfl, rfl, rfl⟩ := receipt_found_ok _ _ _ _ _ _ hrun
  obtain ⟨hs1, rfl⟩ := request_ok _ _ _ _ _ hsend
  obtain ⟨hn1, rfl⟩ := MustNewHash_ok_inv _ _ _ _ _ hhash
  exact ⟨hpre, signedTx, hash, r, hs1, hn1, hfetch, trivial⟩

/-- Whenever `collectCall` returns a hash, its polling loop found the receipt
of that hash. -/
theorem collectCall_ok_confirmed (w : World) (ctx : Context) (fuel : Nat)
    (toStr sender allocation : String) (amt : Nat) (h h' : List Event) (trx : String)
    (hrun : collectCall w ctx fuel toStr sender allocation amt h = (.ok trx, h')) :
    Confirmed w fuel trx h' (fun _ => True) := by
  unfold collectCall at hrun
  obtain ⟨_, _, -, hrun⟩ := Run.bind_ok _ _ _ _ _ hrun
  obtain ⟨_, _, -, hrun⟩ := Run.bind_ok _ _ _ _ _ hrun
  obtain ⟨_, _, -, hrun⟩ := Run.bind_ok _ _ _ _ _ hrun
  obtain ⟨_, _, -, hrun⟩ := Run.bind_ok _ _ _ _ _ hrun
  obtain ⟨_, _, -, hrun⟩ := Run.bind_ok _ _ _ _ _ hrun
  obtain ⟨_, _, -, hrun⟩ := Run.bind_ok _ _ _ _ _ hrun
  obtain ⟨_, _, -, hrun⟩ := Run.bind_ok _ _ _ _ _ hrun
  obtain ⟨_, _, -, hrun⟩ := Run.bind_ok _ _ _ _ _ hrun
  obtain ⟨_, _, -, hrun⟩ := Run.bind_ok _ _ _ _ _ hrun
  obtain ⟨signedTx, hpre, -, hrun⟩ := Run.bind_ok _ _ _ _ _ hrun
  obtain ⟨resp, h0, hsend, hrun⟩ := Run.bind_ok _ _ _ _ _ hrun
  obtain ⟨hash, h1, hhash, hrun⟩ := Run.bind_ok _ _ _ _ _ hrun
  obtain ⟨receipt, h2, hfetch, hrun⟩ := Run.bind_ok _ _ _ _ _ hrun
  obtain ⟨r, rfl, rfl, rfl⟩ := receipt_found_ok _ _ _ _ _ _ hrun
  obtain ⟨hs1, rfl⟩ := request_ok _ _ _ _ _ hsend
  obtain ⟨hn1, rfl⟩ := MustNewHash_ok_inv _ _ _ _ _ hhash
  exact ⟨hpre, signedTx, hash, r, hs1, hn1, hfetch, trivial⟩

/-- Whenever `closeAllocationCall` returns a hash, its polling loop found the
receipt of that hash, with at least one log. -/
theorem closeAllocationCall_ok_confirmed (w : World) (ctx : Context) (fuel : Nat)
    (toStr sender allocationID : String) (gasPrice : Int) (h h' : List Event) (trx : String)
    (hrun : closeAllocationCall w ctx fuel toStr sender allocationID gasPrice h = (.ok trx, h')) :
    Confirmed w fuel trx h' (fun r => r.logs ≠ []) := by
  unfold closeAllocationCall at hrun
  obtain ⟨_, _, -, hrun⟩ := Run.bind_ok _ _ _ _ _ hrun
  obtain ⟨_, _, -, hrun⟩ := Run.bind_ok _ _ _ _ _ hrun
  obtain ⟨_, _, -, hrun⟩ := Run.bind_ok _ _ _ _ _ hrun
  obtain ⟨_, _, -, hrun⟩ := Run.bind_ok _ _ _ _ _ hrun
  obtain ⟨_, _, -, hrun⟩ := Run.bind_ok _ _ _ _ _ hrun
  obtain ⟨_, _, -, hrun⟩ := Run.bind_ok _ _ _ _ _ hrun
  obtain ⟨_, _, -, hrun⟩ := Run.bind_ok _ _ _ _ _ hrun
  obtain ⟨_, _, -, hrun⟩ := Run.bind_ok _ _ _ _ _ hrun
  obtain ⟨_, _, -, hrun⟩ := Run.bind_ok _ _ _ _ _ hrun
  obtain ⟨signedTx, hpre, -, hrun⟩ := Run.bind_ok _ _ _ _ _ hrun
  obtain ⟨resp, h0, hsend, hrun⟩ := Run.bind_ok _ _ _ _ _ hrun
  obtain ⟨hash, h1, hhash, hrun⟩ := Run.bind_ok _ _ _ _ _ hrun
  obtain ⟨receipt, h2, hfetch, hrun⟩ := Run.bind_ok _ _ _ _ _ hrun
  obtain ⟨r, rfl, hlogs, rfl, rfl⟩ := receipt_check_ok_value _ _ _ _ _ _ _ hrun
  obtain ⟨hs1, rfl⟩ := request_ok _ _ _ _ _ hsend
  obtain ⟨hn1, rfl⟩ := MustNewHash_ok_inv _ _ _ _ _ hhash
  exact ⟨hpre, signedTx, hash, r, hs1, hn1, hfetch, hlogs⟩

/-- Whenever `allocateCall` returns a hash, its polling loop found the receipt
of that hash, with at least one log. -/
theorem allocateCall_ok_confirmed (w : World) (c : Crypto) (ctx : Context) (fuel : Nat)
    (toStr sender indexerAddress deploymentID : String) (amt : Nat) (gasPrice : Int)
    (h h' : List Event) (trx allocationID : String)
    (hrun : allocateCall w c ctx fuel toStr sender indexerAddress deploymentID amt gasPrice h =
      (.ok (trx, allocationID), h')) :
    Confirmed w fuel trx h' (fun r => r.logs ≠ []) := by
  unfold allocateCall at hrun
  obtain ⟨_, _, -, hrun⟩ := Run.bind_ok _ _ _ _ _ hrun
  obtain ⟨_, _, -, hrun⟩ := Run.bind_ok _ _ _ _ _ hrun
  obtain ⟨⟨_, _⟩, _, -, hrun⟩ := Run.bind_ok _ _ _ _ _ hrun
  obtain ⟨_, _, -, hrun⟩ := Run.bind_ok _ _ _ _ _ hrun
  obtain ⟨_, _, -, hrun⟩ := Run.bind_ok _ _ _ _ _ hrun
  obtain ⟨_, _, -, hrun⟩ := Run.bind_ok _ _ _ _ _ hrun
  obtain ⟨_, _, -, hrun⟩ := Run.bind_ok _ _ _ _ _ hrun
  obtain ⟨_, _, -, hrun⟩ := Run.bind_ok _ _ _ _ _ hrun
  obtain ⟨_, _, -, hrun⟩ := Run.bind_ok _ _ _ _ _ hrun
  obtain ⟨_, _, -, hrun⟩ := Run.bind_ok _ _ _ _ _ hrun
  obtain ⟨_, _, -, hrun⟩ := Run.bind_ok _ _ _ _ _ hrun
  obtain ⟨_, _, -, hrun⟩ := Run.bind_ok _ _ _ _ _ hrun
  obtain ⟨_, _, -, hrun⟩ := Run.bind_ok _ _ _ _ _ hrun
  obtain ⟨_, _, -, hrun⟩ := Run.bind_ok _ _ _ _ _ hrun
  obtain ⟨signedTx, hpre, -, hrun⟩ := Run.bind_ok _ _ _ _ _ hrun
  obtain ⟨resp, h0, hsend, hrun⟩ := Run.bind_ok _ _ _ _ _ hrun
  obtain ⟨hash, h1, hhash, hrun⟩ := Run.bind_ok _ _ _ _ _ hrun
  obtain ⟨receipt, h2, hfetch, hrun⟩ := Run.bind_ok _ _ _ _ _ hrun
  obtain ⟨r, rfl, hlogs, hval, rfl⟩ := receipt_check_ok_value _ _ _ _ _ _ _ hrun
  obtain ⟨hs1, rfl⟩ := request_ok _ _ _ _ _ hsend
  obtain ⟨hn1, rfl⟩ := MustNewHash_ok_inv _ _ _ _ _ hhash
  have htrx : trx = resp := congrArg Prod.fst hval
  subst htrx
  exact ⟨hpre, signedTx, hash, r, hs1, hn1, hfetch, hlogs⟩

/-! ### The give-up line and the lines of the commands -/

theorem print_ne_timeoutLine (line : String) (hhead : line.data.head? ≠ some 'U') :
    Event.print line ≠ .print timeoutLine := by
  intro heq
  injection heq with h1
  apply hhead
  rw [h1]
  rfl

theorem digitChar_ne_U (d : Nat) (hd : d < 10) : Nat.digitChar d ≠ 'U' := by
  interval_cases d <;> decide

theorem toDigitsCore_ne_U (fuel : Nat) : ∀ (n : Nat) (acc : List Char),
    (∀ ch ∈ acc, ch ≠ 'U') → ∀ ch ∈ Nat.toDigitsCore 10 fuel n acc, ch ≠ 'U' := by
  induction fuel with
  | zero => intro n acc hacc; simpa [Nat.toDigitsCore] using hacc
  | succ fuel ih =>
    intro n acc hacc
    have hcons : ∀ ch ∈ Nat.digitChar (n % 10) :: acc, ch ≠ 'U' := by
      intro ch hch
      rcases List.mem_cons.mp hch with h1 | h1
      · rw [h1]; exact digitChar_ne_U _ (Nat.mod_lt _ (by decide))
      · exact hacc ch h1
    unfold Nat.toDigitsCore
    simp only
    split
    · exact hcons
    · exact ih _ _ hcons

/-- The line `sendpayment` prints for the amount is not the give-up line of the
polling loop: it starts with a decimal digit. -/
theorem sentLine_ne_timeoutLine (amount : Nat) (allocation : String) :
    Event.print (toString amount ++ " sent to allocation " ++ allocation ++ "\n") ≠
      .print timeoutLine := by
  apply print_ne_timeoutLine
  have hdata : (toString amount).data = Nat.toDigits 10 amount := rfl
  simp only [String.data_append, hdata]
  have hU := toDigitsCore_ne_U (amount + 1) amount [] (by simp)
  change ∀ ch ∈ Nat.toDigits 10 amount, ch ≠ 'U' at hU
  cases hd : Nat.toDigits 10 amount with
  | nil => simp
  | cons ch rest =>
    rw [hd] at hU
    have := hU ch (List.mem_cons_self _ _)
    simpa using this

/-! ### The commands after a polling loop that gave up -/

theorem closeAllocationE_givenUpFails (w : World) (os : Os) (host : Host) (fuel : Nat)
    (flags : CloseAllocationFlags) :
    GivenUpFails w
      (fun trx e => e = "failed to close allocation. no receipt found for transaction " ++ trx)
      (closeAllocationE w os host fuel flags) := by
  unfold closeAllocationE
  refine givenUpFails_bind (givenUpFails_of_emits (Emits.failIf _ _ _)) (fun _ => ?_)
  refine givenUpFails_bind (givenUpFails_of_emits (Emits.importPrivateKey _ _ _)) (fun _ => ?_)
  refine givenUpFails_bind (givenUpFails_of_emits (Emits.failIf _ _ _)) (fun _ => ?_)
  refine givenUpFails_bind (closeAllocationCall_givenUpFails _ _ _ _ _ _ _) (fun _ => ?_)
  refine givenUpFails_bind (givenUpFails_of_emits (Emits.emit _ _ (by decide))) (fun _ => ?_)
  refine givenUpFails_of_emits (Emits.emit _ _ ?_)
  exact print_ne_timeoutLine _ (by simp [explorerLine, String.data_append])

theorem openAllocationE_givenUpFails (w : World) (c : Crypto) (os : Os) (host : Host)
    (fuel : Nat) (flags : OpenAllocationFlags) :
    GivenUpFails w
      (fun trx e => e = "failed to allocate. no receipt found for transaction " ++ trx)
      (openAllocationE w c os host fuel flags) := by
  unfold openAllocationE
  refine givenUpFails_bind (givenUpFails_of_emits (Emits.ite _ ?_ (Emits.pure _ _)))
    (fun dep => ?_)
  · refine Emits.bind (Emits.emit _ _ (by decide)) (fun _ => ?_)
    exact Emits.wrapErr _ (Emits.mono (Emits.GenerateDeployment host)
      (fun ev hev => by rw [hev]; simp))
  refine givenUpFails_bind (givenUpFails_of_emits (Emits.failIf _ _ _)) (fun _ => ?_)
  refine givenUpFails_bind (givenUpFails_of_emits (Emits.failIf _ _ _)) (fun _ => ?_)
  refine givenUpFails_bind (givenUpFails_of_emits (Emits.importPrivateKey _ _ _)) (fun _ => ?_)
  refine givenUpFails_bind (givenUpFails_of_emits (Emits.failIf _ _ _)) (fun _ => ?_)
  refine givenUpFails_bind (givenUpFails_of_emits (Emits.ite _ ?_ (Emits.pure _ _)))
    (fun _ => ?_)
  · refine Emits.bind (Emits.wrapErr _ (Emits.IsCuratedCall _ _ (by simp))) (fun _ => ?_)
    exact Emits.failIf _ _ _
  refine givenUpFails_bind (allocateCall_givenUpFails _ _ _ _ _ _ _ _ _ _) (fun ⟨_, _⟩ => ?_)
  refine givenUpFails_bind (givenUpFails_of_emits (Emits.MustNewAddress _ _ _)) (fun _ => ?_)
  refine givenUpFails_bind (givenUpFails_of_emits (Emits.emit _ _ ?_)) (fun _ => ?_)
  · exact print_ne_timeoutLine _ (by simp [String.data_append])
  refine givenUpFails_bind (givenUpFails_of_emits (Emits.emit _ _ ?_)) (fun _ => ?_)
  · exact print_ne_timeoutLine _ (by simp [String.data_append])
  refine givenUpFails_of_emits (Emits.emit _ _ ?_)
  exact print_ne_timeoutLine _ (by simp [explorerLine, String.data_append])

theorem sendPaymentE_givenUpFails (w : World) (os : Os) (fuel : Nat) (flags : SendPaymentFlags) :
    GivenUpFails w
      (fun _ e => e = "failed to approve: failed to approve. receipt is nil" ∨
        e = "failed to collect: failed to approve. receipt is nil")
      (sendPaymentE w os fuel flags) := by
  unfold sendPaymentE
  refine givenUpFails_bind (givenUpFails_of_emits (Emits.failIf _ _ _)) (fun _ => ?_)
  refine givenUpFails_bind (givenUpFails_of_emits (Emits.importPrivateKey _ _ _)) (fun _ => ?_)
  refine givenUpFails_bind
    (givenUpFails_mono (givenUpFails_wrapErr _ (approveCall_givenUpFails _ _ _ _ _ _ _ _))
      (fun _ e ⟨e0, h1, h2⟩ => Or.inl (by rw [h1, h2]; rfl)))
    (fun _ => ?_)
  refine givenUpFails_bind (givenUpFails_of_emits (Emits.failIf _ _ _)) (fun _ => ?_)
  refine givenUpFails_bind
    (givenUpFails_of_emits (Emits.wrapErr _ (Emits.IsCuratedCall _ _ (by simp)))) (fun _ => ?_)
  refine givenUpFails_bind (givenUpFails_of_emits (Emits.failIf _ _ _)) (fun _ => ?_)
  refine givenUpFails_bind
    (givenUpFails_mono (givenUpFails_wrapErr _ (collectCall_givenUpFails _ _ _ _ _ _ _))
      (fun _ e ⟨e0, h1, h2⟩ => Or.inr (by rw [h1, h2]; rfl)))
    (fun _ => ?_)
  refine givenUpFails_bind (givenUpFails_of_emits (Emits.failIf _ _ _)) (fun _ => ?_)
  refine givenUpFails_bind (givenUpFails_of_emits (Emits.emit _ _ (by decide))) (fun _ => ?_)
  refine givenUpFails_bind
    (givenUpFails_of_emits (Emits.emit _ _ (sentLine_ne_timeoutLine _ _))) (fun _ => ?_)
  refine givenUpFails_of_emits (Emits.emit _ _ ?_)
  exact print_ne_timeoutLine _ (by simp [String.data_append])

/-! ### The explorer line: only after a confirmed success -/

/-- C14 (amended): the explorer line is printed only when the workflow returns
normally, and a hash is returned only for a confirmed transaction.
Each of `approveCall`, `collectCall`, `allocateCall` and `closeAllocationCall`
returns an error whenever its polling loop gave up (for the last two the error
names the hash the broadcast had returned), and returns a hash only when the
polling loop run after the broadcast that returned this hash found its receipt
(for the last two, with at least one log). Each of `open-allocation`,
`close-allocation` and `sendpayment` adds no explorer line unless it returns
normally, returns an error whenever a polling loop gave up, and when it returns
normally it ends with the explorer line of the hash returned by `allocateCall`,
`closeAllocationCall` or `collectCall`, every call of the run confirmed. -/
theorem explorer_line_only_on_success (w : World) (c : Crypto) (os : Os) (host : Host)
    (fuel : Nat) :
    (∀ (ctx : Context) (toStr sender addr : String) (amt : Nat) (gasPrice : Int),
      GivenUpFails w (fun _ e => e = "failed to approve. receipt is nil")
        (approveCall w ctx fuel toStr sender addr amt gasPrice) ∧
      ∀ h h' trx, approveCall w ctx fuel toStr sender addr amt gasPrice h = (.ok trx, h') →
        Confirmed w fuel trx h' (fun _ => True)) ∧
    (∀ (ctx : Context) (toStr sender allocation : String) (amt : Nat),
      GivenUpFails w (fun _ e => e = "failed to approve. receipt is nil")
        (collectCall w ctx fuel toStr sender allocation amt) ∧
      ∀ h h' trx, collectCall w ctx fuel toStr sender allocation amt h = (.ok trx, h') →
        Confirmed w fuel trx h' (fun _ => True)) ∧
    (∀ (ctx : Context) (toStr sender indexerAddress deploymentID : String) (amt : Nat)
      (gasPrice : Int),
      GivenUpFails w
        (fun trx e => e = "failed to allocate. no receipt found for transaction " ++ trx)
        (allocateCall w c ctx fuel toStr sender indexerAddress deploymentID amt gasPrice) ∧
      ∀ h h' trx allocationID,
        allocateCall w c ctx fuel toStr sender indexerAddress deploymentID amt gasPrice h =
          (.ok (trx, allocationID), h') →
        Confirmed w fuel trx h' (fun r => r.logs ≠ [])) ∧
    (∀ (ctx : Context) (toStr sender allocationID : String) (gasPrice : Int),
      GivenUpFails w
        (fun trx e => e = "failed to close allocation. no receipt found for transaction " ++ trx)
        (closeAllocationCall w ctx fuel toStr sender allocationID gasPrice) ∧
      ∀ h h' trx,
        closeAllocationCall w ctx fuel toStr sender allocationID gasPrice h = (.ok trx, h') →
        Confirmed w fuel trx h' (fun r => r.logs ≠ [])) ∧
    (∀ flags : OpenAllocationFlags,
      LinkOnlyOnOk (openAllocationE w c os host fuel flags) ∧
      GivenUpFails w
        (fun trx e => e = "failed to allocate. no receipt found for transaction " ++ trx)
        (openAllocationE w c os host fuel flags) ∧
      ∀ h h', openAllocationE w c os host fuel flags h = (.ok (), h') →
        ∃ ctx sender dep h0 h1 trx allocationID line1 line2,
          allocateCall w c ctx fuel StakingContractAddress sender flags.indexerAddress dep
            flags.allocationAmount flags.gasPrice h0 = (.ok (trx, allocationID), h1) ∧
          h' = h1 ++ [.print line1, .print line2, .print (explorerLine trx)] ∧
          Confirmed w fuel trx h1 (fun r => r.logs ≠ [])) ∧
    (∀ flags : CloseAllocationFlags,
      LinkOnlyOnOk (closeAllocationE w os host fuel flags) ∧
      GivenUpFails w
        (fun trx e => e = "failed to close allocation. no receipt found for transaction " ++ trx)
        (closeAllocationE w os host fuel flags) ∧
      ∀ h h', closeAllocationE w os host fuel flags h = (.ok (), h') →
        ∃ ctx sender h0 h1 trx,
          closeAllocationCall w ctx fuel StakingContractAddress sender flags.allocationID
            flags.gasPrice h0 = (.ok trx, h1) ∧
          h' = h1 ++ [.print "Allocation closed successfully\n", .print (explorerLine trx)] ∧
          Confirmed w fuel trx h1 (fun r => r.logs ≠ [])) ∧
    (∀ flags : SendPaymentFlags,
      LinkOnlyOnOk (sendPaymentE w os fuel flags) ∧
      GivenUpFails w
        (fun _ e => e = "failed to approve: failed to approve. receipt is nil" ∨
          e = "failed to collect: failed to approve. receipt is nil")
        (sendPaymentE w os fuel flags) ∧
      ∀ h h', sendPaymentE w os fuel flags h = (.ok (), h') →
        ∃ ctx sender ha0 ha1 approvedTrx h0 h1 trx line2,
          approveCall w ctx fuel GRTTokenContractAddress sender StakingContractAddress
            flags.amount flags.gasPrice ha0 = (.ok approvedTrx, ha1) ∧
          Confirmed w fuel approvedTrx ha1 (fun _ => True) ∧
          collectCall w ctx fuel StakingContractAddress sender flags.allocationID
            flags.amount h0 = (.ok trx, h1) ∧
          Confirmed w fuel trx h1 (fun _ => True) ∧
          h' = h1 ++ [.print "Payment sent\n", .print line2, .print (explorerLine trx)]) := by
  refine ⟨?_, ?_, ?_, ?_, ?_, ?_, ?_⟩
  · intro ctx toStr sender addr amt gasPrice
    exact ⟨approveCall_givenUpFails w ctx fuel toStr sender addr amt gasPrice,
      fun h h' trx hrun => approveCall_ok_confirmed w ctx fuel toStr sender addr amt gasPrice
        h h' trx hrun⟩
  · intro ctx toStr sender allocation amt
    exact ⟨collectCall_givenUpFails w ctx fuel toStr sender allocation amt,
      fun h h' trx hrun => collectCall_ok_confirmed w ctx fuel toStr sender allocation amt
        h h' trx hrun⟩
  · intro ctx toStr sender indexerAddress deploymentID amt gasPrice
    exact ⟨allocateCall_givenUpFails w c ctx fuel toStr sender indexerAddress deploymentID amt
        gasPrice,
      fun h h' trx allocationID hrun => allocateCall_ok_confirmed w c ctx fuel toStr sender
        indexerAddress deploymentID amt gasPrice h h' trx allocationID hrun⟩
  · intro ctx toStr sender allocationID gasPrice
    exact ⟨closeAllocationCall_givenUpFails w ctx fuel toStr sender allocationID gasPrice,
      fun h h' trx hrun => closeAllocationCall_ok_confirmed w ctx fuel toStr sender
        allocationID gasPrice h h' trx hrun⟩
  · intro flags
    refine ⟨openAllocationE_linkOnlyOnOk w c os host fuel flags,
      openAllocationE_givenUpFails w c os host fuel flags, ?_⟩
    intro h h' hrun
    unfold openAllocationE at hrun
    obtain ⟨dep, _, -, hrun⟩ := Run.bind_ok _ _ _ _ _ hrun
    obtain ⟨_, _, -, hrun⟩ := Run.bind_ok _ _ _ _ _ hrun
    obtain ⟨_, _, -, hrun⟩ := Run.bind_ok _ _ _ _ _ hrun
    obtain ⟨key, _, -, hrun⟩ := Run.bind_ok _ _ _ _ _ hrun
    obtain ⟨_, _, -, hrun⟩ := Run.bind_ok _ _ _ _ _ hrun
    obtain ⟨_, h0, -, hrun⟩ := Run.bind_ok _ _ _ _ _ hrun
    obtain ⟨⟨trx, allocationID⟩, h1, hcall, hrun⟩ := Run.bind_ok _ _ _ _ _ hrun
    obtain ⟨addr, h2, haddr, hrun⟩ := Run.bind_ok _ _ _ _ _ hrun
    obtain ⟨_, h3, he1, hrun⟩ := Run.bind_ok _ _ _ _ _ hrun
    obtain ⟨_, h4, he2, hrun⟩ := Run.bind_ok _ _ _ _ _ hrun
    have e3 := emit_apply _ _ _ _ hrun
    have e2 := emit_apply _ _ _ _ he2
    have e1 := emit_apply _ _ _ _ he1
    have e0 : h2 = h1 := by
      obtain ⟨added, ha1, _⟩ := Emits.MustNewAddress (fun _ => False) w allocationID h1
      rw [haddr] at ha1
      cases added with
      | nil => simpa using ha1
      | cons ev rest => rename_i hall; exact absurd (hall ev (List.mem_cons_self _ _)) id
    refine ⟨_, _, dep, h0, h1, trx, allocationID,
      "Allocation created with ID:  " ++ host.pretty addr ++ "\n",
      "Deployment ID:  " ++ dep ++ "\n", hcall, ?_,
      allocateCall_ok_confirmed _ _ _ _ _ _ _ _ _ _ _ _ _ _ hcall⟩
    rw [e3, e2, e1, e0]
    simp
  · intro flags
    refine ⟨closeAllocationE_linkOnlyOnOk w os host fuel flags,
      closeAllocationE_givenUpFails w os host fuel flags, ?_⟩
    intro h h' hrun
    unfold closeAllocationE at hrun
    obtain ⟨_, _, -, hrun⟩ := Run.bind_ok _ _ _ _ _ hrun
    obtain ⟨key, _, -, hrun⟩ := Run.bind_ok _ _ _ _ _ hrun
    obtain ⟨_, h0, -, hrun⟩ := Run.bind_ok _ _ _ _ _ hrun
    obtain ⟨trx, h1, hcall, hrun⟩ := Run.bind_ok _ _ _ _ _ hrun
    obtain ⟨_, h2, he1, hrun⟩ := Run.bind_ok _ _ _ _ _ hrun
    have e2 := emit_apply _ _ _ _ hrun
    have e1 := emit_apply _ _ _ _ he1
    refine ⟨_, _, h0, h1, trx, hcall, ?_,
      closeAllocationCall_ok_confirmed _ _ _ _ _ _ _ _ _ _ hcall⟩
    rw [e2, e1]
    simp
  · intro flags
    refine ⟨sendPaymentE_linkOnlyOnOk w os fuel flags,
      sendPaymentE_givenUpFails w os fuel flags, ?_⟩
    intro h h' hrun
    unfold sendPaymentE at hrun
    obtain ⟨_, _, -, hrun⟩ := Run.bind_ok _ _ _ _ _ hrun
    obtain ⟨key, ha0, -, hrun⟩ := Run.bind_ok _ _ _ _ _ hrun
    obtain ⟨approvedTrx, ha1, happ, hrun⟩ := Run.bind_ok _ _ _ _ _ hrun
    obtain ⟨_, _, -, hrun⟩ := Run.bind_ok _ _ _ _ _ hrun
    obtain ⟨_, _, -, hrun⟩ := Run.bind_ok _ _ _ _ _ hrun
    obtain ⟨_, h0, -, hrun⟩ := Run.bind_ok _ _ _ _ _ hrun
    obtain ⟨trx, h1, hcall, hrun⟩ := Run.bind_ok _ _ _ _ _ hrun
    obtain ⟨_, h2, hf, hrun⟩ := Run.bind_ok _ _ _ _ _ hrun
    obtain ⟨_, h3, he1, hrun⟩ := Run.bind_ok _ _ _ _ _ hrun
    obtain ⟨_, h4, he2, hrun⟩ := Run.bind_ok _ _ _ _ _ hrun
    have e3 := emit_apply _ _ _ _ hrun
    have e2 := emit_apply _ _ _ _ he2
    have e1 := emit_apply _ _ _ _ he1
    have e0 : h2 = h1 := by
      obtain ⟨added, ha1, hall⟩ := Emits.failIf (fun _ => False) (decide (trx = ""))
        "failed to collect. trx is empty" h1
      rw [hf] at ha1
      cases added with
      | nil => simpa using ha1
      | cons ev rest => exact absurd (hall ev (List.mem_cons_self _ _)) id
    have happ' := wrapErr_ok _ _ _ _ _ happ
    have hcall' := wrapErr_ok _ _ _ _ _ hcall
    refine ⟨_, _, ha0, ha1, approvedTrx, h0, h1, trx,
      toString flags.amount ++ " sent to allocation " ++ flags.allocationID ++ "\n",
      happ', approveCall_ok_confirmed _ _ _ _ _ _ _ _ _ _ _ happ', hcall',
      collectCall_ok_confirmed _ _ _ _ _ _ _ _ _ _ hcall', ?_⟩
    rw [e3, e2, e1, e0]
    simp [explorerLine]

/-- C14 (witness): a `close-allocation` run whose receipt is found with a log
ends with the explorer line of the hash returned by `closeAllocationCall`,
which is confirmed; and a `sendpayment` run against an endpoint that never
reports the receipt, whose polling loop gives up, returns the error of the
approve call. -/
theorem explorer_line_only_on_success_witness :
    (∃ ctx sender h0 h1 trx,
      closeAllocationCall (sampleWorld [[1]]) ctx 5 StakingContractAddress sender
        sampleCloseFlags.allocationID sampleCloseFlags.gasPrice h0 = (.ok trx, h1) ∧
      (closeAllocationE (sampleWorld [[1]]) sampleOs sampleHost 5 sampleCloseFlags []).2 =
        h1 ++ [.print "Allocation closed successfully\n", .print (explorerLine trx)] ∧
      Confirmed (sampleWorld [[1]]) 5 trx h1 (fun r => r.logs ≠ [])) ∧
    (Event.print timeoutLine ∈ (sendPaymentE silentWorld sampleOs 10 sampleSendFlags []).2 ∧
      ∃ e, (sendPaymentE silentWorld sampleOs 10 sampleSendFlags []).1 = .error e ∧
        (e = "failed to approve: failed to approve. receipt is nil" ∨
          e = "failed to collect: failed to approve. receipt is nil")) := by
  refine ⟨((explorer_line_only_on_success (sampleWorld [[1]]) (toyCrypto []) sampleOs sampleHost
    5).2.2.2.2.2.1 sampleCloseFlags).2.2 [] _ (Prod.ext (by decide) rfl), by decide, ?_⟩
  obtain ⟨added, h1, h2⟩ := ((explorer_line_only_on_success silentWorld (toyCrypto []) sampleOs
    sampleHost 10).2.2.2.2.2.2 sampleSendFlags).2.1 []
  have hadd : added = (sendPaymentE silentWorld sampleOs 10 sampleSendFlags []).2 := by
    simpa using h1.symm
  have hmem : Event.print timeoutLine ∈ added := by
    rw [hadd]
    decide
  obtain ⟨e, trx, hpre, raw, h3, h4, -, -⟩ := h2 hmem
  exact ⟨e, h3, h4⟩

end NetworkPayments
